import Mathlib

/-!
# OpenDDS publication engine: `DataWriterImpl`

A shallow embedding of `dds/DCPS/DataWriterImpl.cpp`.  The writer object is a
record of its member variables; every member function becomes a function from
the writer (and the answers of its collaborators) to the new writer and the
returned value.

Collaborators (the `WriteDataContainer` behind `data_container_`, the
`TransportClient` base class, the owning publisher and participant, the
clock) are outside the file that is embedded.  Their answers during one call
are collected in an `Env` record, and every call the writer makes on them is
appended to the writer's `trace`, in program order.

Locks, debug logging, observers and the monitor do not change the values that
are modelled and are left out.  The access-control tests compiled in with
`OPENDDS_CONFIG_SECURITY` are answers of the environment (true when the test
is absent or allows the call).  A read outside the bounds of a CORBA sequence
has no defined result: `remove_associations`, the one embedded function with
such a read, returns an `Option`.  Allocation failure (`ACE_NEW_MALLOC_RETURN`)
is not modelled.  The counters of `liveliness_lost_status_` are IDL `long`s
and their increment wraps at 32 bits.  The counters of
`publication_match_status_` are integers and `coherent_samples_` is a natural
number; their overflow is not modelled.

Two string functions of the same namespace are embedded as well:
`ConfigPair::canonicalize` of `dds/DCPS/ConfigStoreImpl.cpp` and
`to_hex_dds_string` of `dds/DCPS/SafetyProfileStreams.cpp`.  Strings are lists
of character codes.
-/

namespace OpenDDS
namespace DCPS

/-! ## Basic types -/

/-- Modelled from the spec: the class `SequenceNumber` (declared in a header
that is not part of the sources) is "a monotonically increasing 64-bit counter
per publication, starting above a reserved unknown sentinel" that "never
decreases" and is "never reused"; it is represented by a natural number. -/
abbrev SequenceNumber := Nat

/-- Modelled from the spec: `SequenceNumber::SEQUENCENUMBER_UNKNOWN()`, the
reserved "unknown" sentinel above which the counter starts. -/
def SEQUENCENUMBER_UNKNOWN : SequenceNumber := 0

/-- Entity identifiers (`GUID_t`), compared only for equality and order. -/
abbrev GUID_t := Nat

/-- The IDL type `DDS::InstanceHandle_t`. -/
abbrev InstanceHandle_t := Int

/-- The constant `DDS::HANDLE_NIL`. -/
def HANDLE_NIL : InstanceHandle_t := 0

/-- The IDL struct `DDS::Time_t`. -/
structure Time_t where
  sec : Int
  nanosec : Nat
  deriving DecidableEq, Repr

/-- The IDL struct `DDS::Duration_t`. -/
structure Duration_t where
  sec : Int
  nanosec : Nat
  deriving DecidableEq, Repr

/-- A `MonotonicTimePoint`, in clock ticks. -/
abbrev MonotonicTimePoint := Int

/-- A `TimeDuration`, in clock ticks. -/
abbrev TimeDuration := Int

/-- The return codes `DDS::RETCODE_*` used by the writer. -/
inductive ReturnCode_t where
  | RETCODE_OK
  | RETCODE_ERROR
  | RETCODE_UNSUPPORTED
  | RETCODE_BAD_PARAMETER
  | RETCODE_PRECONDITION_NOT_MET
  | RETCODE_OUT_OF_RESOURCES
  | RETCODE_NOT_ENABLED
  | RETCODE_IMMUTABLE_POLICY
  | RETCODE_INCONSISTENT_POLICY
  | RETCODE_ALREADY_DELETED
  | RETCODE_TIMEOUT
  | RETCODE_NO_DATA
  | RETCODE_ILLEGAL_OPERATION
  | RETCODE_NOT_ALLOWED_BY_SECURITY
  deriving DecidableEq, Repr

export ReturnCode_t (RETCODE_OK RETCODE_ERROR RETCODE_BAD_PARAMETER
  RETCODE_PRECONDITION_NOT_MET RETCODE_NOT_ENABLED RETCODE_TIMEOUT)

/-- The message kinds (`MessageId`) the writer builds. -/
inductive MessageId where
  | SAMPLE_DATA
  | DATAWRITER_LIVELINESS
  | INSTANCE_REGISTRATION
  | UNREGISTER_INSTANCE
  | DISPOSE_INSTANCE
  | REQUEST_ACK
  | END_COHERENT_CHANGES
  | END_HISTORIC_SAMPLES
  | DISPOSE_UNREGISTER_INSTANCE
  deriving DecidableEq, Repr

export MessageId (SAMPLE_DATA DATAWRITER_LIVELINESS INSTANCE_REGISTRATION
  UNREGISTER_INSTANCE DISPOSE_INSTANCE REQUEST_ACK END_COHERENT_CHANGES
  END_HISTORIC_SAMPLES DISPOSE_UNREGISTER_INSTANCE)

/-- The reliability kinds of `qos_.reliability.kind`. -/
inductive ReliabilityQosPolicyKind where
  | BEST_EFFORT_RELIABILITY_QOS
  | RELIABLE_RELIABILITY_QOS
  deriving DecidableEq, Repr

export ReliabilityQosPolicyKind (BEST_EFFORT_RELIABILITY_QOS RELIABLE_RELIABILITY_QOS)

/-- The liveliness kinds of `qos_.liveliness.kind`. -/
inductive LivelinessQosPolicyKind where
  | AUTOMATIC_LIVELINESS_QOS
  | MANUAL_BY_PARTICIPANT_LIVELINESS_QOS
  | MANUAL_BY_TOPIC_LIVELINESS_QOS
  deriving DecidableEq, Repr

export LivelinessQosPolicyKind (AUTOMATIC_LIVELINESS_QOS
  MANUAL_BY_PARTICIPANT_LIVELINESS_QOS MANUAL_BY_TOPIC_LIVELINESS_QOS)

/-- The status kinds passed to `listener_for` and `set_status_changed_flag`. -/
inductive StatusKind where
  | LIVELINESS_LOST_STATUS
  | PUBLICATION_MATCHED_STATUS
  | OFFERED_DEADLINE_MISSED_STATUS
  | OFFERED_INCOMPATIBLE_QOS_STATUS
  deriving DecidableEq, Repr

export StatusKind (LIVELINESS_LOST_STATUS PUBLICATION_MATCHED_STATUS)

/-- The result type `SendControlStatus` of the transport's control sends. -/
inductive SendControlStatus where
  | SEND_CONTROL_ERROR
  | SEND_CONTROL_OK
  deriving DecidableEq, Repr

export SendControlStatus (SEND_CONTROL_ERROR SEND_CONTROL_OK)

/-! ## Messages -/

/-- The fields of `DataSampleHeader` that the writer assigns. -/
structure DataSampleHeader where
  message_id_ : MessageId
  byte_order_ : Bool
  coherent_change_ : Bool
  historic_sample_ : Bool
  lifespan_duration_ : Bool
  group_coherent_ : Bool
  content_filter_ : Bool
  sequence_repair_ : Bool
  cdr_encapsulation_ : Bool
  key_fields_only_ : Bool
  message_length_ : Nat
  sequence_ : SequenceNumber
  source_timestamp_sec_ : Int
  source_timestamp_nanosec_ : Nat
  lifespan_duration_sec_ : Int
  lifespan_duration_nanosec_ : Nat
  publication_id_ : GUID_t
  publisher_id_ : GUID_t
  deriving DecidableEq, Repr

/-- The `CoherentChangeControl` payload of an END_COHERENT_CHANGES message.
`group_coherent_samples_` maps a writer to its (count, last sequence) pair. -/
structure CoherentChangeControl where
  num_samples_ : Nat
  last_sample_ : SequenceNumber
  group_coherent_ : Bool
  publisher_id_ : GUID_t
  group_coherent_samples_ : List (GUID_t × Nat × SequenceNumber)
  deriving DecidableEq, Repr

/-- What a data block (`Message_Block_Ptr data`) holds: serialized sample or
key bytes, a serialized reader id, or a serialized `CoherentChangeControl`. -/
inductive BlockContent where
  | sample (bytes : List Nat)
  | reader_id (id : GUID_t)
  | coherent (c : CoherentChangeControl)
  deriving DecidableEq, Repr

/-- A non-null data block: its `total_length()` and what was serialized. -/
structure Message_Block where
  total_length : Nat
  content : BlockContent
  deriving DecidableEq, Repr

/-- The message block built by `create_control_message` and
`create_sample_data_message`: the serialized header, chained to `cont`. -/
structure HeaderBlock where
  header : DataSampleHeader
  cont : Option Message_Block
  deriving DecidableEq, Repr

/-- A `DataSampleElement` as the writer sees it: header, the sample set by
`set_sample`, and the exclusion list set by `set_filter_out`. -/
structure DataSampleElement where
  header : DataSampleHeader
  sample : Option HeaderBlock
  filter_out : Option (List GUID_t)
  deriving DecidableEq, Repr

/-- The IDL struct `DDS::PublicationMatchedStatus`. -/
structure PublicationMatchedStatus where
  total_count : Int
  total_count_change : Int
  current_count : Int
  current_count_change : Int
  last_subscription_handle : InstanceHandle_t
  deriving DecidableEq, Repr

/-- The IDL struct `DDS::LivelinessLostStatus`. -/
structure LivelinessLostStatus where
  total_count : Int
  total_count_change : Int
  deriving DecidableEq, Repr

/-- The nested class `DataWriterImpl::AckToken`: the wait bound and the
sequence number captured by `create_ack_token`. -/
structure AckToken where
  max_wait_ : Duration_t
  sequence_ : SequenceNumber
  deriving DecidableEq, Repr

/-- The nested class `DataWriterImpl::ReaderInfo`.  `eval_` records whether the
filter evaluator handle is non-nil. -/
structure ReaderInfo where
  filter_class_name_ : String
  filter_ : String
  expression_params_ : List String
  eval_ : Bool
  expected_sequence_ : SequenceNumber
  durable_ : Bool
  deriving DecidableEq, Repr

/-! ## Calls on collaborators -/

/-- One call made by the writer on a collaborator, with its arguments. -/
inductive Event where
  | obtain_buffer (handle : InstanceHandle_t)
  | obtain_buffer_for_control
  | release_buffer (element : DataSampleElement)
  | enqueue (element : DataSampleElement) (handle : InstanceHandle_t)
  | enqueue_control (element : DataSampleElement)
  | get_unsent_data
  | get_resend_data
  | reenqueue_all (reader : GUID_t)
  | add_reader_acks (reader : GUID_t) (sn : SequenceNumber)
  | remove_reader_acks (reader : GUID_t)
  | register_instance (handle : InstanceHandle_t) (data : Message_Block)
  | container_unregister (handle : InstanceHandle_t) (dup : Bool)
  | container_dispose (handle : InstanceHandle_t)
  | wait_ack_of_seq (max_wait : Duration_t) (sequence : SequenceNumber)
  | send (list : List DataSampleElement) (transaction_id : Nat)
  | send_control (header : DataSampleHeader) (msg : Option HeaderBlock)
  | send_w_control (list : List DataSampleElement) (header : DataSampleHeader)
      (msg : Option HeaderBlock) (destination : GUID_t)
  | message_sent
  | message_dropped
  | associate (remote_id : GUID_t) (active : Bool)
  | assign_handle (id : GUID_t)
  | return_handle (handle : InstanceHandle_t)
  | deref_filter_eval (filter : String)
  | stop_associating (readers : List GUID_t)
  | disassociate (reader : GUID_t)
  | set_status_changed_flag (kind : StatusKind) (flag : Bool)
  | notify_status_condition
  | on_publication_matched (status : PublicationMatchedStatus)
  | on_liveliness_lost (status : LivelinessLostStatus)
  | on_publication_lost (handles : List InstanceHandle_t)
  | participant_assert_liveliness
  | schedule_liveliness_send (delay : TimeDuration)
  | schedule_liveliness_lost (delay : TimeDuration)
  deriving DecidableEq, Repr

/-- Whether the call hands data or a control message to the transport
(`send`, `send_control`, `send_w_control` of `TransportClient`). -/
def Event.is_transport_send : Event → Bool
  | Event.send _ _ => true
  | Event.send_control _ _ => true
  | Event.send_w_control _ _ _ _ => true
  | _ => false

/-- The owning publisher as seen through `publisher_servant_.lock()`. -/
structure PublisherImpl where
  publisher_id_ : GUID_t
  is_suspended : Bool
  group_presentation : Bool
  listener_for : StatusKind → Bool

/-- The owning participant as seen through `participant_servant_.lock()`. -/
structure DomainParticipantImpl where
  assign_handle : GUID_t → InstanceHandle_t
  lookup_handle : GUID_t → InstanceHandle_t
  get_filter_eval : String → Bool
  assert_liveliness : ReturnCode_t

/-- The answers of the collaborators during one call on the writer. -/
structure Env where
  publisher : Option PublisherImpl
  participant : Option DomainParticipantImpl
  swap_bytes : Bool
  ACE_CDR_BYTE_ORDER : Bool
  cdr_encapsulation : Bool
  obtain_buffer : ReturnCode_t × DataSampleElement
  get_handle_instance : InstanceHandle_t → Bool
  enqueue : ReturnCode_t
  get_unsent_data : List DataSampleElement × Nat
  obtain_buffer_for_control : ReturnCode_t × DataSampleElement
  enqueue_control : ReturnCode_t
  get_resend_data : List DataSampleElement
  register_instance : InstanceHandle_t → ReturnCode_t × InstanceHandle_t
  container_unregister : Option Message_Block → Bool → ReturnCode_t × Option Message_Block
  container_dispose : ReturnCode_t × Option Message_Block
  wait_ack_of_seq : Duration_t → SequenceNumber → ReturnCode_t
  send_control : SendControlStatus
  send_w_control : SendControlStatus
  supports_liveliness : Bool
  check_register_instance : Bool
  check_dispose_instance : Bool
  serialize : Nat → Option Message_Block
  serialize_sample : Option Message_Block
  sample_eval : String → List String → Bool
  narrow_ext_listener : Bool
  serialized_size : BlockContent → Nat
  new_header : DataSampleHeader
  new_coherent_change_control : CoherentChangeControl
  system_now : Time_t
  monotonic_now : MonotonicTimePoint

/-! ## The writer -/

/-- The member variables of `DataWriterImpl` that the embedded functions read
or write, and the `trace` of calls made on collaborators. -/
structure DataWriterImpl where
  enabled_ : Bool
  deleted_ : Bool
  is_bit_ : Bool
  publication_id_ : GUID_t
  publisher_content_filter_ : Bool
  reliability_kind : ReliabilityQosPolicyKind
  liveliness_kind : LivelinessQosPolicyKind
  lifespan_duration : Duration_t
  autodispose_unregistered_instances : Bool
  listener_ : Bool
  listener_mask_ : StatusKind → Bool
  sequence_number_ : SequenceNumber
  coherent_ : Bool
  coherent_samples_ : Nat
  reader_info_ : List (GUID_t × ReaderInfo)
  readers_ : List GUID_t
  id_to_handle_map_ : List (GUID_t × InstanceHandle_t)
  publication_match_status_ : PublicationMatchedStatus
  liveliness_lost_status_ : LivelinessLostStatus
  liveliness_lost_ : Bool
  last_liveliness_activity_time_ : MonotonicTimePoint
  liveliness_send_interval_ : TimeDuration
  liveliness_lost_interval_ : TimeDuration
  available_data_list_ : List DataSampleElement
  min_suspended_transaction_id_ : Nat
  max_suspended_transaction_id_ : Nat
  instance_handles_to_values_ : List (InstanceHandle_t × Nat)
  instance_values_to_handles_ : List (Nat × InstanceHandle_t)
  trace : List Event

/-- Append a collaborator call to the trace. -/
def DataWriterImpl.log (s : DataWriterImpl) (e : Event) : DataWriterImpl :=
  { s with trace := s.trace ++ [e] }

/-- The constants `DDS::DURATION_INFINITE_SEC` and `DDS::DURATION_INFINITE_NSEC`. -/
def DURATION_INFINITE_SEC : Int := 2147483647

/-- The constant `DDS::DURATION_INFINITE_NSEC`. -/
def DURATION_INFINITE_NSEC : Nat := 2147483647

/-! ## Sequencing -/

/-- Modelled from the spec: `get_max_sn()` (declared in the missing header) is
the "get current max sequence number" query: it returns `sequence_number_`. -/
def get_max_sn (s : DataWriterImpl) : SequenceNumber :=
  s.sequence_number_

/-- Modelled from the spec: `get_next_sn_i()` (declared in the missing header)
consumes "exactly one number" of the "monotonically increasing" counter that
starts "above" the unknown sentinel: it advances `sequence_number_` by one and
returns the new value. -/
def get_next_sn_i (s : DataWriterImpl) : SequenceNumber × DataWriterImpl :=
  (s.sequence_number_ + 1, { s with sequence_number_ := s.sequence_number_ + 1 })

/-- The loop of `DataWriterImpl::need_sequence_repair_i`: some reader's
`expected_sequence_` differs from `sequence_number_`. -/
def need_sequence_repair_i (s : DataWriterImpl) : Bool :=
  s.reader_info_.any (fun it => it.2.expected_sequence_ != s.sequence_number_)

/-- The member `DataWriterImpl::need_sequence_repair`. -/
def need_sequence_repair (s : DataWriterImpl) : Bool :=
  need_sequence_repair_i s

/-- The chain of tests in `create_control_message` that selects the kinds
which take a sequence number. -/
def consumes_sequence (message_id : MessageId) : Bool :=
  message_id == INSTANCE_REGISTRATION
    || message_id == DISPOSE_INSTANCE
    || message_id == UNREGISTER_INSTANCE
    || message_id == DISPOSE_UNREGISTER_INSTANCE
    || message_id == REQUEST_ACK

/-- The value assigned to `byte_order_`:
`swap_bytes() ? !ACE_CDR_BYTE_ORDER : ACE_CDR_BYTE_ORDER`. -/
def byte_order (env : Env) : Bool :=
  if env.swap_bytes then !env.ACE_CDR_BYTE_ORDER else env.ACE_CDR_BYTE_ORDER

/-- What `create_control_message` leaves behind: the returned block (`none`
for the null pointer), the header it filled in, and the writer. -/
structure ControlResult where
  message : Option HeaderBlock
  header_data : DataSampleHeader
  state : DataWriterImpl

/-- The member `DataWriterImpl::create_control_message`. -/
def create_control_message (env : Env) (s : DataWriterImpl) (message_id : MessageId)
    (header_data : DataSampleHeader) (data : Option Message_Block)
    (source_timestamp : Time_t) : ControlResult :=
  let h1 : DataSampleHeader :=
    { header_data with
      message_id_ := message_id
      byte_order_ := byte_order env
      coherent_change_ := false }
  let h2 : DataSampleHeader :=
    match data with
    | some d => { h1 with message_length_ := d.total_length }
    | none => h1
  let h3 : DataSampleHeader :=
    { h2 with
      sequence_ := SEQUENCENUMBER_UNKNOWN
      sequence_repair_ := false
      source_timestamp_sec_ := source_timestamp.sec
      source_timestamp_nanosec_ := source_timestamp.nanosec
      publication_id_ := s.publication_id_ }
  match env.publisher with
  | none => { message := none, header_data := h3, state := s }
  | some publisher =>
    let h4 : DataSampleHeader := { h3 with publisher_id_ := publisher.publisher_id_ }
    -- `sequence` is read before and, for the consuming kinds, after the increment
    let stamped : DataSampleHeader × SequenceNumber × DataWriterImpl :=
      if consumes_sequence message_id then
        let repair := need_sequence_repair s
        let next := get_next_sn_i s
        ({ h4 with
            sequence_repair_ := repair
            sequence_ := next.1
            key_fields_only_ := true },
          next.2.sequence_number_, next.2)
      else (h4, s.sequence_number_, s)
    let h5 := stamped.1
    let sequence := stamped.2.1
    let s1 := stamped.2.2
    let message : HeaderBlock :=
      { header := h5, cont := if h5.message_length_ != 0 then data else none }
    let s2 : DataWriterImpl :=
      if h5.sequence_ != SEQUENCENUMBER_UNKNOWN then
        { s1 with
          reader_info_ := s1.reader_info_.map
            (fun reader => (reader.1, { reader.2 with expected_sequence_ := sequence })) }
      else s1
    { message := some message, header_data := h5, state := s2 }

/-- What `create_sample_data_message` leaves behind: the return code, the
header it filled in, the `message` out-parameter, and the writer. -/
structure SampleResult where
  ret : ReturnCode_t
  header_data : DataSampleHeader
  message : Option HeaderBlock
  state : DataWriterImpl

/-- The member `DataWriterImpl::create_sample_data_message`. -/
def create_sample_data_message (env : Env) (s : DataWriterImpl) (data : Message_Block)
    (instance_handle : InstanceHandle_t) (header_data : DataSampleHeader)
    (source_timestamp : Time_t) (content_filter : Bool) : SampleResult :=
  if !env.get_handle_instance instance_handle then
    { ret := RETCODE_ERROR, header_data := header_data, message := none, state := s }
  else
    let h1 : DataSampleHeader :=
      { header_data with
        message_id_ := SAMPLE_DATA
        byte_order_ := byte_order env
        coherent_change_ := s.coherent_ }
    match env.publisher with
    | none => { ret := RETCODE_ERROR, header_data := h1, message := none, state := s }
    | some publisher =>
      let h2 : DataSampleHeader :=
        { h1 with
          group_coherent_ := publisher.group_presentation
          content_filter_ := content_filter
          cdr_encapsulation_ := env.cdr_encapsulation
          message_length_ := data.total_length }
      let repair := need_sequence_repair s
      let next := get_next_sn_i s
      let h3 : DataSampleHeader :=
        { h2 with
          sequence_repair_ := repair
          sequence_ := next.1
          source_timestamp_sec_ := source_timestamp.sec
          source_timestamp_nanosec_ := source_timestamp.nanosec }
      let h4 : DataSampleHeader :=
        if s.lifespan_duration.sec != DURATION_INFINITE_SEC
            || s.lifespan_duration.nanosec != DURATION_INFINITE_NSEC then
          { h3 with
            lifespan_duration_ := true
            lifespan_duration_sec_ := s.lifespan_duration.sec
            lifespan_duration_nanosec_ := s.lifespan_duration.nanosec }
        else h3
      let h5 : DataSampleHeader :=
        { h4 with
          publication_id_ := s.publication_id_
          publisher_id_ := publisher.publisher_id_ }
      { ret := RETCODE_OK, header_data := h5,
        message := some { header := h5, cont := some data }, state := next.2 }

/-- The member `DataWriterImpl::track_sequence_number`.  The set `excluded` is
filled from `filter_out` only when `reader_info_` is not empty. -/
def track_sequence_number (s : DataWriterImpl) (filter_out : Option (List GUID_t)) :
    DataWriterImpl :=
  let sn := get_max_sn s
  let excluded : List GUID_t :=
    match filter_out with
    | some buf => if !s.reader_info_.isEmpty then buf else []
    | none => []
  { s with
    reader_info_ := s.reader_info_.map (fun iter =>
      if excluded.count iter.1 == 0 then
        (iter.1, { iter.2 with expected_sequence_ := sn })
      else iter) }

/-- The arguments of one `write` call. -/
structure WriteArgs where
  data : Message_Block
  handle : InstanceHandle_t
  source_timestamp : Time_t
  filter_out : Option (List GUID_t)

/-- What `write` leaves behind: the return code, the writer, and the element
obtained from the container with the header as stamped (`none` when no
element was obtained). -/
structure WriteResult where
  ret : ReturnCode_t
  state : DataWriterImpl
  element : Option DataSampleElement

/-- The test `!publisher || publisher->is_suspended()`. -/
def absent_or_suspended (env : Env) : Bool :=
  match env.publisher with
  | none => true
  | some publisher => publisher.is_suspended

/-- The statements of `DataWriterImpl::write` that follow a successful
`enqueue`: liveliness bookkeeping, `track_sequence_number`, the coherent
counter, and the hand-over of the unsent list (deferred while the publisher
is absent or suspended, sent otherwise). -/
def write_enqueued (env : Env) (s2 : DataWriterImpl) (filter_out : Option (List GUID_t)) :
    DataWriterImpl :=
  let s3 : DataWriterImpl :=
    { s2 with
      last_liveliness_activity_time_ := env.monotonic_now
      liveliness_lost_ := false }
  let s4 := track_sequence_number s3 filter_out
  let s5 : DataWriterImpl :=
    if s4.coherent_ then { s4 with coherent_samples_ := s4.coherent_samples_ + 1 }
    else s4
  let s6 := s5.log Event.get_unsent_data
  let list := env.get_unsent_data.1
  let transaction_id := env.get_unsent_data.2
  if absent_or_suspended env then
    let s6a : DataWriterImpl :=
      if s6.min_suspended_transaction_id_ == 0 then
        { s6 with min_suspended_transaction_id_ := transaction_id }
      else
        { s6 with max_suspended_transaction_id_ := transaction_id }
    { s6a with available_data_list_ := s6a.available_data_list_ ++ list }
  else
    s6.log (Event.send list transaction_id)

/-- The member `DataWriterImpl::write`. -/
def write (env : Env) (s : DataWriterImpl) (a : WriteArgs) : WriteResult :=
  if !s.enabled_ then
    { ret := RETCODE_NOT_ENABLED, state := s, element := none }
  else
    let s1 := s.log (Event.obtain_buffer a.handle)
    let ret := env.obtain_buffer.1
    if ret == RETCODE_TIMEOUT then
      { ret := ret, state := s1, element := none }
    else if ret != RETCODE_OK then
      { ret := ret, state := s1, element := none }
    else
      let element := env.obtain_buffer.2
      let r := create_sample_data_message env s1 a.data a.handle element.header
        a.source_timestamp a.filter_out.isSome
      let element1 : DataSampleElement :=
        { element with header := r.header_data, sample := r.message }
      if r.ret != RETCODE_OK then
        { ret := r.ret, state := r.state.log (Event.release_buffer element1),
          element := some element1 }
      else
        let element2 : DataSampleElement := { element1 with filter_out := a.filter_out }
        let s2 := r.state.log (Event.enqueue element2 a.handle)
        let ret2 := env.enqueue
        if ret2 != RETCODE_OK then
          { ret := ret2, state := s2.log (Event.release_buffer element2),
            element := some element2 }
        else
          { ret := RETCODE_OK, state := write_enqueued env s2 a.filter_out,
            element := some element2 }

/-- The element a successful `write` enqueues. -/
def written_element (env : Env) (s : DataWriterImpl) (a : WriteArgs) : DataSampleElement :=
  let r := create_sample_data_message env (s.log (Event.obtain_buffer a.handle)) a.data
    a.handle env.obtain_buffer.2.header a.source_timestamp a.filter_out.isSome
  { header := r.header_data, sample := r.message, filter_out := a.filter_out }

/-- Consecutive `write` calls: each call runs on the writer left by the one
before it; the results are returned in call order. -/
def write_calls : List (Env × WriteArgs) → DataWriterImpl → List WriteResult
  | [], _ => []
  | c :: cs, s =>
    let r := write c.1 s c.2
    r :: write_calls cs r.state

/-- The writer after a run of consecutive `write` calls. -/
def after_writes : List (Env × WriteArgs) → DataWriterImpl → DataWriterImpl
  | [], s => s
  | c :: cs, s => after_writes cs (write c.1 s c.2).state

/-! ## Containers

The members `reader_info_`, `id_to_handle_map_` and the two instance maps are
`std::map`s and `readers_` is a `std::set`; they are kept as lists without
repeated keys.  No embedded function depends on the iteration order. -/

/-- The call `m.insert(std::make_pair(k, v))` on a `std::map`: the pair is
added only when `k` is not yet a key; the flag is `.second` of the result. -/
def map_insert {α β : Type} [BEq α] (m : List (α × β)) (k : α) (v : β) :
    List (α × β) × Bool :=
  if (m.lookup k).isSome then (m, false) else (m ++ [(k, v)], true)

/-- The call `m.erase(k)` on a `std::map`. -/
def map_erase {α β : Type} [BEq α] (m : List (α × β)) (k : α) : List (α × β) :=
  m.filter (fun p => !(p.1 == k))

/-- The call `c.insert(v)` on a `std::set`; the flag is `.second`. -/
def set_insert {α : Type} [BEq α] (c : List α) (v : α) : List α × Bool :=
  if c.contains v then (c, false) else (c ++ [v], true)

/-! ## Association -/

/-- The durability kinds of `readerQos.durability.kind`, in IDL order. -/
inductive DurabilityQosPolicyKind where
  | VOLATILE_DURABILITY_QOS
  | TRANSIENT_LOCAL_DURABILITY_QOS
  | TRANSIENT_DURABILITY_QOS
  | PERSISTENT_DURABILITY_QOS
  deriving DecidableEq, Repr

export DurabilityQosPolicyKind (VOLATILE_DURABILITY_QOS TRANSIENT_LOCAL_DURABILITY_QOS
  TRANSIENT_DURABILITY_QOS PERSISTENT_DURABILITY_QOS)

/-- The fields of the IDL struct `ReaderAssociation` read by `add_association`. -/
structure ReaderAssociation where
  readerId : GUID_t
  filterClassName : String
  filterExpression : String
  exprParams : List String
  durability_kind : DurabilityQosPolicyKind
  reliability_kind : ReliabilityQosPolicyKind

/-- The constructor `DataWriterImpl::ReaderInfo::ReaderInfo`: the cursor starts
at `SEQUENCENUMBER_UNKNOWN`; the evaluator is fetched when the participant is
alive and the filter is not empty. -/
def ReaderInfo.ctor (env : Env) (filterClassName filter : String) (params : List String)
    (durable : Bool) : ReaderInfo :=
  { filter_class_name_ := filterClassName
    filter_ := filter
    expression_params_ := params
    eval_ :=
      match env.participant with
      | some part => if filter != "" then part.get_filter_eval filter else false
      | none => false
    expected_sequence_ := SEQUENCENUMBER_UNKNOWN
    durable_ := durable }

/-- The destructor `DataWriterImpl::ReaderInfo::~ReaderInfo`: the filter
evaluator is released through the participant when the participant is alive
and the filter is not empty. -/
def ReaderInfo.dtor (env : Env) (s : DataWriterImpl) (info : ReaderInfo) : DataWriterImpl :=
  match env.participant with
  | some _ => if info.filter_ != "" then s.log (Event.deref_filter_eval info.filter_) else s
  | none => s

/-- The member `DataWriterImpl::add_association`.  The statement
`reader_info_.insert(std::make_pair(id, ReaderInfo(...)))` builds two
temporaries, the `ReaderInfo` and the pair that holds a copy of it; both are
destroyed when the statement ends, after the insertion.  The transport's
`associate` is recorded as a call; its completion arrives as
`association_complete_i`. -/
def add_association (env : Env) (s : DataWriterImpl) (reader : ReaderAssociation)
    (active : Bool) : DataWriterImpl :=
  if s.deleted_ then s
  else
    let info := ReaderInfo.ctor env reader.filterClassName
      (if s.publisher_content_filter_ then reader.filterExpression else "")
      reader.exprParams
      (decide (reader.durability_kind ≠ VOLATILE_DURABILITY_QOS))
    let s1 : DataWriterImpl :=
      { s with reader_info_ := (map_insert s.reader_info_ reader.readerId info).1 }
    let s2 := ReaderInfo.dtor env (ReaderInfo.dtor env s1 info) info
    s2.log (Event.associate reader.readerId active)

/-- The member `DataWriterImpl::listener_for`: whether the listener it returns
is non-nil. -/
def listener_for (env : Env) (s : DataWriterImpl) (kind : StatusKind) : Bool :=
  match env.publisher with
  | none => false
  | some publisher =>
    if !s.listener_ || !s.listener_mask_ kind then publisher.listener_for kind
    else true

/-- The assignment `list_el->get_header().historic_sample_ = true`. -/
def set_historic (list_el : DataSampleElement) : DataSampleElement :=
  { list_el with header := { list_el.header with historic_sample_ := true } }

/-- The loop of `association_complete_i` over the resend list: every element
is marked historic and `seq` is raised to each larger header sequence. -/
def mark_historic : List DataSampleElement → SequenceNumber →
    List DataSampleElement × SequenceNumber
  | [], seq => ([], seq)
  | list_el :: rest, seq =>
    let seq1 := if list_el.header.sequence_ > seq then list_el.header.sequence_ else seq
    let r := mark_historic rest seq1
    (set_historic list_el :: r.1, r.2)

/-- The first half of the statements under "Support DURABILITY QoS" in
`association_complete_i` (the same statements form `replay_durable_data_for`):
the container re-stages its samples, the resend list is fetched, every element
is marked historic and the reader's cursor is raised.  The result is the marked
list and the writer.  It runs only for a reader found in `reader_info_`. -/
def replay_stage (env : Env) (s : DataWriterImpl) (remote_id : GUID_t) :
    List DataSampleElement × DataWriterImpl :=
  let s1 := (s.log (Event.reenqueue_all remote_id)).log Event.get_resend_data
  let list := env.get_resend_data
  let seq0 : SequenceNumber :=
    match s1.reader_info_.lookup remote_id with
    | some info => info.expected_sequence_
    | none => SEQUENCENUMBER_UNKNOWN
  let marked := mark_historic list seq0
  (marked.1,
    { s1 with
      reader_info_ := s1.reader_info_.map (fun it =>
        if it.1 == remote_id then (it.1, { it.2 with expected_sequence_ := marked.2 })
        else it) })

/-- The statements under "Support DURABILITY QoS" in `association_complete_i`:
after `replay_stage`, the batch is appended to `available_data_list_` when the
publisher is absent or suspended, and otherwise sent with an
END_HISTORIC_SAMPLES control message built for the reader. -/
def replay (env : Env) (s : DataWriterImpl) (remote_id : GUID_t) : DataWriterImpl :=
  let staged := replay_stage env s remote_id
  let list := staged.1
  let s2 := staged.2
  if absent_or_suspended env then
    { s2 with available_data_list_ := s2.available_data_list_ ++ list }
  else
    let data : Message_Block :=
      { total_length := env.serialized_size (BlockContent.reader_id remote_id)
        content := BlockContent.reader_id remote_id }
    let c := create_control_message env s2 END_HISTORIC_SAMPLES env.new_header (some data)
      env.system_now
    let s3 := c.state.log Event.message_sent
    let s4 := s3.log (Event.send_w_control list c.header_data c.message remote_id)
    if env.send_w_control == SEND_CONTROL_ERROR then s4.log Event.message_dropped
    else s4

/-- The member `DataWriterImpl::replay_durable_data_for`. -/
def replay_durable_data_for (env : Env) (s : DataWriterImpl) (remote_id : GUID_t) :
    DataWriterImpl :=
  let reader_durable : Bool :=
    match s.reader_info_.lookup remote_id with
    | some info => info.durable_
    | none => false
  if reader_durable then replay env s remote_id else s

/-- The statements of `association_complete_i` before "Support DURABILITY
QoS": the reader joins `readers_`, the container is asked for reader-ack
bookkeeping, and (unless the writer is for a built-in topic) the matched status
is updated.  The flag is false when the function has returned early (the
participant is gone, or the reader already has a handle). -/
def association_matched (env : Env) (s : DataWriterImpl) (remote_id : GUID_t) :
    Bool × DataWriterImpl :=
  let s1 : DataWriterImpl := { s with readers_ := (set_insert s.readers_ remote_id).1 }
  if !s1.is_bit_ then
    match env.participant with
    | none => (false, s1)
    | some participant =>
      let s2 := s1.log (Event.add_reader_acks remote_id (get_max_sn s1))
      let handle := participant.assign_handle remote_id
      let s3 := s2.log (Event.assign_handle remote_id)
      let bound := map_insert s3.id_to_handle_map_ remote_id handle
      if !bound.2 then (false, s3)
      else
        let st := s3.publication_match_status_
        let st1 : PublicationMatchedStatus :=
          { total_count := st.total_count + 1
            total_count_change := st.total_count_change + 1
            current_count := st.current_count + 1
            current_count_change := st.current_count_change + 1
            last_subscription_handle := handle }
        let s4 : DataWriterImpl :=
          ({ s3 with id_to_handle_map_ := bound.1, publication_match_status_ := st1 }
            : DataWriterImpl).log (Event.set_status_changed_flag PUBLICATION_MATCHED_STATUS true)
        let s5 : DataWriterImpl :=
          if listener_for env s4 PUBLICATION_MATCHED_STATUS then
            let s4a := s4.log (Event.on_publication_matched s4.publication_match_status_)
            { s4a with
              publication_match_status_ :=
                { s4a.publication_match_status_ with
                  total_count_change := 0
                  current_count_change := 0 } }
          else s4
        (true, s5.log Event.notify_status_condition)
  else
    (true, s1.log (Event.add_reader_acks remote_id (get_max_sn s1)))

/-- The local `reader_durable` of `association_complete_i`: the `durable_` flag
of the reader's record, false when the reader has no record. -/
def reader_durable (s : DataWriterImpl) (remote_id : GUID_t) : Bool :=
  match s.reader_info_.lookup remote_id with
  | some info => info.durable_
  | none => false

/-- The member `DataWriterImpl::association_complete_i`. -/
def association_complete_i (env : Env) (s : DataWriterImpl) (remote_id : GUID_t) :
    DataWriterImpl :=
  let durable := reader_durable s remote_id
  let matched := association_matched env s remote_id
  if matched.1 && durable then replay env matched.2 remote_id
  else matched.2

/-! ## Control operations -/

/-- The member `DataWriterImpl::send_all_to_flush_control`. -/
def send_all_to_flush_control (env : Env) (s : DataWriterImpl) : DataWriterImpl :=
  let s1 := s.log Event.get_unsent_data
  let list := env.get_unsent_data.1
  let transaction_id := env.get_unsent_data.2
  let s2 := s1.log Event.message_sent
  s2.log (Event.send list transaction_id)

/-- The member `DataWriterImpl::send_control`: the tracker is told, the
transport sends, and a failed send is counted as dropped. -/
def send_control (env : Env) (s : DataWriterImpl) (header : DataSampleHeader)
    (msg : Option HeaderBlock) : SendControlStatus × DataWriterImpl :=
  let s1 := s.log Event.message_sent
  let s2 := s1.log (Event.send_control header msg)
  let status := env.send_control
  if status != SEND_CONTROL_OK then (status, s2.log Event.message_dropped)
  else (status, s2)

/-- What `send_request_ack` leaves behind: the return code, the writer, and
the control element with the header as stamped (`none` when no buffer was
obtained). -/
structure RequestAckResult where
  ret : ReturnCode_t
  state : DataWriterImpl
  element : Option DataSampleElement

/-- The member `DataWriterImpl::send_request_ack`. -/
def send_request_ack (env : Env) (s : DataWriterImpl) : RequestAckResult :=
  let s1 := s.log Event.obtain_buffer_for_control
  let ret := env.obtain_buffer_for_control.1
  if ret != RETCODE_OK then
    { ret := ret, state := s1, element := none }
  else
    let element := env.obtain_buffer_for_control.2
    let c := create_control_message env s1 REQUEST_ACK element.header none env.system_now
    let element1 : DataSampleElement :=
      { element with header := c.header_data, sample := c.message }
    let s2 := c.state.log (Event.enqueue_control element1)
    let ret1 := env.enqueue_control
    if ret1 != RETCODE_OK then
      { ret := ret1, state := s2.log (Event.release_buffer element1),
        element := some element1 }
    else
      { ret := RETCODE_OK, state := send_all_to_flush_control env s2,
        element := some element1 }

/-- The control element `send_request_ack` passes to `enqueue_control`: the
element obtained from the container with the stamped header and the block
returned by `create_control_message`. -/
def request_ack_element (env : Env) (s : DataWriterImpl) : DataSampleElement :=
  let c := create_control_message env (s.log Event.obtain_buffer_for_control) REQUEST_ACK
    env.obtain_buffer_for_control.2.header none env.system_now
  { env.obtain_buffer_for_control.2 with header := c.header_data, sample := c.message }

/-- The member `DataWriterImpl::create_ack_token`. -/
def create_ack_token (s : DataWriterImpl) (max_wait : Duration_t) : AckToken :=
  { max_wait_ := max_wait, sequence_ := get_max_sn s }

/-- The member `DataWriterImpl::wait_for_specific_ack`: the container is asked
to wait for the token's sequence until the token's deadline. -/
def wait_for_specific_ack (env : Env) (s : DataWriterImpl) (token : AckToken) :
    ReturnCode_t × DataWriterImpl :=
  (env.wait_ack_of_seq token.max_wait_ token.sequence_,
    s.log (Event.wait_ack_of_seq token.max_wait_ token.sequence_))

/-- The member `DataWriterImpl::wait_for_acknowledgments`. -/
def wait_for_acknowledgments (env : Env) (s : DataWriterImpl) (max_wait : Duration_t) :
    ReturnCode_t × DataWriterImpl :=
  if s.reliability_kind != RELIABLE_RELIABILITY_QOS then (RETCODE_OK, s)
  else
    let r := send_request_ack env s
    if r.ret != RETCODE_OK then (r.ret, r.state)
    else
      let token := create_ack_token r.state max_wait
      wait_for_specific_ack env r.state token

/-! ## Instance registry -/

/-- The member `DataWriterImpl::lookup_instance`, on the key of the sample. -/
def lookup_instance (s : DataWriterImpl) (key : Nat) : InstanceHandle_t :=
  match s.instance_values_to_handles_.lookup key with
  | none => HANDLE_NIL
  | some handle => handle

/-- The member `DataWriterImpl::get_key_value`: the key held for `handle`. -/
def get_key_value (s : DataWriterImpl) (handle : InstanceHandle_t) :
    ReturnCode_t × Option Nat :=
  match s.instance_handles_to_values_.lookup handle with
  | none => (RETCODE_BAD_PARAMETER, none)
  | some key => (RETCODE_OK, some key)

/-- The member `DataWriterImpl::insert_instance`. -/
def insert_instance (s : DataWriterImpl) (handle : InstanceHandle_t) (key : Nat) :
    Bool × DataWriterImpl :=
  let r1 := map_insert s.instance_handles_to_values_ handle key
  if !r1.2 then (false, s)
  else
    let r2 := map_insert s.instance_values_to_handles_ key handle
    if !r2.2 then
      (false, { s with instance_handles_to_values_ := map_erase r1.1 handle })
    else
      (true, { s with instance_handles_to_values_ := r1.1
                      instance_values_to_handles_ := r2.1 })

/-- What `register_instance_i` leaves behind: the return code, the `handle`
in-out parameter, and the writer. -/
structure RegisterResult where
  ret : ReturnCode_t
  handle : InstanceHandle_t
  state : DataWriterImpl

/-- The member `DataWriterImpl::register_instance_i`. -/
def register_instance_i (env : Env) (s : DataWriterImpl) (handle : InstanceHandle_t)
    (data : Message_Block) (source_timestamp : Time_t) : RegisterResult :=
  if !s.enabled_ then
    { ret := RETCODE_NOT_ENABLED, handle := handle, state := s }
  else
    let s1 := s.log (Event.register_instance handle data)
    let reg := env.register_instance handle
    if reg.1 != RETCODE_OK then
      { ret := reg.1, handle := reg.2, state := s1 }
    else
      let s2 := s1.log Event.obtain_buffer_for_control
      let ret := env.obtain_buffer_for_control.1
      if ret != RETCODE_OK then
        { ret := ret, handle := reg.2, state := s2 }
      else
        let element := env.obtain_buffer_for_control.2
        let c := create_control_message env s2 INSTANCE_REGISTRATION element.header
          (some data) source_timestamp
        let element1 : DataSampleElement :=
          { element with header := c.header_data, sample := c.message }
        let s3 := c.state.log (Event.enqueue_control element1)
        let ret1 := env.enqueue_control
        if ret1 != RETCODE_OK then
          { ret := ret1, handle := reg.2, state := s3.log (Event.release_buffer element1) }
        else
          { ret := ret1, handle := reg.2, state := s3 }

/-- The member `DataWriterImpl::get_or_create_instance_handle`, on the key of
the sample.  The result carries the `handle` out-parameter. -/
def get_or_create_instance_handle (env : Env) (s : DataWriterImpl) (key : Nat)
    (source_timestamp : Time_t) : RegisterResult :=
  let handle := lookup_instance s key
  if handle == HANDLE_NIL || !env.get_handle_instance handle then
    if !env.check_register_instance then
      { ret := ReturnCode_t.RETCODE_NOT_ALLOWED_BY_SECURITY, handle := handle, state := s }
    else
      match env.serialize key with
      | none => { ret := RETCODE_ERROR, handle := handle, state := s }
      | some serialized =>
        let r := register_instance_i env s handle serialized source_timestamp
        if r.ret != RETCODE_OK then
          { ret := r.ret, handle := HANDLE_NIL, state := r.state }
        else
          let ins := insert_instance r.state r.handle key
          if !ins.1 then
            { ret := RETCODE_ERROR, handle := HANDLE_NIL, state := ins.2 }
          else
            { ret := RETCODE_OK, handle := r.handle,
              state := send_all_to_flush_control env ins.2 }
  else
    { ret := RETCODE_OK, handle := handle, state := s }

/-- The member `DataWriterImpl::register_instance_w_timestamp`. -/
def register_instance_w_timestamp (env : Env) (s : DataWriterImpl) (key : Nat)
    (timestamp : Time_t) : InstanceHandle_t × DataWriterImpl :=
  let r := get_or_create_instance_handle env s key timestamp
  (r.handle, r.state)

/-! ## Suspension -/

/-- The member `DataWriterImpl::send_suspended_data`. -/
def send_suspended_data (s : DataWriterImpl) : DataWriterImpl :=
  let s1 : DataWriterImpl :=
    if s.max_suspended_transaction_id_ != 0 then
      { s.log (Event.send s.available_data_list_ s.max_suspended_transaction_id_) with
        max_suspended_transaction_id_ := 0 }
    else s
  let s2 := s1.log (Event.send s1.available_data_list_ s1.min_suspended_transaction_id_)
  { s2 with min_suspended_transaction_id_ := 0, available_data_list_ := [] }

/-! ## Liveliness -/

/-- The member `DataWriterImpl::send_liveliness`. -/
def send_liveliness (env : Env) (s : DataWriterImpl) (now : MonotonicTimePoint) :
    Bool × DataWriterImpl :=
  let sent : Bool × DataWriterImpl :=
    if s.liveliness_kind == MANUAL_BY_TOPIC_LIVELINESS_QOS || !env.supports_liveliness then
      let c := create_control_message env s DATAWRITER_LIVELINESS env.new_header none
        env.system_now
      let r := send_control env c.state c.header_data c.message
      (r.1 != SEND_CONTROL_ERROR, r.2)
    else (true, s)
  if !sent.1 then (false, sent.2)
  else
    (true, { sent.2 with last_liveliness_activity_time_ := now, liveliness_lost_ := false })

/-- The increment `++x` of an IDL `long`, a 32-bit integer in two's complement:
the value after 2147483647 is -2147483648. -/
def long_increment (x : Int) : Int :=
  (x + 1 + 2147483648) % 4294967296 - 2147483648

/-- The member `DataWriterImpl::liveliness_lost_task`. -/
def liveliness_lost_task (env : Env) (s : DataWriterImpl) (now : MonotonicTimePoint) :
    DataWriterImpl :=
  let elapsed : TimeDuration := now - s.last_liveliness_activity_time_
  if elapsed < s.liveliness_lost_interval_ then
    s.log (Event.schedule_liveliness_lost (s.liveliness_lost_interval_ - elapsed))
  else
    let notify := !s.liveliness_lost_
    let s1 := s.log (Event.schedule_liveliness_lost s.liveliness_lost_interval_)
    let s2 : DataWriterImpl := { s1 with liveliness_lost_ := true }
    if notify then
      let s3 : DataWriterImpl :=
        { s2 with
          liveliness_lost_status_ :=
            { total_count := long_increment s2.liveliness_lost_status_.total_count
              total_count_change :=
                long_increment s2.liveliness_lost_status_.total_count_change } }
      let s4 := (s3.log (Event.set_status_changed_flag LIVELINESS_LOST_STATUS true)).log
        Event.notify_status_condition
      if listener_for env s4 LIVELINESS_LOST_STATUS then
        let s5 := s4.log (Event.on_liveliness_lost s4.liveliness_lost_status_)
        { s5 with
          liveliness_lost_status_ :=
            { s5.liveliness_lost_status_ with total_count_change := 0 } }
      else s4
    else s2

/-- Consecutive runs of `liveliness_lost_task`, each with its own collaborator
answers and clock reading. -/
def liveliness_lost_runs : List (Env × MonotonicTimePoint) → DataWriterImpl → DataWriterImpl
  | [], s => s
  | c :: cs, s => liveliness_lost_runs cs (liveliness_lost_task c.1 s c.2)

/-! ## Coherent changes -/

/-- The member `DataWriterImpl::begin_coherent_changes`. -/
def begin_coherent_changes (s : DataWriterImpl) : DataWriterImpl :=
  { s with coherent_ := true }

/-- What `end_coherent_changes` leaves behind: the `end_msg` it built, the
control header, and the writer. -/
structure EndCoherentResult where
  end_msg : CoherentChangeControl
  header : DataSampleHeader
  state : DataWriterImpl

/-- The member `DataWriterImpl::end_coherent_changes`. -/
def end_coherent_changes (env : Env) (s : DataWriterImpl)
    (group_samples : List (GUID_t × Nat × SequenceNumber)) : EndCoherentResult :=
  let m0 : CoherentChangeControl :=
    { env.new_coherent_change_control with
      num_samples_ := s.coherent_samples_
      last_sample_ := get_max_sn s }
  let m1 : CoherentChangeControl :=
    match env.publisher with
    | some publisher => { m0 with group_coherent_ := publisher.group_presentation }
    | none => m0
  let end_msg : CoherentChangeControl :=
    match env.publisher with
    | some publisher =>
      if m1.group_coherent_ then
        { m1 with
          publisher_id_ := publisher.publisher_id_
          group_coherent_samples_ := group_samples }
      else m1
    | none => m1
  let data : Message_Block :=
    { total_length := env.serialized_size (BlockContent.coherent end_msg)
      content := BlockContent.coherent end_msg }
  let c := create_control_message env s END_COHERENT_CHANGES env.new_header (some data)
    env.system_now
  let s1 : DataWriterImpl := { c.state with coherent_ := false, coherent_samples_ := 0 }
  let r := send_control env s1 c.header_data c.message
  { end_msg := end_msg, header := c.header_data, state := r.2 }

/-! ## Unregistering and disposing

The observer callbacks (`get_observer`) at the end of these members read the
stamped header and change no member; they are left out. -/

/-- The member `DataWriterImpl::dispose_and_unregister`.  The block filled in by
the container's `dispose` is passed on to its `unregister` (called with
`dup_registered_sample` false). -/
def dispose_and_unregister (env : Env) (s : DataWriterImpl) (handle : InstanceHandle_t)
    (source_timestamp : Time_t) : ReturnCode_t × DataWriterImpl :=
  let s1 := s.log (Event.container_dispose handle)
  let disposed := env.container_dispose
  if disposed.1 != RETCODE_OK then (disposed.1, s1)
  else
    let s2 := s1.log (Event.container_unregister handle false)
    let unregistered := env.container_unregister disposed.2 false
    if unregistered.1 != RETCODE_OK then (unregistered.1, s2)
    else
      let s3 := s2.log Event.obtain_buffer_for_control
      let ret := env.obtain_buffer_for_control.1
      if ret != RETCODE_OK then (ret, s3)
      else
        let element := env.obtain_buffer_for_control.2
        let c := create_control_message env s3 DISPOSE_UNREGISTER_INSTANCE element.header
          unregistered.2 source_timestamp
        let element1 : DataSampleElement :=
          { element with header := c.header_data, sample := c.message }
        let s4 := c.state.log (Event.enqueue_control element1)
        let ret1 := env.enqueue_control
        if ret1 != RETCODE_OK then (ret1, s4.log (Event.release_buffer element1))
        else (RETCODE_OK, send_all_to_flush_control env s4)

/-- The member `DataWriterImpl::unregister_instance_i`. -/
def unregister_instance_i (env : Env) (s : DataWriterImpl) (handle : InstanceHandle_t)
    (source_timestamp : Time_t) : ReturnCode_t × DataWriterImpl :=
  if !s.enabled_ then (RETCODE_NOT_ENABLED, s)
  else if s.autodispose_unregistered_instances then
    dispose_and_unregister env s handle source_timestamp
  else
    let s1 := s.log (Event.container_unregister handle true)
    let unregistered := env.container_unregister none true
    if unregistered.1 != RETCODE_OK then (unregistered.1, s1)
    else
      let s2 := s1.log Event.obtain_buffer_for_control
      let ret := env.obtain_buffer_for_control.1
      if ret != RETCODE_OK then (ret, s2)
      else
        let element := env.obtain_buffer_for_control.2
        let c := create_control_message env s2 UNREGISTER_INSTANCE element.header
          unregistered.2 source_timestamp
        let element1 : DataSampleElement :=
          { element with header := c.header_data, sample := c.message }
        let s3 := c.state.log (Event.enqueue_control element1)
        let ret1 := env.enqueue_control
        if ret1 != RETCODE_OK then (ret1, s3.log (Event.release_buffer element1))
        else (RETCODE_OK, send_all_to_flush_control env s3)

/-- The member `DataWriterImpl::dispose`. -/
def dispose (env : Env) (s : DataWriterImpl) (handle : InstanceHandle_t)
    (source_timestamp : Time_t) : ReturnCode_t × DataWriterImpl :=
  if !s.enabled_ then (RETCODE_NOT_ENABLED, s)
  else
    let s1 := s.log (Event.container_dispose handle)
    let disposed := env.container_dispose
    if disposed.1 != RETCODE_OK then (disposed.1, s1)
    else
      let s2 := s1.log Event.obtain_buffer_for_control
      let ret := env.obtain_buffer_for_control.1
      if ret != RETCODE_OK then (ret, s2)
      else
        let element := env.obtain_buffer_for_control.2
        let c := create_control_message env s2 DISPOSE_INSTANCE element.header
          disposed.2 source_timestamp
        let element1 : DataSampleElement :=
          { element with header := c.header_data, sample := c.message }
        let s3 := c.state.log (Event.enqueue_control element1)
        let ret1 := env.enqueue_control
        if ret1 != RETCODE_OK then (ret1, s3.log (Event.release_buffer element1))
        else (RETCODE_OK, send_all_to_flush_control env s3)

/-- The member `DataWriterImpl::instance_must_exist`, on the key of the
sample.  The result carries the `instance_handle` in-out parameter. -/
def instance_must_exist (s : DataWriterImpl) (key : Nat) (instance_handle : InstanceHandle_t)
    (remove : Bool) : RegisterResult :=
  match s.instance_values_to_handles_.lookup key with
  | none => { ret := RETCODE_ERROR, handle := instance_handle, state := s }
  | some found =>
    if instance_handle != HANDLE_NIL && instance_handle != found then
      { ret := RETCODE_PRECONDITION_NOT_MET, handle := instance_handle, state := s }
    else if remove then
      { ret := RETCODE_OK, handle := found,
        state :=
          { s with
            instance_values_to_handles_ := map_erase s.instance_values_to_handles_ key
            instance_handles_to_values_ := map_erase s.instance_handles_to_values_ found } }
    else { ret := RETCODE_OK, handle := found, state := s }

/-- The member `DataWriterImpl::unregister_instance_w_timestamp`. -/
def unregister_instance_w_timestamp (env : Env) (s : DataWriterImpl) (key : Nat)
    (instance_handle : InstanceHandle_t) (timestamp : Time_t) :
    ReturnCode_t × DataWriterImpl :=
  let rc := instance_must_exist s key instance_handle true
  if rc.ret != RETCODE_OK then (rc.ret, rc.state)
  else unregister_instance_i env rc.state rc.handle timestamp

/-- The member `DataWriterImpl::dispose_w_timestamp`.  The access-control test
is compiled in with `OPENDDS_CONFIG_SECURITY`; `check_dispose_instance` is true
when it is absent or allows the call. -/
def dispose_w_timestamp (env : Env) (s : DataWriterImpl) (key : Nat)
    (instance_handle : InstanceHandle_t) (source_timestamp : Time_t) :
    ReturnCode_t × DataWriterImpl :=
  if !env.check_dispose_instance then (ReturnCode_t.RETCODE_NOT_ALLOWED_BY_SECURITY, s)
  else
    let rc := instance_must_exist s key instance_handle false
    if rc.ret != RETCODE_OK then (rc.ret, rc.state)
    else dispose env rc.state rc.handle source_timestamp

/-! ## Writing a sample -/

/-- The loop of `write_w_timestamp` over `reader_info_`: `filter_out` is
allocated at the first reader that has an evaluator, and every such reader
whose filter rejects the sample is appended. -/
def content_filter_out (env : Env) :
    List (GUID_t × ReaderInfo) → Option (List GUID_t) → Option (List GUID_t)
  | [], filter_out => filter_out
  | iter :: rest, filter_out =>
    if iter.2.eval_ then
      let allocated : List GUID_t :=
        match filter_out with
        | some buf => buf
        | none => []
      if !env.sample_eval iter.2.filter_ iter.2.expression_params_ then
        content_filter_out env rest (some (allocated ++ [iter.1]))
      else content_filter_out env rest (some allocated)
    else content_filter_out env rest filter_out

/-- The member `DataWriterImpl::write_sample`. -/
def write_sample (env : Env) (s : DataWriterImpl) (handle : InstanceHandle_t)
    (source_timestamp : Time_t) (filter_out : Option (List GUID_t)) : WriteResult :=
  match env.serialize_sample with
  | none => { ret := RETCODE_ERROR, state := s, element := none }
  | some serialized =>
    write env s
      { data := serialized, handle := handle, source_timestamp := source_timestamp,
        filter_out := filter_out }

/-- The member `DataWriterImpl::write_w_timestamp`, on the key of the sample. -/
def write_w_timestamp (env : Env) (s : DataWriterImpl) (key : Nat)
    (handle : InstanceHandle_t) (source_timestamp : Time_t) : WriteResult :=
  let registered : RegisterResult :=
    if handle == HANDLE_NIL then get_or_create_instance_handle env s key source_timestamp
    else { ret := RETCODE_OK, handle := handle, state := s }
  if registered.ret != RETCODE_OK then
    { ret := registered.ret, state := registered.state, element := none }
  else
    let s1 := registered.state
    let filter_out : Option (List GUID_t) :=
      if s1.publisher_content_filter_ then content_filter_out env s1.reader_info_ none
      else none
    write_sample env s1 registered.handle source_timestamp filter_out

/-! ## Asserting liveliness -/

/-- The member `DataWriterImpl::assert_liveliness`. -/
def assert_liveliness (env : Env) (s : DataWriterImpl) : ReturnCode_t × DataWriterImpl :=
  match s.liveliness_kind with
  | AUTOMATIC_LIVELINESS_QOS => (RETCODE_OK, s)
  | MANUAL_BY_PARTICIPANT_LIVELINESS_QOS =>
    match env.participant with
    | some participant =>
      (participant.assert_liveliness, s.log Event.participant_assert_liveliness)
    | none => (RETCODE_OK, s)
  | MANUAL_BY_TOPIC_LIVELINESS_QOS =>
    let sent := send_liveliness env s env.monotonic_now
    if !sent.1 then (RETCODE_ERROR, sent.2) else (RETCODE_OK, sent.2)

/-- The member `DataWriterImpl::assert_liveliness_by_participant`. -/
def assert_liveliness_by_participant (env : Env) (s : DataWriterImpl) :
    ReturnCode_t × DataWriterImpl :=
  if s.liveliness_kind == MANUAL_BY_PARTICIPANT_LIVELINESS_QOS then
    let sent := send_liveliness env s env.monotonic_now
    if !sent.1 then (RETCODE_ERROR, sent.2) else (RETCODE_OK, sent.2)
  else (RETCODE_OK, s)

/-- The member `DataWriterImpl::liveliness_send_task`. -/
def liveliness_send_task (env : Env) (s : DataWriterImpl) (now : MonotonicTimePoint) :
    DataWriterImpl :=
  let elapsed : TimeDuration := now - s.last_liveliness_activity_time_
  if elapsed < s.liveliness_send_interval_ then
    s.log (Event.schedule_liveliness_send (s.liveliness_send_interval_ - elapsed))
  else
    let sent := send_liveliness env s now
    sent.2.log (Event.schedule_liveliness_send sent.2.liveliness_send_interval_)

/-! ## Removing associations -/

/-- Modelled from the spec: the helper `remove(readers_, id)` (declared in a
missing header) does "remove from fully-associated set if present": the flag
is true (the helper returns 0) when `v` was in the set and has been erased. -/
def set_remove {α : Type} [BEq α] (c : List α) (v : α) : List α × Bool :=
  if c.contains v then (c.filter (fun x => !(x == v)), true) else (c, false)

/-- The call `reader_info_.erase(id)`: the record is dropped and its destructor
`DataWriterImpl::ReaderInfo::~ReaderInfo` releases the filter evaluator when the
participant is alive and the filter is not empty. -/
def erase_reader_info (env : Env) (s : DataWriterImpl) (id : GUID_t) : DataWriterImpl :=
  match s.reader_info_.lookup id with
  | none => s
  | some info =>
    let s1 : DataWriterImpl := { s with reader_info_ := map_erase s.reader_info_ id }
    match env.participant with
    | some _ => if info.filter_ != "" then s1.log (Event.deref_filter_eval info.filter_) else s1
    | none => s1

/-- The first loop of `remove_associations`: every listed reader leaves
`readers_`, the container's ack bookkeeping and `reader_info_`; the readers
that were in `readers_` are collected, in order, as
`fully_associated_readers` (the local `rds` receives the same entries). -/
def remove_readers (env : Env) : List GUID_t → DataWriterImpl → List GUID_t × DataWriterImpl
  | [], s => ([], s)
  | id :: rest, s =>
    let removed := set_remove s.readers_ id
    let s1 : DataWriterImpl := { s with readers_ := removed.1 }
    let s2 := s1.log (Event.remove_reader_acks id)
    let s3 := erase_reader_info env s2 id
    let tail := remove_readers env rest s3
    (if removed.2 then id :: tail.1 else tail.1, tail.2)

/-- The member `DataWriterImpl::lookup_instance_handles`: `hdls` is left as it
was when the participant is gone. -/
def lookup_instance_handles (env : Env) (ids : List GUID_t) (hdls : List InstanceHandle_t) :
    List InstanceHandle_t :=
  match env.participant with
  | none => hdls
  | some participant => ids.map participant.lookup_handle

/-- The statements of `remove_associations` under "Mirror the
PUBLICATION_MATCHED_STATUS processing".  The index `fully_associated_len - 1`
is computed in `CORBA::ULong`; the result is `none` when it is not an index
of `handles`. -/
def publication_unmatched (env : Env) (s : DataWriterImpl) (handles : List InstanceHandle_t)
    (fully_associated_len : Nat) : Option DataWriterImpl :=
  if !s.is_bit_ then
    let matchedSubscriptions : Int := s.id_to_handle_map_.length
    let s1 : DataWriterImpl :=
      { s with
        publication_match_status_ :=
          { s.publication_match_status_ with
            current_count_change :=
              matchedSubscriptions - s.publication_match_status_.current_count } }
    if s1.publication_match_status_.current_count_change != 0 then
      match handles[(fully_associated_len + 4294967295) % 4294967296]? with
      | none => none
      | some last =>
        let s2 : DataWriterImpl :=
          { s1 with
            publication_match_status_ :=
              { s1.publication_match_status_ with
                current_count := matchedSubscriptions
                last_subscription_handle := last } }
        let s3 := s2.log (Event.set_status_changed_flag PUBLICATION_MATCHED_STATUS true)
        let s4 : DataWriterImpl :=
          if listener_for env s3 PUBLICATION_MATCHED_STATUS then
            let s3a := s3.log (Event.on_publication_matched s3.publication_match_status_)
            { s3a with
              publication_match_status_ :=
                { s3a.publication_match_status_ with
                  total_count_change := 0
                  current_count_change := 0 } }
          else s3
        some (s4.log Event.notify_status_condition)
    else some s1
  else some s

/-- The member `DataWriterImpl::notify_publication_lost` taking handles. -/
def notify_publication_lost (env : Env) (s : DataWriterImpl)
    (handles : List InstanceHandle_t) : DataWriterImpl :=
  if !s.is_bit_ then
    if s.listener_ && env.narrow_ext_listener then s.log (Event.on_publication_lost handles)
    else s
  else s

/-- The member `DataWriterImpl::remove_associations`.  The result is `none`
when an index outside `handles` is read or the participant is dereferenced
after it has gone. -/
def remove_associations (env : Env) (s : DataWriterImpl) (readers : List GUID_t)
    (notify_lost : Bool) : Option DataWriterImpl :=
  if readers.length == 0 then some s
  else
    let s1 := s.log (Event.stop_associating readers)
    let removed := remove_readers env readers s1
    let fully_associated_readers := removed.1
    let fully_associated_len := fully_associated_readers.length
    let s2 := removed.2
    let handles : List InstanceHandle_t :=
      if fully_associated_len > 0 && !s2.is_bit_ then
        lookup_instance_handles env fully_associated_readers []
      else []
    let s3 : DataWriterImpl :=
      if fully_associated_len > 0 && !s2.is_bit_ then
        { s2 with
          id_to_handle_map_ :=
            fully_associated_readers.foldl (fun m id => map_erase m id) s2.id_to_handle_map_ }
      else s2
    match publication_unmatched env s3 handles fully_associated_len with
    | none => none
    | some s4 =>
      let s5 := fully_associated_readers.foldl (fun st id => st.log (Event.disassociate id)) s4
      let s6 : DataWriterImpl :=
        if notify_lost && handles.length > 0 then notify_publication_lost env s5 handles
        else s5
      match env.participant with
      | some _ => some (handles.foldl (fun st h => st.log (Event.return_handle h)) s6)
      | none => if handles.length == 0 then some s6 else none

/-! ## Construction and sample values -/

/-- The constructor `DataWriterImpl::DataWriterImpl()`.  The initial QoS comes
from the service participant and `max_value` is `TimeDuration::max_value`. -/
def DataWriterImpl.ctor (reliability : ReliabilityQosPolicyKind)
    (liveliness : LivelinessQosPolicyKind) (lifespan : Duration_t) (autodispose : Bool)
    (publisher_content_filter : Bool) (max_value : TimeDuration) : DataWriterImpl :=
  { enabled_ := false
    deleted_ := false
    is_bit_ := false
    publication_id_ := 0
    publisher_content_filter_ := publisher_content_filter
    reliability_kind := reliability
    liveliness_kind := liveliness
    lifespan_duration := lifespan
    autodispose_unregistered_instances := autodispose
    listener_ := false
    listener_mask_ := fun _ => true
    sequence_number_ := SEQUENCENUMBER_UNKNOWN
    coherent_ := false
    coherent_samples_ := 0
    reader_info_ := []
    readers_ := []
    id_to_handle_map_ := []
    publication_match_status_ :=
      { total_count := 0, total_count_change := 0, current_count := 0,
        current_count_change := 0, last_subscription_handle := HANDLE_NIL }
    liveliness_lost_status_ := { total_count := 0, total_count_change := 0 }
    liveliness_lost_ := false
    last_liveliness_activity_time_ := 0
    liveliness_send_interval_ := max_value
    liveliness_lost_interval_ := max_value
    available_data_list_ := []
    min_suspended_transaction_id_ := 0
    max_suspended_transaction_id_ := 0
    instance_handles_to_values_ := []
    instance_values_to_handles_ := []
    trace := [] }

/-- A header with every flag clear and every number zero. -/
def clear_header : DataSampleHeader :=
  { message_id_ := SAMPLE_DATA, byte_order_ := false, coherent_change_ := false,
    historic_sample_ := false, lifespan_duration_ := false, group_coherent_ := false,
    content_filter_ := false, sequence_repair_ := false, cdr_encapsulation_ := false,
    key_fields_only_ := false, message_length_ := 0, sequence_ := 0,
    source_timestamp_sec_ := 0, source_timestamp_nanosec_ := 0,
    lifespan_duration_sec_ := 0, lifespan_duration_nanosec_ := 0,
    publication_id_ := 0, publisher_id_ := 0 }

/-- An element fresh from the container. -/
def clear_element : DataSampleElement :=
  { header := clear_header, sample := none, filter_out := none }

/-- A publisher that is present and not suspended. -/
def active_publisher : PublisherImpl :=
  { publisher_id_ := 50, is_suspended := false, group_presentation := false,
    listener_for := fun _ => false }

/-- A publisher that is present and suspended. -/
def suspended_publisher : PublisherImpl :=
  { active_publisher with is_suspended := true }

/-- A live participant handing out handle `100 + id` for entity `id`. -/
def live_participant : DomainParticipantImpl :=
  { assign_handle := fun id => 100 + (id : Int)
    lookup_handle := fun id => 100 + (id : Int)
    get_filter_eval := fun _ => true
    assert_liveliness := RETCODE_OK }

/-- Collaborators that accept every request: buffers are granted, every handle
names a live instance, nothing is pending, unsent data leaves as transaction
`transaction_id`. -/
def accepting_env (publisher : Option PublisherImpl) (transaction_id : Nat) : Env :=
  { publisher := publisher
    participant := some live_participant
    swap_bytes := false
    ACE_CDR_BYTE_ORDER := true
    cdr_encapsulation := false
    obtain_buffer := (RETCODE_OK, clear_element)
    get_handle_instance := fun _ => true
    enqueue := RETCODE_OK
    get_unsent_data := ([], transaction_id)
    obtain_buffer_for_control := (RETCODE_OK, clear_element)
    enqueue_control := RETCODE_OK
    get_resend_data := []
    register_instance := fun h => (RETCODE_OK, if h = HANDLE_NIL then 7 else h)
    container_unregister := fun block _ => (RETCODE_OK, block)
    container_dispose := (RETCODE_OK, none)
    wait_ack_of_seq := fun _ _ => RETCODE_OK
    send_control := SEND_CONTROL_OK
    send_w_control := SEND_CONTROL_OK
    supports_liveliness := true
    check_register_instance := true
    check_dispose_instance := true
    serialize := fun key => some { total_length := 4, content := BlockContent.sample [key] }
    serialize_sample := some { total_length := 4, content := BlockContent.sample [1] }
    sample_eval := fun _ _ => true
    narrow_ext_listener := false
    serialized_size := fun _ => 16
    new_header := clear_header
    new_coherent_change_control :=
      { num_samples_ := 0, last_sample_ := 0, group_coherent_ := false,
        publisher_id_ := 0, group_coherent_samples_ := [] }
    system_now := { sec := 0, nanosec := 0 }
    monotonic_now := 0 }

/-- An enabled reliable writer straight after construction. -/
def fresh_writer : DataWriterImpl :=
  { DataWriterImpl.ctor RELIABLE_RELIABILITY_QOS AUTOMATIC_LIVELINESS_QOS
      { sec := DURATION_INFINITE_SEC, nanosec := DURATION_INFINITE_NSEC } true true 1000
    with enabled_ := true }

/-- The arguments of a plain write of four bytes on instance 7. -/
def plain_write : WriteArgs :=
  { data := { total_length := 4, content := BlockContent.sample [1] }
    handle := 7
    source_timestamp := { sec := 0, nanosec := 0 }
    filter_out := none }

/-- A volatile reader without content filter. -/
def volatile_reader (id : GUID_t) : ReaderAssociation :=
  { readerId := id, filterClassName := "", filterExpression := "", exprParams := [],
    durability_kind := VOLATILE_DURABILITY_QOS
    reliability_kind := RELIABLE_RELIABILITY_QOS }

/-- A volatile reader with the content filter "x > 1". -/
def filtered_reader (id : GUID_t) : ReaderAssociation :=
  { volatile_reader id with filterExpression := "x > 1" }

/-- A transient-local (durable) reader without content filter. -/
def durable_reader (id : GUID_t) : ReaderAssociation :=
  { volatile_reader id with durability_kind := TRANSIENT_LOCAL_DURABILITY_QOS }

/-- A writer whose counter stands at 5 with one reader whose cursor is 5. -/
def caught_up_writer : DataWriterImpl :=
  { fresh_writer with
    sequence_number_ := 5
    reader_info_ := [(1, { ReaderInfo.ctor (accepting_env none 0) "" "" [] false with
      expected_sequence_ := 5 })] }

/-- Three accepted plain writes. -/
def three_writes : List (Env × WriteArgs) :=
  [(accepting_env (some active_publisher) 1, plain_write),
    (accepting_env (some active_publisher) 2, plain_write),
    (accepting_env (some active_publisher) 3, plain_write)]

/-- The elements stamped by the three accepted writes. -/
def three_written : List DataSampleElement :=
  (write_calls three_writes fresh_writer).filterMap (fun r => r.element)

/-- Collaborators whose container re-stages the three written elements. -/
def replay_env (publisher : Option PublisherImpl) : Env :=
  { accepting_env publisher 4 with get_resend_data := three_written }

/-- The writer after the three accepted writes and `add_association` of durable
reader 9. -/
def durable_matched_writer : DataWriterImpl :=
  add_association (replay_env (some active_publisher))
    (after_writes three_writes fresh_writer) (durable_reader 9) true

/-- Collaborators of a write deferred by suspension: the publisher is
suspended and the container hands over one unsent element as transaction
`transaction_id`. -/
def deferring_env (transaction_id : Nat) : Env :=
  { accepting_env (some suspended_publisher) transaction_id with
    get_unsent_data := ([clear_element], transaction_id) }

/-- A writer whose lost interval is 100 ticks and whose last activity was at
tick 0. -/
def silent_writer : DataWriterImpl :=
  { fresh_writer with liveliness_lost_interval_ := 100 }

/-! ## Reachable states

A step is one call of an embedded member function with some answers of the
collaborators.  `init`, `enable`, `set_qos`, `set_listener`,
`set_publication_id` and `set_deleted` only assign configuration members; they
are covered by the `configure` step. -/

/-- The writer `s'` differs from `s` at most in the members assigned by
`init`, `enable`, `set_qos`, `set_listener`, `set_publication_id` and
`set_deleted`. -/
def configured (s s' : DataWriterImpl) : Prop :=
  s' =
    { s with
      enabled_ := s'.enabled_
      deleted_ := s'.deleted_
      is_bit_ := s'.is_bit_
      publication_id_ := s'.publication_id_
      publisher_content_filter_ := s'.publisher_content_filter_
      reliability_kind := s'.reliability_kind
      liveliness_kind := s'.liveliness_kind
      lifespan_duration := s'.lifespan_duration
      autodispose_unregistered_instances := s'.autodispose_unregistered_instances
      listener_ := s'.listener_
      listener_mask_ := s'.listener_mask_
      last_liveliness_activity_time_ := s'.last_liveliness_activity_time_
      liveliness_send_interval_ := s'.liveliness_send_interval_
      liveliness_lost_interval_ := s'.liveliness_lost_interval_ }

/-- Every element the container re-stages carries a sequence number that the
writer has assigned (one that is not above `sequence_number_`). -/
def restaged_assigned (env : Env) (s : DataWriterImpl) : Prop :=
  ∀ e ∈ env.get_resend_data, e.header.sequence_ ≤ s.sequence_number_

/-- No condition on the answers of the container. -/
def any_answers (_ : Env) (_ : DataWriterImpl) : Prop :=
  True

/-- One call on the writer with some answers of the collaborators.  The calls
that re-stage samples for a reader (`association_complete_i`,
`replay_durable_data_for`) are made with answers that satisfy `P` in the state
before the call. -/
inductive Step (P : Env → DataWriterImpl → Prop) : DataWriterImpl → DataWriterImpl → Prop
  | configure (s s' : DataWriterImpl) : configured s s' → Step P s s'
  | add_association (env : Env) (s : DataWriterImpl) (reader : ReaderAssociation)
      (active : Bool) : Step P s (add_association env s reader active)
  | association_complete_i (env : Env) (s : DataWriterImpl) (remote_id : GUID_t) :
      P env s → Step P s (association_complete_i env s remote_id)
  | replay_durable_data_for (env : Env) (s : DataWriterImpl) (remote_id : GUID_t) :
      P env s → Step P s (replay_durable_data_for env s remote_id)
  | remove_associations (env : Env) (s : DataWriterImpl) (readers : List GUID_t)
      (notify_lost : Bool) (s' : DataWriterImpl) :
      remove_associations env s readers notify_lost = some s' → Step P s s'
  | write (env : Env) (s : DataWriterImpl) (a : WriteArgs) :
      Step P s (write env s a).state
  | write_w_timestamp (env : Env) (s : DataWriterImpl) (key : Nat)
      (handle : InstanceHandle_t) (source_timestamp : Time_t) :
      Step P s (write_w_timestamp env s key handle source_timestamp).state
  | create_control_message (env : Env) (s : DataWriterImpl) (message_id : MessageId)
      (header_data : DataSampleHeader) (data : Option Message_Block)
      (source_timestamp : Time_t) :
      Step P s (create_control_message env s message_id header_data data source_timestamp).state
  | send_request_ack (env : Env) (s : DataWriterImpl) :
      Step P s (send_request_ack env s).state
  | wait_for_acknowledgments (env : Env) (s : DataWriterImpl) (max_wait : Duration_t) :
      Step P s (wait_for_acknowledgments env s max_wait).2
  | register_instance_i (env : Env) (s : DataWriterImpl) (handle : InstanceHandle_t)
      (data : Message_Block) (source_timestamp : Time_t) :
      Step P s (register_instance_i env s handle data source_timestamp).state
  | register_instance_w_timestamp (env : Env) (s : DataWriterImpl) (key : Nat)
      (timestamp : Time_t) :
      Step P s (register_instance_w_timestamp env s key timestamp).2
  | unregister_instance_i (env : Env) (s : DataWriterImpl) (handle : InstanceHandle_t)
      (source_timestamp : Time_t) :
      Step P s (unregister_instance_i env s handle source_timestamp).2
  | dispose_and_unregister (env : Env) (s : DataWriterImpl) (handle : InstanceHandle_t)
      (source_timestamp : Time_t) :
      Step P s (dispose_and_unregister env s handle source_timestamp).2
  | dispose (env : Env) (s : DataWriterImpl) (handle : InstanceHandle_t)
      (source_timestamp : Time_t) :
      Step P s (dispose env s handle source_timestamp).2
  | unregister_instance_w_timestamp (env : Env) (s : DataWriterImpl) (key : Nat)
      (instance_handle : InstanceHandle_t) (timestamp : Time_t) :
      Step P s (unregister_instance_w_timestamp env s key instance_handle timestamp).2
  | dispose_w_timestamp (env : Env) (s : DataWriterImpl) (key : Nat)
      (instance_handle : InstanceHandle_t) (source_timestamp : Time_t) :
      Step P s (dispose_w_timestamp env s key instance_handle source_timestamp).2
  | send_suspended_data (s : DataWriterImpl) : Step P s (send_suspended_data s)
  | send_liveliness (env : Env) (s : DataWriterImpl) (now : MonotonicTimePoint) :
      Step P s (send_liveliness env s now).2
  | assert_liveliness (env : Env) (s : DataWriterImpl) :
      Step P s (assert_liveliness env s).2
  | assert_liveliness_by_participant (env : Env) (s : DataWriterImpl) :
      Step P s (assert_liveliness_by_participant env s).2
  | liveliness_send_task (env : Env) (s : DataWriterImpl) (now : MonotonicTimePoint) :
      Step P s (liveliness_send_task env s now)
  | liveliness_lost_task (env : Env) (s : DataWriterImpl) (now : MonotonicTimePoint) :
      Step P s (liveliness_lost_task env s now)
  | begin_coherent_changes (s : DataWriterImpl) : Step P s (begin_coherent_changes s)
  | end_coherent_changes (env : Env) (s : DataWriterImpl)
      (group_samples : List (GUID_t × Nat × SequenceNumber)) :
      Step P s (end_coherent_changes env s group_samples).state

/-- The states reached from the constructed writer by steps whose re-staging
answers satisfy `P`. -/
inductive Reachable (P : Env → DataWriterImpl → Prop) : DataWriterImpl → Prop
  | ctor (reliability : ReliabilityQosPolicyKind) (liveliness : LivelinessQosPolicyKind)
      (lifespan : Duration_t) (autodispose : Bool) (publisher_content_filter : Bool)
      (max_value : TimeDuration) :
      Reachable P (DataWriterImpl.ctor reliability liveliness lifespan autodispose
        publisher_content_filter max_value)
  | step (s s' : DataWriterImpl) : Reachable P s → Step P s s' → Reachable P s'

/-- Every reader's `expected_sequence_` is at most `sequence_number_`. -/
def cursors_bounded (s : DataWriterImpl) : Prop :=
  ∀ it ∈ s.reader_info_, it.2.expected_sequence_ ≤ s.sequence_number_

/-- Outside a coherent set the pending-sample counter is zero. -/
def coherent_counter_clear (s : DataWriterImpl) : Prop :=
  s.coherent_ = false → s.coherent_samples_ = 0

/-- The matched status counts the bound readers:
`publication_match_status_.current_count` is the size of `id_to_handle_map_`. -/
def matched_count_consistent (s : DataWriterImpl) : Prop :=
  s.publication_match_status_.current_count = (s.id_to_handle_map_.length : Int)

/-- A call that takes the writer from `s` to `s'` preserves the reachable-state
invariants; the bound on the cursors is preserved when the condition `b` on
the container's answers holds. -/
def preserves (b : Prop) (s s' : DataWriterImpl) : Prop :=
  (coherent_counter_clear s → coherent_counter_clear s')
    ∧ (matched_count_consistent s → matched_count_consistent s')
    ∧ (b → cursors_bounded s → cursors_bounded s')

/-! ## Failure of control operations -/

/-- What a control operation that went from `s` to `s'` and returned `ret`
does when the container fails it.  When `obtain_buffer_for_control` fails,
`ret` is its code and the counter and the reader table are as in `s`.  When
the buffer is granted and `enqueue_control` fails, `ret` is its code and the
last call made is `release_buffer`; with the publisher absent the counter and
the reader table are as in `s`, with the publisher present the counter is one
above its value in `s` and every cursor equals it. -/
def control_failure_effect (env : Env) (s : DataWriterImpl) (ret : ReturnCode_t)
    (s' : DataWriterImpl) : Prop :=
  (env.obtain_buffer_for_control.1 ≠ RETCODE_OK →
      ret = env.obtain_buffer_for_control.1
        ∧ s'.sequence_number_ = s.sequence_number_
        ∧ s'.reader_info_ = s.reader_info_)
    ∧ (env.obtain_buffer_for_control.1 = RETCODE_OK → env.enqueue_control ≠ RETCODE_OK →
      ret = env.enqueue_control
        ∧ (∃ element, s'.trace.getLast? = some (Event.release_buffer element))
        ∧ (env.publisher = none →
            s'.sequence_number_ = s.sequence_number_ ∧ s'.reader_info_ = s.reader_info_)
        ∧ (env.publisher.isSome = true →
            s'.sequence_number_ = s.sequence_number_ + 1
              ∧ s'.reader_info_ = s.reader_info_.map (fun reader =>
                  (reader.1,
                    { reader.2 with expected_sequence_ := s.sequence_number_ + 1 }))))

/-! ## Further sample values -/

/-- The writer after one accepted plain write on the fresh writer. -/
def once_written_writer : DataWriterImpl :=
  (write (accepting_env (some active_publisher) 1) fresh_writer plain_write).state

/-- A writer whose counter stands at 5 with two readers, 1 and 2, whose
cursors are 5 and 3. -/
def two_reader_writer : DataWriterImpl :=
  { fresh_writer with
    sequence_number_ := 5
    reader_info_ :=
      [(1, { ReaderInfo.ctor (accepting_env none 0) "" "" [] false with
          expected_sequence_ := 5 }),
        (2, { ReaderInfo.ctor (accepting_env none 0) "" "" [] false with
          expected_sequence_ := 3 })] }

/-- A plain write whose exclusion list names reader 2. -/
def filtered_write : WriteArgs :=
  { plain_write with filter_out := some [2] }

/-- The fresh writer after `add_association` and `association_complete_i` of
volatile reader 1. -/
def one_matched_writer : DataWriterImpl :=
  association_complete_i (accepting_env (some active_publisher) 0)
    (add_association (accepting_env (some active_publisher) 0) fresh_writer
      (volatile_reader 1) true) 1

/-- A writer with the given manual liveliness kind whose liveliness is flagged
lost and whose last activity was at tick 0. -/
def manual_writer (kind : LivelinessQosPolicyKind) : DataWriterImpl :=
  { fresh_writer with liveliness_kind := kind, liveliness_lost_ := true }

/-- Accepting collaborators whose monotonic clock reads 500. -/
def later_env : Env :=
  { accepting_env (some active_publisher) 1 with monotonic_now := 500 }

/-- Accepting collaborators whose `serialize_sample` fails on every key. -/
def unserializable_env : Env :=
  { accepting_env (some active_publisher) 1 with serialize := fun _ => none }

/-- The fresh writer after key 1 has been registered (the container hands out
handle 7). -/
def registered_writer : DataWriterImpl :=
  (register_instance_w_timestamp (accepting_env (some active_publisher) 1) fresh_writer 1
    { sec := 0, nanosec := 0 }).2

/-- Accepting collaborators whose container has no buffer for a control
element. -/
def no_control_buffer_env : Env :=
  { accepting_env (some active_publisher) 2 with
    obtain_buffer_for_control := (RETCODE_ERROR, clear_element) }

/-- Accepting collaborators whose container refuses control elements. -/
def refusing_env : Env :=
  { accepting_env (some active_publisher) 2 with enqueue_control := RETCODE_ERROR }

/-! ## Locals of `remove_associations` -/

/-- The local `fully_associated_readers` of `remove_associations` when its
first loop has run. -/
def fully_associated_readers (env : Env) (s : DataWriterImpl) (readers : List GUID_t) :
    List GUID_t :=
  (remove_readers env readers (s.log (Event.stop_associating readers))).1

/-- The local `handles` of `remove_associations` when the statements under
"Mirror the PUBLICATION_MATCHED_STATUS processing" start. -/
def removed_handles (env : Env) (s : DataWriterImpl) (readers : List GUID_t) :
    List InstanceHandle_t :=
  let removed := remove_readers env readers (s.log (Event.stop_associating readers))
  if removed.1.length > 0 && !removed.2.is_bit_ then
    lookup_instance_handles env removed.1 []
  else []

/-- The writer when the statements of `remove_associations` under "Mirror the
PUBLICATION_MATCHED_STATUS processing" start. -/
def before_unmatched (env : Env) (s : DataWriterImpl) (readers : List GUID_t) :
    DataWriterImpl :=
  let removed := remove_readers env readers (s.log (Event.stop_associating readers))
  if removed.1.length > 0 && !removed.2.is_bit_ then
    { removed.2 with
      id_to_handle_map_ :=
        removed.1.foldl (fun m id => map_erase m id) removed.2.id_to_handle_map_ }
  else removed.2

/-- The fresh writer after `add_association` of reader 1 with the content
filter "x > 1"; the association has not completed. -/
def pending_reader_writer : DataWriterImpl :=
  add_association (accepting_env (some active_publisher) 0) fresh_writer
    { volatile_reader 1 with filterExpression := "x > 1" } true

/-! ## Consistency of the instance registry -/

/-- The two instance maps are mutual inverses: handle `h` maps to key `v` in
`instance_handles_to_values_` exactly when key `v` maps to handle `h` in
`instance_values_to_handles_`. -/
def instance_maps_inverse (s : DataWriterImpl) : Prop :=
  ∀ (h : InstanceHandle_t) (v : Nat),
    s.instance_handles_to_values_.lookup h = some v
      ↔ s.instance_values_to_handles_.lookup v = some h

/-- A call that takes the writer from `s` to `s'` keeps the instance maps
mutual inverses. -/
def keeps_registry (s s' : DataWriterImpl) : Prop :=
  instance_maps_inverse s → instance_maps_inverse s'

/-- The states reached from the constructed writer by calls of
`insert_instance` and `instance_must_exist` and by the steps of `Step`. -/
inductive RegistryReachable (P : Env → DataWriterImpl → Prop) : DataWriterImpl → Prop
  | reachable (s : DataWriterImpl) : Reachable P s → RegistryReachable P s
  | insert_instance (s : DataWriterImpl) (handle : InstanceHandle_t) (key : Nat) :
      RegistryReachable P s → RegistryReachable P (insert_instance s handle key).2
  | instance_must_exist (s : DataWriterImpl) (key : Nat) (instance_handle : InstanceHandle_t)
      (remove : Bool) :
      RegistryReachable P s →
        RegistryReachable P (instance_must_exist s key instance_handle remove).state
  | step (s s' : DataWriterImpl) : RegistryReachable P s → Step P s s' → RegistryReachable P s'

/-! ## Configuration keys: `ConfigPair::canonicalize`

A `String` is the list of its `char` codes.  The classification calls of
`ACE_OS` are those of the C locale: a code outside the listed ASCII ranges is
in no class. -/

/-- The call `ACE_OS::ace_isupper`: the codes of `A` to `Z`. -/
def ace_isupper (c : Nat) : Bool :=
  decide (65 ≤ c ∧ c ≤ 90)

/-- The call `ACE_OS::ace_islower`: the codes of `a` to `z`. -/
def ace_islower (c : Nat) : Bool :=
  decide (97 ≤ c ∧ c ≤ 122)

/-- The call `ACE_OS::ace_isdigit`: the codes of `0` to `9`. -/
def ace_isdigit (c : Nat) : Bool :=
  decide (48 ≤ c ∧ c ≤ 57)

/-- The call `ACE_OS::ace_isalnum`: a letter or a digit. -/
def ace_isalnum (c : Nat) : Bool :=
  ace_isupper c || ace_islower c || ace_isdigit c

/-- The call `ACE_OS::ace_toupper`: a lower-case letter becomes the upper-case
one, every other code is returned as it is. -/
def ace_toupper (c : Nat) : Nat :=
  if ace_islower c then c - 32 else c

/-- The code of the character `_`. -/
def UNDERSCORE : Nat := 95

/-- The `char` codes of a string literal. -/
def char_codes (s : String) : List Nat :=
  s.toList.map Char.toNat

/-- The loop `while (idx < key.size() && !ACE_OS::ace_isalnum(key[idx])) ++idx`
of `canonicalize`, on the part of `key` from `idx` on: the result is the part
of `key` from the new `idx` on. -/
def skip_punctuation : List Nat → List Nat
  | [] => []
  | x :: rest => if !ace_isalnum x then skip_punctuation rest else x :: rest

/-- The statements under "Deal with camelcase" in `canonicalize`: `x` is
`key[idx]` and `rest` is the part of `key` after it. -/
def camelcase (x : Nat) (rest retval : List Nat) : List Nat :=
  match rest with
  | [] => retval
  | y :: _ =>
    if ace_isupper x && ace_islower y && !retval.isEmpty
        && retval.getLast? != some UNDERSCORE then
      retval ++ [UNDERSCORE]
    else retval

/-- The main loop `while (idx < key.size())` of `canonicalize`, on the part of
`key` from `idx` on.  Every iteration moves `idx` forward, so `fuel` iterations
are enough when `fuel` is the number of characters left. -/
def canonicalize_loop : Nat → List Nat → List Nat → List Nat
  | 0, _, retval => retval
  | _ + 1, [], retval => retval
  | fuel + 1, x :: rest, retval =>
    let retval1 := camelcase x rest retval
    if ace_isalnum x then canonicalize_loop fuel rest (retval1 ++ [ace_toupper x])
    else
      let unread := skip_punctuation (x :: rest)
      let retval2 :=
        if !unread.isEmpty && !retval1.isEmpty && retval1.getLast? != some UNDERSCORE then
          retval1 ++ [UNDERSCORE]
        else retval1
      canonicalize_loop fuel unread retval2

/-- The function `ConfigPair::canonicalize`. -/
def canonicalize (key : List Nat) : List Nat :=
  canonicalize_loop key.length (skip_punctuation key) []

/-- The shape of a canonical key, also while it is being built: only upper-case
letters, digits and `_`, no `_` in front, and no two `_` in a row. -/
def canonical_prefix (w : List Nat) : Prop :=
  (∀ c ∈ w, (65 ≤ c ∧ c ≤ 90) ∨ (48 ≤ c ∧ c ≤ 57) ∨ c = UNDERSCORE)
    ∧ w.head? ≠ some UNDERSCORE
    ∧ List.Chain' (fun a b => ¬ (a = UNDERSCORE ∧ b = UNDERSCORE)) w

/-! ## Hex strings: `to_hex_dds_string`

A `char` is its integer value; where `char` is signed the bytes from 0x80 on
are the values from -128 to -1.  On such values `x >> 4` is the division by 16
rounded down and `x & 0x0F` is the remainder modulo 16, which is what the two's
complement operations give.  The buffer `data` of `size` characters is a list,
and sizes are natural numbers: a buffer and its rendering fit the address
space, so no `size_t` operation wraps. -/

/-- The function `nibble_to_hex_char`. -/
def nibble_to_hex_char (nibble : Int) : Int :=
  let nibble1 := nibble % 16
  (if nibble1 < 10 then 48 else 97 - 10) + nibble1

/-- The length `l` that `to_hex_dds_string` passes to `rv.reserve`. -/
def to_hex_reserved (size : Nat) (delim : Int) (delim_every : Nat) : Nat :=
  let valid_delim := delim != 0 && delim_every != 0
  let l := size * 2
  if valid_delim && decide (size > 1) then
    let l1 := l + size / delim_every
    if size % delim_every == 0 then l1 - 1 else l1
  else l

/-- The `for` loop of `to_hex_dds_string` from index `i` on; `data` is the part
of the buffer from `i` on. -/
def to_hex_loop (valid_delim : Bool) (delim : Int) (delim_every : Nat) :
    Nat → List Int → List Int → List Int
  | _, [], rv => rv
  | i, c :: rest, rv =>
    let rv1 := if valid_delim && i != 0 && i % delim_every == 0 then rv ++ [delim] else rv
    let rv2 := rv1 ++ [nibble_to_hex_char (c / 16)]
    let rv3 := rv2 ++ [nibble_to_hex_char c]
    to_hex_loop valid_delim delim delim_every (i + 1) rest rv3

/-- The function `to_hex_dds_string`. -/
def to_hex_dds_string (data : List Int) (delim : Int) (delim_every : Nat) : List Int :=
  let valid_delim := delim != 0 && delim_every != 0
  to_hex_loop valid_delim delim delim_every 0 data []

/-- The lower-case hex digit for a value below 16. -/
def lower_hex_digit (n : Nat) : Int :=
  (((char_codes "0123456789abcdef").getD n 0 : Nat) : Int)

/-- The byte a `char` holds: its value modulo 256. -/
def byte_of_char (c : Int) : Nat :=
  (c % 256).toNat

/-- The rendering described for `to_hex_dds_string`: byte by byte in buffer
order, the delimiter before byte `i` when `delim` and `delim_every` are not
zero, `i > 0` and `i` is a multiple of `delim_every`, then the digit of the
high nibble and the digit of the low nibble. -/
def hex_rendering (data : List Int) (delim : Int) (delim_every : Nat) : List Int :=
  data.enum.flatMap (fun p =>
    (if delim ≠ 0 ∧ delim_every ≠ 0 ∧ 0 < p.1 ∧ p.1 % delim_every = 0 then [delim] else [])
      ++ [lower_hex_digit (byte_of_char p.2 / 16), lower_hex_digit (byte_of_char p.2 % 16)])

/-! ## Theorems -/

@[simp] theorem log_sequence_number (s : DataWriterImpl) (e : Event) :
    (s.log e).sequence_number_ = s.sequence_number_ := rfl

@[simp] theorem log_reader_info (s : DataWriterImpl) (e : Event) :
    (s.log e).reader_info_ = s.reader_info_ := rfl

@[simp] theorem log_coherent (s : DataWriterImpl) (e : Event) :
    (s.log e).coherent_ = s.coherent_ := rfl

@[simp] theorem log_coherent_samples (s : DataWriterImpl) (e : Event) :
    (s.log e).coherent_samples_ = s.coherent_samples_ := rfl

@[simp] theorem log_lifespan (s : DataWriterImpl) (e : Event) :
    (s.log e).lifespan_duration = s.lifespan_duration := rfl

@[simp] theorem log_trace (s : DataWriterImpl) (e : Event) :
    (s.log e).trace = s.trace ++ [e] := rfl

@[simp] theorem track_sequence_number_sequence (s : DataWriterImpl)
    (filter_out : Option (List GUID_t)) :
    (track_sequence_number s filter_out).sequence_number_ = s.sequence_number_ := rfl

/-- A successful `create_sample_data_message` stamps the next number. -/
theorem create_sample_data_message_ok (env : Env) (s : DataWriterImpl) (data : Message_Block)
    (handle : InstanceHandle_t) (hd : DataSampleHeader) (ts : Time_t) (cf : Bool)
    (h : (create_sample_data_message env s data handle hd ts cf).ret = RETCODE_OK) :
    (create_sample_data_message env s data handle hd ts cf).header_data.sequence_
        = s.sequence_number_ + 1
      ∧ (create_sample_data_message env s data handle hd ts cf).header_data.sequence_repair_
        = need_sequence_repair_i s
      ∧ (create_sample_data_message env s data handle hd ts cf).header_data.message_id_
        = SAMPLE_DATA
      ∧ (create_sample_data_message env s data handle hd ts cf).state
        = { s with sequence_number_ := s.sequence_number_ + 1 } := by
  unfold create_sample_data_message at h ⊢
  by_cases hi : env.get_handle_instance handle
  · cases hp : env.publisher with
    | none => simp [hi, hp] at h
    | some p =>
      simp only [hi, hp, get_next_sn_i, need_sequence_repair]
      refine ⟨?_, ?_, ?_, ?_⟩ <;> (simp; try split <;> rfl)
  · simp [hi] at h

/-- Inversion of a successful `write`: every guard passed, and the result is
the success branch. -/
theorem write_ok_inv (env : Env) (s : DataWriterImpl) (a : WriteArgs)
    (h : (write env s a).ret = RETCODE_OK) :
    s.enabled_ = true ∧ env.obtain_buffer.1 = RETCODE_OK
      ∧ (create_sample_data_message env (s.log (Event.obtain_buffer a.handle)) a.data
          a.handle env.obtain_buffer.2.header a.source_timestamp a.filter_out.isSome).ret
          = RETCODE_OK
      ∧ env.enqueue = RETCODE_OK
      ∧ (write env s a).element = some (written_element env s a)
      ∧ (write env s a).state = write_enqueued env
          ((create_sample_data_message env (s.log (Event.obtain_buffer a.handle)) a.data
              a.handle env.obtain_buffer.2.header a.source_timestamp
              a.filter_out.isSome).state.log
            (Event.enqueue (written_element env s a) a.handle)) a.filter_out := by
  unfold write at h ⊢
  by_cases hen : s.enabled_ = true
  · by_cases hob : env.obtain_buffer.1 = RETCODE_OK
    · by_cases hcs : (create_sample_data_message env (s.log (Event.obtain_buffer a.handle))
          a.data a.handle env.obtain_buffer.2.header a.source_timestamp
          a.filter_out.isSome).ret = RETCODE_OK
      · by_cases heq : env.enqueue = RETCODE_OK
        · have c1 : ¬ ((!s.enabled_) = true) := by simp [hen]
          have c2 : ¬ ((env.obtain_buffer.1 == RETCODE_TIMEOUT) = true) := by simp [hob]
          have c3 : ¬ ((env.obtain_buffer.1 != RETCODE_OK) = true) := by simp [hob]
          have c4 : ¬ (((create_sample_data_message env (s.log (Event.obtain_buffer a.handle))
              a.data a.handle env.obtain_buffer.2.header a.source_timestamp
              a.filter_out.isSome).ret != RETCODE_OK) = true) := by simp [hcs]
          have c5 : ¬ ((env.enqueue != RETCODE_OK) = true) := by simp [heq]
          refine ⟨hen, hob, hcs, heq, ?_, ?_⟩
          · simp only [if_neg c1, if_neg c2, if_neg c3, if_neg c4, if_neg c5]; rfl
          · simp only [if_neg c1, if_neg c2, if_neg c3, if_neg c4, if_neg c5]; rfl
        · simp [hen, hob, hcs, heq] at h
      · simp [hen, hob, hcs] at h
    · simp [hen, hob] at h
  · simp [hen] at h

@[simp] theorem write_enqueued_sequence (env : Env) (s : DataWriterImpl)
    (filter_out : Option (List GUID_t)) :
    (write_enqueued env s filter_out).sequence_number_ = s.sequence_number_ := by
  unfold write_enqueued
  simp only []
  split <;> split <;> (try split) <;> rfl

/-- A successful `write` hands back the element it stamped, carrying the
number after the counter's old value, and leaves the counter at that number. -/
theorem write_ok_sequence (env : Env) (s : DataWriterImpl) (a : WriteArgs)
    (h : (write env s a).ret = RETCODE_OK) :
    (∃ e, (write env s a).element = some e
        ∧ e.header.sequence_ = s.sequence_number_ + 1
        ∧ e.header.message_id_ = SAMPLE_DATA
        ∧ e.header.sequence_repair_ = need_sequence_repair_i s)
      ∧ (write env s a).state.sequence_number_ = s.sequence_number_ + 1 := by
  obtain ⟨_, _, hcs, _, hel, hst⟩ := write_ok_inv env s a h
  obtain ⟨h1, h2, h3, h4⟩ := create_sample_data_message_ok _ _ _ _ _ _ _ hcs
  refine ⟨⟨_, hel, ?_, ?_, ?_⟩, ?_⟩
  · simpa [written_element] using h1
  · simpa [written_element] using h3
  · simpa [written_element, need_sequence_repair_i] using h2
  · rw [hst, write_enqueued_sequence, log_sequence_number, h4]
    rfl

/-- The headers stamped by a run of successful writes carry the numbers that
follow the counter's value before the run, one after the other. -/
theorem write_calls_sequences (calls : List (Env × WriteArgs)) (s : DataWriterImpl)
    (hok : ∀ r ∈ write_calls calls s, r.ret = RETCODE_OK) :
    (write_calls calls s).map (fun r => r.element.map (fun e => e.header.sequence_))
      = (List.range' (s.sequence_number_ + 1) calls.length).map some := by
  induction calls generalizing s with
  | nil => rfl
  | cons c cs ih =>
    have h0 : (write c.1 s c.2).ret = RETCODE_OK :=
      hok _ (by simp [write_calls])
    obtain ⟨⟨e, he, hseq, _, _⟩, hst⟩ := write_ok_sequence c.1 s c.2 h0
    have ih1 := ih (write c.1 s c.2).state
      (fun r hr => hok r (by simp [write_calls, hr]))
    simp only [write_calls, List.map_cons, List.length_cons, List.range'_succ, ih1, he,
      Option.map_some', hseq, hst]

/-- C1.  On one publication, a run of consecutive `write` calls that all return
`RETCODE_OK` stamps consecutive sequence numbers into the data headers built by
`create_sample_data_message`: the i-th written element (counting from 0)
carries the counter's value before the run plus i + 1, so each header's
`sequence_` is the previous write's `sequence_` plus one, with no gap. -/
theorem write_sequence_numbers_consecutive (calls : List (Env × WriteArgs))
    (s : DataWriterImpl)
    (hok : ∀ r ∈ write_calls calls s, r.ret = RETCODE_OK) :
    (write_calls calls s).map (fun r => r.element.map (fun e => e.header.sequence_))
        = (List.range' (s.sequence_number_ + 1) calls.length).map some
      ∧ List.Chain' (fun a b => b = a + 1)
          ((write_calls calls s).filterMap
            (fun r => r.element.map (fun e => e.header.sequence_))) := by
  have h := write_calls_sequences calls s hok
  refine ⟨h, ?_⟩
  have hf : (write_calls calls s).filterMap
      (fun r => r.element.map (fun e => e.header.sequence_))
      = List.range' (s.sequence_number_ + 1) calls.length := by
    calc (write_calls calls s).filterMap
          (fun r => r.element.map (fun e => e.header.sequence_))
        = ((write_calls calls s).map
            (fun r => r.element.map (fun e => e.header.sequence_))).filterMap id := by
          rw [List.filterMap_map]; rfl
      _ = ((List.range' (s.sequence_number_ + 1) calls.length).map some).filterMap id := by
          rw [h]
      _ = List.range' (s.sequence_number_ + 1) calls.length := by
          simp [List.filterMap_map]
  rw [hf]
  cases calls with
  | nil => exact List.chain'_nil
  | cons c cs =>
    rw [List.length_cons, List.range'_succ]
    exact List.chain_succ_range' (s.sequence_number_ + 1) cs.length 1

/-- Two accepted writes on a fresh writer are stamped 1 and 2. -/
theorem write_sequence_numbers_consecutive_witness :
    (∀ r ∈ write_calls [(accepting_env (some active_publisher) 1, plain_write),
        (accepting_env (some active_publisher) 2, plain_write)] fresh_writer,
        r.ret = RETCODE_OK)
      ∧ (write_calls [(accepting_env (some active_publisher) 1, plain_write),
          (accepting_env (some active_publisher) 2, plain_write)] fresh_writer).map
          (fun r => r.element.map (fun e => e.header.sequence_)) = [some 1, some 2] :=
  ⟨by decide,
    (write_sequence_numbers_consecutive
      [(accepting_env (some active_publisher) 1, plain_write),
        (accepting_env (some active_publisher) 2, plain_write)] fresh_writer (by decide)).1⟩

/-- The loop of `need_sequence_repair_i` answers true exactly when some reader's
cursor differs from the counter. -/
theorem need_sequence_repair_i_iff (s : DataWriterImpl) :
    need_sequence_repair_i s = true
      ↔ ∃ it ∈ s.reader_info_, it.2.expected_sequence_ ≠ s.sequence_number_ := by
  simp [need_sequence_repair_i, List.any_eq_true]

/-- With the publisher present, `create_control_message` on a kind that takes a
sequence number stamps the counter's old value plus one, computes the repair
flag against the old value, and moves every reader's cursor to the new one. -/
theorem create_control_message_consuming (env : Env) (s : DataWriterImpl)
    (message_id : MessageId) (hd : DataSampleHeader) (data : Option Message_Block)
    (ts : Time_t) (p : PublisherImpl) (hp : env.publisher = some p)
    (hk : consumes_sequence message_id = true) :
    (create_control_message env s message_id hd data ts).header_data.sequence_
        = s.sequence_number_ + 1
      ∧ (create_control_message env s message_id hd data ts).header_data.sequence_repair_
        = need_sequence_repair_i s
      ∧ (create_control_message env s message_id hd data ts).header_data.message_id_
        = message_id
      ∧ (create_control_message env s message_id hd data ts).state
        = { s with
            sequence_number_ := s.sequence_number_ + 1
            reader_info_ := s.reader_info_.map (fun reader =>
              (reader.1, { reader.2 with expected_sequence_ := s.sequence_number_ + 1 })) }
      ∧ (create_control_message env s message_id hd data ts).message.isSome = true := by
  unfold create_control_message
  simp only [hp, hk, get_next_sn_i, need_sequence_repair, if_true]
  have hne : ((s.sequence_number_ + 1 != SEQUENCENUMBER_UNKNOWN) = true) := by
    simp [SEQUENCENUMBER_UNKNOWN]
  simp only [hne, if_true]
  refine ⟨?_, ?_, ?_, ?_, ?_⟩ <;> first | trivial | rfl | (cases data <;> rfl)

/-- On the other kinds, or with the publisher absent, `create_control_message`
leaves the writer as it was and the header's sequence at the sentinel. -/
theorem create_control_message_plain (env : Env) (s : DataWriterImpl)
    (message_id : MessageId) (hd : DataSampleHeader) (data : Option Message_Block)
    (ts : Time_t) (hk : consumes_sequence message_id = false ∨ env.publisher = none) :
    (create_control_message env s message_id hd data ts).state = s
      ∧ (create_control_message env s message_id hd data ts).header_data.sequence_
        = SEQUENCENUMBER_UNKNOWN
      ∧ (create_control_message env s message_id hd data ts).header_data.sequence_repair_
        = false
      ∧ (create_control_message env s message_id hd data ts).header_data.message_id_
        = message_id := by
  unfold create_control_message
  cases hp : env.publisher with
  | none =>
    simp only []
    refine ⟨?_, ?_, ?_, ?_⟩ <;> first | trivial | rfl | (cases data <;> rfl)
  | some p =>
    rcases hk with hk | hk
    · simp only [hk]
      refine ⟨?_, ?_, ?_, ?_⟩ <;> first | trivial | rfl | (cases data <;> rfl)
    · rw [hp] at hk; cases hk

/-- C2, refuted as stated.  The writer's counter is 5 and its only reader's
cursor is 5.  A data message and a REQUEST_ACK built on it are both stamped 6,
the reader's cursor (5) is not equal to that number, and yet both headers carry
`sequence_repair_ = false`. -/
theorem repair_flag_not_against_assigned_sequence :
    (create_sample_data_message (accepting_env (some active_publisher) 1) caught_up_writer
        plain_write.data 7 clear_header plain_write.source_timestamp false).ret = RETCODE_OK
      ∧ (create_sample_data_message (accepting_env (some active_publisher) 1) caught_up_writer
        plain_write.data 7 clear_header plain_write.source_timestamp false).header_data.sequence_
          = 6
      ∧ (∃ it ∈ caught_up_writer.reader_info_, it.2.expected_sequence_ ≠ 6)
      ∧ (create_sample_data_message (accepting_env (some active_publisher) 1) caught_up_writer
        plain_write.data 7 clear_header plain_write.source_timestamp
          false).header_data.sequence_repair_ = false
      ∧ (create_control_message (accepting_env (some active_publisher) 1) caught_up_writer
        REQUEST_ACK clear_header none plain_write.source_timestamp).header_data.sequence_ = 6
      ∧ (create_control_message (accepting_env (some active_publisher) 1) caught_up_writer
        REQUEST_ACK clear_header none
          plain_write.source_timestamp).header_data.sequence_repair_ = false := by
  decide

/-- C2, amended.  For a data item stamped by a successful
`create_sample_data_message`, and for a control item of a sequence-consuming
kind stamped by `create_control_message` with the publisher present, the
header's `sequence_repair_` is true exactly when some reader in `reader_info_`
has an expected-sequence cursor different from the sequence counter's value
before the item's number is assigned; the number assigned (header `sequence_`)
is that prior value plus one.  This holds for every reader table and every
prior counter value. -/
theorem repair_flag_against_prior_counter (env : Env) (s : DataWriterImpl)
    (data : Message_Block) (handle : InstanceHandle_t) (hd : DataSampleHeader) (ts : Time_t)
    (cf : Bool) (message_id : MessageId) (cdata : Option Message_Block) :
    ((create_sample_data_message env s data handle hd ts cf).ret = RETCODE_OK →
        ((create_sample_data_message env s data handle hd ts cf).header_data.sequence_repair_
            = true
          ↔ ∃ it ∈ s.reader_info_, it.2.expected_sequence_ ≠ s.sequence_number_)
        ∧ (create_sample_data_message env s data handle hd ts cf).header_data.sequence_
            = s.sequence_number_ + 1)
      ∧ (env.publisher.isSome = true → consumes_sequence message_id = true →
        ((create_control_message env s message_id hd cdata ts).header_data.sequence_repair_
            = true
          ↔ ∃ it ∈ s.reader_info_, it.2.expected_sequence_ ≠ s.sequence_number_)
        ∧ (create_control_message env s message_id hd cdata ts).header_data.sequence_
            = s.sequence_number_ + 1) := by
  refine ⟨fun h => ?_, fun hp hk => ?_⟩
  · obtain ⟨h1, h2, _, _⟩ := create_sample_data_message_ok env s data handle hd ts cf h
    exact ⟨by rw [h2]; exact need_sequence_repair_i_iff s, h1⟩
  · obtain ⟨p, hp1⟩ := Option.isSome_iff_exists.mp hp
    obtain ⟨h1, h2, _, _, _⟩ :=
      create_control_message_consuming env s message_id hd cdata ts p hp1 hk
    exact ⟨by rw [h2]; exact need_sequence_repair_i_iff s, h1⟩

/-- On the writer whose only reader is caught up at 5, a data message and a
REQUEST_ACK get number 6 without the repair flag; no cursor differs from the
prior counter value 5. -/
theorem repair_flag_against_prior_counter_witness :
    ((create_sample_data_message (accepting_env (some active_publisher) 1) caught_up_writer
          plain_write.data 7 clear_header plain_write.source_timestamp
          false).header_data.sequence_repair_ = true
        ↔ ∃ it ∈ caught_up_writer.reader_info_,
            it.2.expected_sequence_ ≠ caught_up_writer.sequence_number_)
      ∧ ((create_control_message (accepting_env (some active_publisher) 1) caught_up_writer
          REQUEST_ACK clear_header none
          plain_write.source_timestamp).header_data.sequence_repair_ = true
        ↔ ∃ it ∈ caught_up_writer.reader_info_,
            it.2.expected_sequence_ ≠ caught_up_writer.sequence_number_) :=
  ⟨((repair_flag_against_prior_counter (accepting_env (some active_publisher) 1)
        caught_up_writer plain_write.data 7 clear_header plain_write.source_timestamp false
        REQUEST_ACK none).1 (by decide)).1,
    ((repair_flag_against_prior_counter (accepting_env (some active_publisher) 1)
        caught_up_writer plain_write.data 7 clear_header plain_write.source_timestamp false
        REQUEST_ACK none).2 (by decide) (by decide)).1⟩

/-- After a run of successful writes the counter has advanced by the number
of writes. -/
theorem after_writes_sequence (calls : List (Env × WriteArgs)) (s : DataWriterImpl)
    (hok : ∀ r ∈ write_calls calls s, r.ret = RETCODE_OK) :
    (after_writes calls s).sequence_number_ = s.sequence_number_ + calls.length := by
  induction calls generalizing s with
  | nil => rfl
  | cons c cs ih =>
    have h0 : (write c.1 s c.2).ret = RETCODE_OK := hok _ (by simp [write_calls])
    have ih1 := ih (write c.1 s c.2).state (fun r hr => hok r (by simp [write_calls, hr]))
    simp only [after_writes, ih1, (write_ok_sequence c.1 s c.2 h0).2, List.length_cons]
    exact Nat.add_assoc _ _ _ |>.trans (by rw [Nat.add_comm 1])

/-- A pair appended under a key that was absent is found under that key. -/
theorem lookup_append_new {α β : Type} [BEq α] [LawfulBEq α] (m : List (α × β)) (k : α)
    (v : β) (h : m.lookup k = none) : (m ++ [(k, v)]).lookup k = some v := by
  induction m with
  | nil => simp [List.lookup]
  | cons p m ih =>
    obtain ⟨a, b⟩ := p
    by_cases hk : k == a
    · simp [List.lookup, hk] at h
    · simp only [List.cons_append, List.lookup, hk] at h ⊢
      exact ih h

/-- The calls made by `replay` are appended to the trace. -/
theorem replay_trace (env : Env) (s : DataWriterImpl) (r : GUID_t) :
    ∃ rest, (replay env s r).trace = s.trace ++ rest := by
  have hst : (replay_stage env s r).2.trace
      = s.trace ++ [Event.reenqueue_all r, Event.get_resend_data] := by
    simp [replay_stage, DataWriterImpl.log]
  unfold replay
  simp only []
  have hc := (create_control_message_plain env (replay_stage env s r).2
      END_HISTORIC_SAMPLES env.new_header
      (some { total_length := env.serialized_size (BlockContent.reader_id r)
              content := BlockContent.reader_id r }) env.system_now (Or.inl rfl)).1
  split
  · exact ⟨_, hst⟩
  · split
    · exact ⟨_, by simp only [log_trace, hc, hst, List.append_assoc]; rfl⟩
    · exact ⟨_, by simp only [log_trace, hc, hst, List.append_assoc]; rfl⟩

/-- The bookkeeping part of `association_complete_i` leaves the reader table,
the counter and the pending list alone.  For a built-in-topic writer, or with
the participant alive, the first call it makes is `add_reader_acks` with the
current counter, and none of its calls goes to the transport. -/
theorem association_matched_frame (env : Env) (s : DataWriterImpl) (r : GUID_t) :
    (association_matched env s r).2.reader_info_ = s.reader_info_
      ∧ (association_matched env s r).2.sequence_number_ = s.sequence_number_
      ∧ (association_matched env s r).2.available_data_list_ = s.available_data_list_
      ∧ ((s.is_bit_ = true ∨ env.participant.isSome = true) →
          ∃ rest, (association_matched env s r).2.trace
              = s.trace ++ Event.add_reader_acks r s.sequence_number_ :: rest
            ∧ ∀ e ∈ rest, (e = Event.assign_handle r
                ∨ e = Event.set_status_changed_flag PUBLICATION_MATCHED_STATUS true
                ∨ e = Event.notify_status_condition
                ∨ ∃ st, e = Event.on_publication_matched st)) := by
  unfold association_matched
  dsimp only [DataWriterImpl.log, get_max_sn]
  split
  · split
    · rename_i hb _ hp
      refine ⟨rfl, rfl, rfl, fun h => ?_⟩
      rcases h with h | h
      · simp [h] at hb
      · simp [hp] at h
    · split
      · exact ⟨rfl, rfl, rfl, fun _ => ⟨[Event.assign_handle r],
          by simp only [List.append_assoc]; rfl, by simp⟩⟩
      · split
        · exact ⟨rfl, rfl, rfl, fun _ => ⟨[Event.assign_handle r,
            Event.set_status_changed_flag PUBLICATION_MATCHED_STATUS true,
            Event.on_publication_matched _, Event.notify_status_condition],
            by simp only [List.append_assoc]; rfl, by simp⟩⟩
        · exact ⟨rfl, rfl, rfl, fun _ => ⟨[Event.assign_handle r,
            Event.set_status_changed_flag PUBLICATION_MATCHED_STATUS true,
            Event.notify_status_condition],
            by simp only [List.append_assoc]; rfl, by simp⟩⟩
  · exact ⟨rfl, rfl, rfl, fun _ => ⟨[], rfl, by simp⟩⟩

/-- For a built-in-topic writer, or with the participant alive,
`association_complete_i` first asks the container for reader-ack bookkeeping
seeded with the current counter; everything else it calls comes after. -/
theorem association_complete_i_seeds_acks (env : Env) (s : DataWriterImpl) (r : GUID_t)
    (h : s.is_bit_ = true ∨ env.participant.isSome = true) :
    ∃ rest, (association_complete_i env s r).trace
      = s.trace ++ Event.add_reader_acks r s.sequence_number_ :: rest := by
  obtain ⟨rest, hr, _⟩ := (association_matched_frame env s r).2.2.2 h
  unfold association_complete_i
  simp only []
  split
  · obtain ⟨rest1, hr1⟩ := replay_trace env (association_matched env s r).2 r
    exact ⟨rest ++ rest1, by rw [hr1, hr]; simp⟩
  · exact ⟨rest, hr⟩

/-- A reader that is not recorded as durable keeps its record through
`association_complete_i`, and so does every other reader. -/
theorem association_complete_i_volatile (env : Env) (s : DataWriterImpl) (r : GUID_t)
    (h : reader_durable s r = false) :
    (association_complete_i env s r).reader_info_ = s.reader_info_ := by
  unfold association_complete_i
  simp only [h, Bool.and_false, Bool.false_eq_true, if_false]
  exact (association_matched_frame env s r).1

/-- What `add_association` does on a writer that is not deleted: the record is
inserted, the destructors of the two temporaries release the filter evaluator
(no call when the participant is gone or the filter is empty), and the
transport is asked to associate. -/
theorem add_association_eq (env : Env) (s : DataWriterImpl) (reader : ReaderAssociation)
    (active : Bool) :
    add_association env s reader active
      = if s.deleted_ then s
        else
          { s with
            reader_info_ := (map_insert s.reader_info_ reader.readerId
              (ReaderInfo.ctor env reader.filterClassName
                (if s.publisher_content_filter_ then reader.filterExpression else "")
                reader.exprParams
                (decide (reader.durability_kind ≠ VOLATILE_DURABILITY_QOS)))).1
            trace := s.trace
              ++ (if env.participant.isSome
                    && (if s.publisher_content_filter_ then reader.filterExpression else "")
                      != "" then
                  [Event.deref_filter_eval
                      (if s.publisher_content_filter_ then reader.filterExpression else ""),
                    Event.deref_filter_eval
                      (if s.publisher_content_filter_ then reader.filterExpression else "")]
                else [])
              ++ [Event.associate reader.readerId active] } := by
  unfold add_association ReaderInfo.dtor
  generalize (if s.publisher_content_filter_ then reader.filterExpression else "") = filter
  by_cases hd : s.deleted_ = true
  · rw [if_pos hd, if_pos hd]
  · rw [if_neg hd, if_neg hd]
    cases hp : env.participant with
    | none => simp [DataWriterImpl.log, ReaderInfo.ctor]
    | some p =>
      by_cases hf : (filter != "") = true
      · simp [DataWriterImpl.log, ReaderInfo.ctor, hf]
      · simp [DataWriterImpl.log, ReaderInfo.ctor, hf]

/-- On a writer that is not deleted, `add_association` of a reader without a
record stores a record whose cursor is `SEQUENCENUMBER_UNKNOWN` and whose
`durable_` flag tells whether the reader's durability is above volatile.  Its
calls are the two releases of the filter evaluator by the destructors of the
temporaries (with the participant alive and a filter recorded) and then
`associate`. -/
theorem add_association_new (env : Env) (s : DataWriterImpl) (reader : ReaderAssociation)
    (active : Bool) (hdel : s.deleted_ = false)
    (hnew : s.reader_info_.lookup reader.readerId = none) :
    (∃ info, (add_association env s reader active).reader_info_.lookup reader.readerId
          = some info
        ∧ info.expected_sequence_ = SEQUENCENUMBER_UNKNOWN
        ∧ info.durable_ = decide (reader.durability_kind ≠ VOLATILE_DURABILITY_QOS))
      ∧ (add_association env s reader active).trace
        = s.trace
          ++ (if env.participant.isSome
                && (if s.publisher_content_filter_ then reader.filterExpression else "")
                  != "" then
              [Event.deref_filter_eval
                  (if s.publisher_content_filter_ then reader.filterExpression else ""),
                Event.deref_filter_eval
                  (if s.publisher_content_filter_ then reader.filterExpression else "")]
            else [])
          ++ [Event.associate reader.readerId active]
      ∧ (add_association env s reader active).sequence_number_ = s.sequence_number_
      ∧ (add_association env s reader active).is_bit_ = s.is_bit_ := by
  rw [add_association_eq, if_neg (by simp [hdel])]
  refine ⟨⟨ReaderInfo.ctor env reader.filterClassName
      (if s.publisher_content_filter_ then reader.filterExpression else "")
      reader.exprParams (decide (reader.durability_kind ≠ VOLATILE_DURABILITY_QOS)),
    ?_, rfl, rfl⟩, rfl, rfl, rfl⟩
  simp only [map_insert, hnew, Option.isSome_none, Bool.false_eq_true, if_false]
  exact lookup_append_new _ _ _ hnew

/-- C3, refuted as stated.  A fresh writer accepts three writes, which brings
its counter to 3; then a volatile reader is added and its association
completes.  The reader is in `readers_`, and its expected-sequence cursor is
`SEQUENCENUMBER_UNKNOWN`, which is below 3. -/
theorem new_reader_cursor_below_writes :
    (∀ r ∈ write_calls three_writes fresh_writer, r.ret = RETCODE_OK)
      ∧ (after_writes three_writes fresh_writer).sequence_number_ = 3
      ∧ (association_complete_i (accepting_env (some active_publisher) 4)
          (add_association (accepting_env (some active_publisher) 4)
            (after_writes three_writes fresh_writer) (volatile_reader 9) true) 9).readers_ = [9]
      ∧ ((association_complete_i (accepting_env (some active_publisher) 4)
          (add_association (accepting_env (some active_publisher) 4)
            (after_writes three_writes fresh_writer) (volatile_reader 9) true)
            9).reader_info_.lookup 9).map (fun info => info.expected_sequence_)
          = some SEQUENCENUMBER_UNKNOWN
      ∧ SEQUENCENUMBER_UNKNOWN < 3 := by
  decide

/-- C3, amended.  For every N and every reader without a record that is matched
(`add_association` followed by `association_complete_i`, on a writer that is
not deleted and is for a built-in topic or has its participant alive) after N
successful writes: the writer's counter is at least N, and the first thing
`association_complete_i` does is to seed the Sample Store's ack bookkeeping
for the reader (`add_reader_acks`) with that counter, so the reader is not
waited upon for samples sent before it existed.  Before it, `add_association`
has made its own calls: the two releases of the filter evaluator by the
destructors of its temporaries (with the participant alive and a filter
recorded) and `associate`.  The reader's expected-sequence cursor is created as
`SEQUENCENUMBER_UNKNOWN` by `add_association`, and for a volatile reader it is
still `SEQUENCENUMBER_UNKNOWN` when the reader has become associated. -/
theorem association_seeds_acks_not_cursor (calls : List (Env × WriteArgs))
    (s0 : DataWriterImpl) (envA envC : Env) (reader : ReaderAssociation) (active : Bool)
    (hok : ∀ r ∈ write_calls calls s0, r.ret = RETCODE_OK)
    (hdel : (after_writes calls s0).deleted_ = false)
    (hnew : (after_writes calls s0).reader_info_.lookup reader.readerId = none)
    (hpart : (after_writes calls s0).is_bit_ = true ∨ envC.participant.isSome = true) :
    calls.length ≤ (after_writes calls s0).sequence_number_
      ∧ (∃ rest, (association_complete_i envC
            (add_association envA (after_writes calls s0) reader active) reader.readerId).trace
          = (after_writes calls s0).trace
            ++ (if envA.participant.isSome
                  && (if (after_writes calls s0).publisher_content_filter_ then
                      reader.filterExpression else "") != "" then
                [Event.deref_filter_eval
                    (if (after_writes calls s0).publisher_content_filter_ then
                      reader.filterExpression else ""),
                  Event.deref_filter_eval
                    (if (after_writes calls s0).publisher_content_filter_ then
                      reader.filterExpression else "")]
              else [])
            ++ Event.associate reader.readerId active
            :: Event.add_reader_acks reader.readerId (after_writes calls s0).sequence_number_
            :: rest)
      ∧ ((add_association envA (after_writes calls s0) reader active).reader_info_.lookup
            reader.readerId).map (fun info => info.expected_sequence_)
          = some SEQUENCENUMBER_UNKNOWN
      ∧ (reader.durability_kind = VOLATILE_DURABILITY_QOS →
          ((association_complete_i envC
            (add_association envA (after_writes calls s0) reader active)
              reader.readerId).reader_info_.lookup reader.readerId).map
              (fun info => info.expected_sequence_)
            = some SEQUENCENUMBER_UNKNOWN) := by
  obtain ⟨⟨info, hinfo, hexp, hdur⟩, htr, hseq, hbit⟩ :=
    add_association_new envA (after_writes calls s0) reader active hdel hnew
  refine ⟨?_, ?_, ?_, fun hvol => ?_⟩
  · rw [after_writes_sequence calls s0 hok]; exact Nat.le_add_left _ _
  · obtain ⟨rest, hr⟩ := association_complete_i_seeds_acks envC
      (add_association envA (after_writes calls s0) reader active) reader.readerId
      (by rw [hbit]; exact hpart)
    exact ⟨rest, by rw [hr, htr, hseq]; simp only [List.append_assoc, List.singleton_append]⟩
  · rw [hinfo]; simp [hexp]
  · have hnd : reader_durable (add_association envA (after_writes calls s0) reader active)
        reader.readerId = false := by
      simp [reader_durable, hinfo, hdur, hvol]
    rw [association_complete_i_volatile _ _ _ hnd, hinfo]; simp [hexp]

/-- After the three accepted writes on a fresh writer, matching the filtered
volatile reader 9: `add_association` releases the filter evaluator twice and
asks the transport to associate, `association_complete_i` seeds the ack
bookkeeping with 3, and the cursor stays unknown. -/
theorem association_seeds_acks_not_cursor_witness :
    three_writes.length ≤ (after_writes three_writes fresh_writer).sequence_number_
      ∧ (∃ rest, (association_complete_i (accepting_env (some active_publisher) 4)
            (add_association (accepting_env (some active_publisher) 4)
              (after_writes three_writes fresh_writer) (filtered_reader 9) true) 9).trace
          = (after_writes three_writes fresh_writer).trace
            ++ [Event.deref_filter_eval "x > 1", Event.deref_filter_eval "x > 1"]
            ++ Event.associate 9 true :: Event.add_reader_acks 9 3 :: rest)
      ∧ ((association_complete_i (accepting_env (some active_publisher) 4)
            (add_association (accepting_env (some active_publisher) 4)
              (after_writes three_writes fresh_writer) (filtered_reader 9) true)
              9).reader_info_.lookup 9).map (fun info => info.expected_sequence_)
          = some SEQUENCENUMBER_UNKNOWN := by
  obtain ⟨h1, ⟨rest, h2⟩, _, h4⟩ := association_seeds_acks_not_cursor three_writes fresh_writer
    (accepting_env (some active_publisher) 4) (accepting_env (some active_publisher) 4)
    (filtered_reader 9) true (by decide) (by decide) (by decide) (by decide)
  exact ⟨h1, ⟨rest, h2⟩, h4 rfl⟩

/-- A successful `map_insert` leaves the new pair under its key. -/
theorem map_insert_ok {α β : Type} [BEq α] [LawfulBEq α] (m : List (α × β)) (k : α) (v : β)
    (h : (map_insert m k v).2 = true) : (map_insert m k v).1.lookup k = some v := by
  unfold map_insert at h ⊢
  cases hl : m.lookup k with
  | some x => simp [hl] at h
  | none =>
    simp only [hl, Option.isSome_none, Bool.false_eq_true, if_false]
    exact lookup_append_new m k v hl

/-- After a successful `insert_instance` the key maps to the handle. -/
theorem insert_instance_ok (s : DataWriterImpl) (handle : InstanceHandle_t) (key : Nat)
    (h : (insert_instance s handle key).1 = true) :
    (insert_instance s handle key).2.instance_values_to_handles_.lookup key = some handle := by
  unfold insert_instance at h ⊢
  dsimp only at h ⊢
  split
  · rename_i h1; simp [h1] at h
  · split
    · rename_i h1 h2; simp [h1, h2] at h
    · rename_i h1 h2
      exact map_insert_ok _ _ _ (by simpa using h2)

/-- After a successful `get_or_create_instance_handle` the key looks up to the
handle it returned. -/
theorem get_or_create_instance_handle_ok (env : Env) (s : DataWriterImpl) (key : Nat)
    (ts : Time_t) (h : (get_or_create_instance_handle env s key ts).ret = RETCODE_OK) :
    lookup_instance (get_or_create_instance_handle env s key ts).state key
      = (get_or_create_instance_handle env s key ts).handle := by
  unfold get_or_create_instance_handle at h ⊢
  dsimp only at h ⊢
  by_cases c1 : (lookup_instance s key == HANDLE_NIL
      || !env.get_handle_instance (lookup_instance s key)) = true
  · rw [if_pos c1] at h ⊢
    by_cases c2 : (!env.check_register_instance) = true
    · rw [if_pos c2] at h; cases h
    · rw [if_neg c2] at h ⊢
      cases hser : env.serialize key with
      | none => rw [hser] at h
      | some ser =>
        rw [hser] at h
        dsimp only at h ⊢
        generalize register_instance_i env s (lookup_instance s key) ser ts = r at h ⊢
        by_cases c3 : (r.ret != RETCODE_OK) = true
        · rw [if_pos c3] at h
          dsimp only at h
          rw [h] at c3; cases c3
        · rw [if_neg c3] at h ⊢
          by_cases c4 : (!(insert_instance r.state r.handle key).1) = true
          · rw [if_pos c4] at h; cases h
          · rw [if_neg c4]
            have hi := insert_instance_ok r.state r.handle key (by simpa using c4)
            simp only [lookup_instance, send_all_to_flush_control, DataWriterImpl.log, hi]
  · rw [if_neg c1]

/-- C4.  Registration is idempotent per key.  If `get_or_create_instance_handle`
(the body of `register_instance_w_timestamp`) has returned `RETCODE_OK` for key
`k` with a handle `h` other than `HANDLE_NIL`, and the container still holds
the instance of `h`, then registering the same key again on the resulting
writer returns `RETCODE_OK` with the same handle `h` and leaves the writer as
it is: the trace gains no call (no `register_instance`, no `enqueue_control`,
so no second INSTANCE_REGISTRATION is built) and the sequence counter is
unchanged. -/
theorem registration_idempotent (env1 env2 : Env) (s : DataWriterImpl) (k : Nat)
    (ts1 ts2 : Time_t)
    (hok : (get_or_create_instance_handle env1 s k ts1).ret = RETCODE_OK)
    (hnil : (get_or_create_instance_handle env1 s k ts1).handle ≠ HANDLE_NIL)
    (hlive : env2.get_handle_instance (get_or_create_instance_handle env1 s k ts1).handle
      = true) :
    (get_or_create_instance_handle env2
        (get_or_create_instance_handle env1 s k ts1).state k ts2).ret = RETCODE_OK
      ∧ (get_or_create_instance_handle env2
        (get_or_create_instance_handle env1 s k ts1).state k ts2).handle
          = (get_or_create_instance_handle env1 s k ts1).handle
      ∧ (get_or_create_instance_handle env2
        (get_or_create_instance_handle env1 s k ts1).state k ts2).state
          = (get_or_create_instance_handle env1 s k ts1).state
      ∧ register_instance_w_timestamp env2
          (get_or_create_instance_handle env1 s k ts1).state k ts2
          = ((get_or_create_instance_handle env1 s k ts1).handle,
              (get_or_create_instance_handle env1 s k ts1).state) := by
  have hl := get_or_create_instance_handle_ok env1 s k ts1 hok
  have key : get_or_create_instance_handle env2
      (get_or_create_instance_handle env1 s k ts1).state k ts2
      = { ret := RETCODE_OK, handle := (get_or_create_instance_handle env1 s k ts1).handle,
          state := (get_or_create_instance_handle env1 s k ts1).state } := by
    generalize get_or_create_instance_handle env1 s k ts1 = r1 at *
    unfold get_or_create_instance_handle
    dsimp only
    have c1 : ¬ ((lookup_instance r1.state k == HANDLE_NIL
        || !env2.get_handle_instance (lookup_instance r1.state k)) = true) := by
      rw [hl]; simp [hnil, hlive]
    rw [if_neg c1, hl]
  refine ⟨?_, ?_, ?_, ?_⟩
  · rw [key]
  · rw [key]
  · rw [key]
  · unfold register_instance_w_timestamp; rw [key]

/-- Registering key 5 twice on a fresh writer gives handle 7 both times and
the second call changes nothing. -/
theorem registration_idempotent_witness :
    (get_or_create_instance_handle (accepting_env (some active_publisher) 1) fresh_writer 5
        { sec := 0, nanosec := 0 }).handle = 7
      ∧ (get_or_create_instance_handle (accepting_env (some active_publisher) 2)
          (get_or_create_instance_handle (accepting_env (some active_publisher) 1)
            fresh_writer 5 { sec := 0, nanosec := 0 }).state 5 { sec := 1, nanosec := 0 }).ret
          = RETCODE_OK
      ∧ (get_or_create_instance_handle (accepting_env (some active_publisher) 2)
          (get_or_create_instance_handle (accepting_env (some active_publisher) 1)
            fresh_writer 5 { sec := 0, nanosec := 0 }).state 5
            { sec := 1, nanosec := 0 }).handle
          = (get_or_create_instance_handle (accepting_env (some active_publisher) 1)
            fresh_writer 5 { sec := 0, nanosec := 0 }).handle :=
  ⟨by decide,
    (registration_idempotent (accepting_env (some active_publisher) 1)
      (accepting_env (some active_publisher) 2) fresh_writer 5 { sec := 0, nanosec := 0 }
      { sec := 1, nanosec := 0 } (by decide) (by decide) (by decide)).1,
    (registration_idempotent (accepting_env (some active_publisher) 1)
      (accepting_env (some active_publisher) 2) fresh_writer 5 { sec := 0, nanosec := 0 }
      { sec := 1, nanosec := 0 } (by decide) (by decide) (by decide)).2.1⟩

/-- The loop over the resend list marks every element and leaves `seq` at the
largest of its start value and the header sequences. -/
theorem mark_historic_eq (list : List DataSampleElement) (seq : SequenceNumber) :
    mark_historic list seq
      = (list.map set_historic, (list.map (fun e => e.header.sequence_)).foldl max seq) := by
  induction list generalizing seq with
  | nil => rfl
  | cons e rest ih =>
    have hmax : (if e.header.sequence_ > seq then e.header.sequence_ else seq)
        = max seq e.header.sequence_ := by
      by_cases h : seq < e.header.sequence_
      · have h1 : e.header.sequence_ > seq := h
        rw [if_pos h1, Nat.max_eq_right (Nat.le_of_lt h)]
      · have h1 : ¬ e.header.sequence_ > seq := h
        rw [if_neg h1, Nat.max_eq_left (Nat.le_of_not_lt h)]
    simp only [mark_historic, ih, List.map_cons, List.foldl_cons, hmax]

/-- Folding `max` gives a value that is not below the start and not below any
element, and that is the start or one of the elements. -/
theorem foldl_max_spec (l : List Nat) (a : Nat) :
    a ≤ l.foldl max a ∧ (∀ x ∈ l, x ≤ l.foldl max a)
      ∧ (l.foldl max a = a ∨ l.foldl max a ∈ l) := by
  induction l generalizing a with
  | nil => simp
  | cons b l ih =>
    obtain ⟨h1, h2, h3⟩ := ih (max a b)
    simp only [List.foldl_cons, List.mem_cons]
    refine ⟨le_trans (le_max_left a b) h1, ?_, ?_⟩
    · intro x hx
      rcases hx with rfl | hx
      · exact le_trans (le_max_right a _) h1
      · exact h2 x hx
    · rcases h3 with h3 | h3
      · rw [h3]
        rcases le_total a b with hab | hab
        · right; left; exact max_eq_right hab
        · left; exact max_eq_left hab
      · right; right; exact h3

/-- When the start is below the largest element `m`, folding `max` gives `m`. -/
theorem foldl_max_eq (l : List Nat) (a m : Nat) (hm : m ∈ l) (hmax : ∀ x ∈ l, x ≤ m)
    (ha : a < m) : l.foldl max a = m := by
  obtain ⟨h1, h2, h3⟩ := foldl_max_spec l a
  have hle : m ≤ l.foldl max a := h2 m hm
  rcases h3 with h3 | h3
  · omega
  · have := hmax _ h3; omega

/-- Updating the record stored under `r` shows in the lookup of `r`. -/
theorem lookup_map_update (m : List (GUID_t × ReaderInfo)) (r : GUID_t)
    (f : ReaderInfo → ReaderInfo) :
    (m.map (fun it => if it.1 == r then (it.1, f it.2) else it)).lookup r
      = (m.lookup r).map f := by
  induction m with
  | nil => rfl
  | cons p m ih =>
    obtain ⟨a, b⟩ := p
    by_cases h : a = r
    · subst h
      simp only [List.map_cons, beq_self_eq_true, if_true, List.lookup_cons, Option.map_some']
    · have h1 : (a == r) = false := by simpa using h
      have h2 : (r == a) = false := by simpa using fun e => h e.symm
      simp only [List.map_cons, h1, Bool.false_eq_true, if_false, List.lookup_cons, h2, ih]

/-- With the publisher present and not suspended, `replay` marks the re-staged
list historic, raises the reader's cursor to the largest header sequence, and
sends the marked list once, with one END_HISTORIC_SAMPLES header, to the
reader. -/
theorem replay_sent (env : Env) (s : DataWriterImpl) (r : GUID_t)
    (hs : absent_or_suspended env = false) :
    ∃ header msg post,
      (replay env s r).trace
          = s.trace ++ [Event.reenqueue_all r, Event.get_resend_data, Event.message_sent,
              Event.send_w_control (env.get_resend_data.map set_historic) header msg r] ++ post
        ∧ header.message_id_ = END_HISTORIC_SAMPLES
        ∧ (post = [] ∨ post = [Event.message_dropped])
        ∧ (replay env s r).reader_info_.lookup r
          = (s.reader_info_.lookup r).map (fun info =>
              { info with
                expected_sequence_ :=
                  ((env.get_resend_data.map (fun e => e.header.sequence_)).foldl max
                    info.expected_sequence_) })
        ∧ (replay env s r).available_data_list_ = s.available_data_list_
        ∧ (replay env s r).sequence_number_ = s.sequence_number_ := by
  have hst1 : (replay_stage env s r).1 = env.get_resend_data.map set_historic := by
    simp only [replay_stage, mark_historic_eq]
  have hst2 : (replay_stage env s r).2.trace
      = s.trace ++ [Event.reenqueue_all r, Event.get_resend_data] := by
    simp only [replay_stage, DataWriterImpl.log, List.append_assoc]; rfl
  have hst3 : (replay_stage env s r).2.available_data_list_ = s.available_data_list_ := by
    simp only [replay_stage, DataWriterImpl.log]
  have hst4 : (replay_stage env s r).2.sequence_number_ = s.sequence_number_ := by
    simp only [replay_stage, DataWriterImpl.log]
  have hri : (replay_stage env s r).2.reader_info_.lookup r
      = (s.reader_info_.lookup r).map (fun info =>
          { info with
            expected_sequence_ :=
              ((env.get_resend_data.map (fun e => e.header.sequence_)).foldl max
                info.expected_sequence_) }) := by
    simp only [replay_stage, mark_historic_eq, DataWriterImpl.log]
    refine (lookup_map_update s.reader_info_ r (fun info =>
      { info with
        expected_sequence_ :=
          ((env.get_resend_data.map (fun e => e.header.sequence_)).foldl max
            (match s.reader_info_.lookup r with
              | some info => info.expected_sequence_
              | none => SEQUENCENUMBER_UNKNOWN)) })).trans ?_
    cases s.reader_info_.lookup r <;> rfl
  obtain ⟨hc1, _, _, hc4⟩ := create_control_message_plain env (replay_stage env s r).2
      END_HISTORIC_SAMPLES env.new_header
      (some { total_length := env.serialized_size (BlockContent.reader_id r)
              content := BlockContent.reader_id r }) env.system_now (Or.inl rfl)
  unfold replay
  dsimp only
  rw [if_neg (by simp [hs])]
  generalize create_control_message env (replay_stage env s r).2
      END_HISTORIC_SAMPLES env.new_header
      (some { total_length := env.serialized_size (BlockContent.reader_id r)
              content := BlockContent.reader_id r }) env.system_now = c at hc1 hc4 ⊢
  split
  · refine ⟨c.header_data, c.message, [Event.message_dropped], ?_, hc4, Or.inr rfl, ?_, ?_, ?_⟩
    · simp only [log_trace, hc1, hst1, hst2, List.append_assoc]; rfl
    · simp only [DataWriterImpl.log, hc1]; exact hri
    · simp only [DataWriterImpl.log, hc1, hst3]
    · simp only [DataWriterImpl.log, hc1, hst4]
  · refine ⟨c.header_data, c.message, [], ?_, hc4, Or.inl rfl, ?_, ?_, ?_⟩
    · simp only [log_trace, hc1, hst1, hst2, List.append_assoc]; rfl
    · simp only [DataWriterImpl.log, hc1]; exact hri
    · simp only [DataWriterImpl.log, hc1, hst3]
    · simp only [DataWriterImpl.log, hc1, hst4]

/-- The bookkeeping part of `association_complete_i` runs to its end for a
built-in-topic writer, and for another writer when the participant is alive
and the reader has no handle yet. -/
theorem association_matched_completes (env : Env) (s : DataWriterImpl) (r : GUID_t)
    (h : s.is_bit_ = true
      ∨ (env.participant.isSome = true ∧ s.id_to_handle_map_.lookup r = none)) :
    (association_matched env s r).1 = true := by
  unfold association_matched
  dsimp only [DataWriterImpl.log, get_max_sn]
  split
  · rename_i hb
    have hb1 : s.is_bit_ = false := by simpa using hb
    rcases h with h | ⟨hp, hl⟩
    · rw [h] at hb1; cases hb1
    · split
      · rename_i hn; rw [hn] at hp; cases hp
      · rename_i part _
        have c : ¬ ((!(map_insert s.id_to_handle_map_ r (part.assign_handle r)).2) = true) := by
          simp [map_insert, hl]
        rw [if_neg c]
  · rfl

/-- C5.  Durability replay.  Let reader `r` be recorded as durable, let its
association complete (the writer is for a built-in topic, or the participant is
alive and `r` has no handle yet) while the publisher is present and not
suspended, and let `L` be the list re-staged by the Sample Store
(`get_resend_data`).  Then `association_complete_i` appends to the trace, after
bookkeeping calls none of which is a transport send, exactly: `reenqueue_all`
for `r`, `get_resend_data`, the tracker's `message_sent`, and one
`send_w_control` carrying the elements of `L`, each marked historic, together
with one control header of kind END_HISTORIC_SAMPLES, addressed to `r`; it is
followed at most by the tracker's `message_dropped`.  Afterwards `r`'s
expected-sequence cursor is the larger of its old value and the largest header
sequence number in `L`; so it equals that largest number `m` whenever the
cursor was below `m` before. -/
theorem durable_replay_sends_batch_and_terminator (env : Env) (s : DataWriterImpl)
    (r : GUID_t) (info : ReaderInfo)
    (hpub : absent_or_suspended env = false)
    (hinfo : s.reader_info_.lookup r = some info)
    (hdur : info.durable_ = true)
    (hcomp : s.is_bit_ = true
      ∨ (env.participant.isSome = true ∧ s.id_to_handle_map_.lookup r = none)) :
    ∃ pre header msg post,
      (association_complete_i env s r).trace
          = s.trace ++ pre
            ++ [Event.reenqueue_all r, Event.get_resend_data, Event.message_sent,
                Event.send_w_control (env.get_resend_data.map set_historic) header msg r]
            ++ post
        ∧ (∀ e ∈ pre, e.is_transport_send = false)
        ∧ (post = [] ∨ post = [Event.message_dropped])
        ∧ header.message_id_ = END_HISTORIC_SAMPLES
        ∧ (∀ e ∈ env.get_resend_data.map set_historic, e.header.historic_sample_ = true)
        ∧ ((association_complete_i env s r).reader_info_.lookup r).map
              (fun i => i.expected_sequence_)
            = some ((env.get_resend_data.map (fun e => e.header.sequence_)).foldl max
                info.expected_sequence_)
        ∧ (∀ m, m ∈ env.get_resend_data.map (fun e => e.header.sequence_) →
            (∀ x ∈ env.get_resend_data.map (fun e => e.header.sequence_), x ≤ m) →
            info.expected_sequence_ < m →
            ((association_complete_i env s r).reader_info_.lookup r).map
                (fun i => i.expected_sequence_) = some m) := by
  obtain ⟨hri, _, _, htr⟩ := association_matched_frame env s r
  obtain ⟨rest, hrest, hbook⟩ := htr (hcomp.imp id (fun h => h.1))
  have hflag := association_matched_completes env s r hcomp
  have hd : reader_durable s r = true := by simp [reader_durable, hinfo, hdur]
  obtain ⟨header, msg, post, h1, h2, h3, h4, _, _⟩ :=
    replay_sent env (association_matched env s r).2 r hpub
  have hcur : ((association_complete_i env s r).reader_info_.lookup r).map
        (fun i => i.expected_sequence_)
      = some ((env.get_resend_data.map (fun e => e.header.sequence_)).foldl max
          info.expected_sequence_) := by
    unfold association_complete_i
    simp only [hflag, hd, Bool.and_self, if_true]
    rw [h4, hri, hinfo]
    rfl
  refine ⟨Event.add_reader_acks r s.sequence_number_ :: rest, header, msg, post,
    ?_, ?_, h3, h2, ?_, hcur, ?_⟩
  · unfold association_complete_i
    simp only [hflag, hd, Bool.and_self, if_true]
    rw [h1, hrest]
  · intro e he
    rcases List.mem_cons.mp he with rfl | he
    · rfl
    · rcases hbook e he with rfl | rfl | rfl | ⟨st, rfl⟩ <;> rfl
  · intro e he
    obtain ⟨x, _, rfl⟩ := List.mem_map.mp he
    rfl
  · intro m hm hmax hlt
    rw [hcur, foldl_max_eq _ _ m hm hmax hlt]

/-- Three historic writes exist (numbers 1, 2, 3) when durable reader 9
completes its association: its cursor ends at 3, the number of the third
write. -/
theorem durable_replay_sends_batch_and_terminator_witness :
    three_written.map (fun e => e.header.sequence_) = [1, 2, 3]
      ∧ ((association_complete_i (replay_env (some active_publisher)) durable_matched_writer
          9).reader_info_.lookup 9).map (fun i => i.expected_sequence_) = some 3 :=
  ⟨by decide,
    match durable_replay_sends_batch_and_terminator (replay_env (some active_publisher))
      durable_matched_writer 9
      (ReaderInfo.ctor (replay_env (some active_publisher)) "" "" [] true)
      (by decide) (by decide) (by decide) (by decide) with
    | ⟨_, _, _, _, _, _, _, _, _, _, h⟩ => h 3 (by decide) (by decide) (by decide)⟩

/-- Under suspension (or with the publisher absent) the statements after a
successful `enqueue` record the transaction id in the watermarks (the low one
when it is still zero, the high one otherwise) and append the unsent list to
the pending list. -/
theorem write_enqueued_deferred (env : Env) (s : DataWriterImpl)
    (filter_out : Option (List GUID_t)) (hs : absent_or_suspended env = true) :
    (write_enqueued env s filter_out).min_suspended_transaction_id_
        = (if s.min_suspended_transaction_id_ = 0 then env.get_unsent_data.2
            else s.min_suspended_transaction_id_)
      ∧ (write_enqueued env s filter_out).max_suspended_transaction_id_
        = (if s.min_suspended_transaction_id_ = 0 then s.max_suspended_transaction_id_
            else env.get_unsent_data.2)
      ∧ (write_enqueued env s filter_out).available_data_list_
        = s.available_data_list_ ++ env.get_unsent_data.1 := by
  unfold write_enqueued
  dsimp only [DataWriterImpl.log, track_sequence_number]
  rw [if_pos hs]
  by_cases hc : s.coherent_ = true
  · by_cases hm : s.min_suspended_transaction_id_ = 0
    · simp [hc, hm]
    · simp [hc, hm]
  · by_cases hm : s.min_suspended_transaction_id_ = 0
    · simp [hc, hm]
    · simp [hc, hm]

/-- A successful `write` under suspension (or with the publisher absent). -/
theorem write_deferred (env : Env) (s : DataWriterImpl) (a : WriteArgs)
    (h : (write env s a).ret = RETCODE_OK) (hs : absent_or_suspended env = true) :
    (write env s a).state.min_suspended_transaction_id_
        = (if s.min_suspended_transaction_id_ = 0 then env.get_unsent_data.2
            else s.min_suspended_transaction_id_)
      ∧ (write env s a).state.max_suspended_transaction_id_
        = (if s.min_suspended_transaction_id_ = 0 then s.max_suspended_transaction_id_
            else env.get_unsent_data.2)
      ∧ (write env s a).state.available_data_list_
        = s.available_data_list_ ++ env.get_unsent_data.1 := by
  obtain ⟨_, _, hcs, _, _, hst⟩ := write_ok_inv env s a h
  obtain ⟨_, _, _, h4⟩ := create_sample_data_message_ok _ _ _ _ _ _ _ hcs
  rw [hst, h4]
  exact write_enqueued_deferred env _ a.filter_out hs

/-- Deferred writes on a writer whose low watermark is already set keep the low
watermark, leave the high watermark at the last transaction id, and append
their unsent lists to the pending list in call order. -/
theorem after_writes_deferred (calls : List (Env × WriteArgs)) (last : Env × WriteArgs)
    (s : DataWriterImpl) (hmin : s.min_suspended_transaction_id_ ≠ 0)
    (hok : ∀ r ∈ write_calls (calls ++ [last]) s, r.ret = RETCODE_OK)
    (hs : ∀ c ∈ calls ++ [last], absent_or_suspended c.1 = true) :
    (after_writes (calls ++ [last]) s).min_suspended_transaction_id_
        = s.min_suspended_transaction_id_
      ∧ (after_writes (calls ++ [last]) s).max_suspended_transaction_id_
        = last.1.get_unsent_data.2
      ∧ (after_writes (calls ++ [last]) s).available_data_list_
        = s.available_data_list_
          ++ ((calls ++ [last]).map (fun c => c.1.get_unsent_data.1)).flatten := by
  induction calls generalizing s with
  | nil =>
    have h0 : (write last.1 s last.2).ret = RETCODE_OK := hok _ (by simp [write_calls])
    obtain ⟨h1, h2, h3⟩ := write_deferred last.1 s last.2 h0 (hs last (by simp))
    simp only [List.nil_append, after_writes, h1, h2, h3, if_neg hmin, List.map_cons,
      List.map_nil, List.flatten_cons, List.flatten_nil, List.append_nil, and_self]
  | cons c cs ih =>
    have h0 : (write c.1 s c.2).ret = RETCODE_OK := hok _ (by simp [write_calls])
    obtain ⟨h1, h2, h3⟩ := write_deferred c.1 s c.2 h0 (hs c (by simp))
    rw [if_neg hmin] at h1
    obtain ⟨i1, i2, i3⟩ := ih (write c.1 s c.2).state (by rw [h1]; exact hmin)
      (fun r hr => hok r (by simp [write_calls]; exact Or.inr hr))
      (fun d hd => hs d (by simp at hd ⊢; exact Or.inr hd))
    have e : after_writes ((c :: cs) ++ [last]) s
        = after_writes (cs ++ [last]) (write c.1 s c.2).state := rfl
    rw [e, i1, i2, i3, h1, h3]
    simp only [List.cons_append, List.map_cons, List.flatten_cons, List.append_assoc,
      and_self]

/-- C6.  Suspend/resume ordering.  Start with the low watermark at zero.  Let
k >= 2 successful `write` calls be deferred (publisher suspended or absent)
with nonzero transaction ids t1 .. tk.  Then the first sets
`min_suspended_transaction_id_` to t1 and the last leaves
`max_suspended_transaction_id_` at tk, the pending list holds the deferred
batches in call order, and `send_suspended_data` calls `send` on the pending
list first with tk and then with t1, and leaves both watermarks at 0 and the
pending list empty. -/
theorem suspended_writes_flush_high_then_low (first last : Env × WriteArgs)
    (mid : List (Env × WriteArgs)) (s : DataWriterImpl)
    (hmin : s.min_suspended_transaction_id_ = 0)
    (hok : ∀ r ∈ write_calls (first :: (mid ++ [last])) s, r.ret = RETCODE_OK)
    (hs : ∀ c ∈ first :: (mid ++ [last]), absent_or_suspended c.1 = true)
    (hid : ∀ c ∈ first :: (mid ++ [last]), c.1.get_unsent_data.2 ≠ 0) :
    (after_writes (first :: (mid ++ [last])) s).min_suspended_transaction_id_
        = first.1.get_unsent_data.2
      ∧ (after_writes (first :: (mid ++ [last])) s).max_suspended_transaction_id_
        = last.1.get_unsent_data.2
      ∧ (after_writes (first :: (mid ++ [last])) s).available_data_list_
        = s.available_data_list_
          ++ ((first :: (mid ++ [last])).map (fun c => c.1.get_unsent_data.1)).flatten
      ∧ (send_suspended_data (after_writes (first :: (mid ++ [last])) s)).trace
        = (after_writes (first :: (mid ++ [last])) s).trace
          ++ [Event.send (after_writes (first :: (mid ++ [last])) s).available_data_list_
                last.1.get_unsent_data.2,
              Event.send (after_writes (first :: (mid ++ [last])) s).available_data_list_
                first.1.get_unsent_data.2]
      ∧ (send_suspended_data
          (after_writes (first :: (mid ++ [last])) s)).min_suspended_transaction_id_ = 0
      ∧ (send_suspended_data
          (after_writes (first :: (mid ++ [last])) s)).max_suspended_transaction_id_ = 0
      ∧ (send_suspended_data
          (after_writes (first :: (mid ++ [last])) s)).available_data_list_ = [] := by
  have h0 : (write first.1 s first.2).ret = RETCODE_OK := hok _ (by simp [write_calls])
  obtain ⟨h1, _, h3⟩ := write_deferred first.1 s first.2 h0 (hs first (by simp))
  rw [if_pos hmin] at h1
  obtain ⟨i1, i2, i3⟩ := after_writes_deferred mid last (write first.1 s first.2).state
    (by rw [h1]; exact hid first (by simp))
    (fun r hr => hok r (by simp [write_calls]; exact Or.inr hr))
    (fun d hd => hs d (by simp at hd ⊢; exact Or.inr hd))
  have e1 : (after_writes (first :: (mid ++ [last])) s).min_suspended_transaction_id_
      = first.1.get_unsent_data.2 := by
    show (after_writes (mid ++ [last]) (write first.1 s first.2).state).min_suspended_transaction_id_
      = _
    rw [i1, h1]
  have e2 : (after_writes (first :: (mid ++ [last])) s).max_suspended_transaction_id_
      = last.1.get_unsent_data.2 := i2
  have e3 : (after_writes (first :: (mid ++ [last])) s).available_data_list_
      = s.available_data_list_
        ++ ((first :: (mid ++ [last])).map (fun c => c.1.get_unsent_data.1)).flatten := by
    show (after_writes (mid ++ [last]) (write first.1 s first.2).state).available_data_list_
      = _
    rw [i3, h3]
    simp only [List.map_cons, List.flatten_cons, List.append_assoc]
  have hk : last.1.get_unsent_data.2 ≠ 0 := hid last (by simp)
  generalize after_writes (first :: (mid ++ [last])) s = t at e1 e2 e3 ⊢
  have c : (t.max_suspended_transaction_id_ != 0) = true := by simp [e2, hk]
  refine ⟨e1, e2, e3, ?_, rfl, ?_, rfl⟩
  · unfold send_suspended_data
    dsimp only [DataWriterImpl.log]
    simp only [c, if_true]
    simp only [e1, e2, List.append_assoc]
    rfl
  · unfold send_suspended_data
    dsimp only [DataWriterImpl.log]
    simp only [c, if_true]

/-- Two writes deferred with transaction ids 10 and 11 are flushed as 11, then
10, and the watermarks and the pending list are cleared. -/
theorem suspended_writes_flush_high_then_low_witness :
    (after_writes [(deferring_env 10, plain_write), (deferring_env 11, plain_write)]
        fresh_writer).min_suspended_transaction_id_ = 10
      ∧ (after_writes [(deferring_env 10, plain_write), (deferring_env 11, plain_write)]
        fresh_writer).max_suspended_transaction_id_ = 11
      ∧ (after_writes [(deferring_env 10, plain_write), (deferring_env 11, plain_write)]
        fresh_writer).available_data_list_
        = fresh_writer.available_data_list_
          ++ ([(deferring_env 10, plain_write), (deferring_env 11, plain_write)].map
              (fun c => c.1.get_unsent_data.1)).flatten
      ∧ (send_suspended_data (after_writes
          [(deferring_env 10, plain_write), (deferring_env 11, plain_write)]
          fresh_writer)).trace
        = (after_writes [(deferring_env 10, plain_write), (deferring_env 11, plain_write)]
            fresh_writer).trace
          ++ [Event.send (after_writes
                [(deferring_env 10, plain_write), (deferring_env 11, plain_write)]
                fresh_writer).available_data_list_ 11,
              Event.send (after_writes
                [(deferring_env 10, plain_write), (deferring_env 11, plain_write)]
                fresh_writer).available_data_list_ 10]
      ∧ (send_suspended_data (after_writes
          [(deferring_env 10, plain_write), (deferring_env 11, plain_write)]
          fresh_writer)).min_suspended_transaction_id_ = 0
      ∧ (send_suspended_data (after_writes
          [(deferring_env 10, plain_write), (deferring_env 11, plain_write)]
          fresh_writer)).max_suspended_transaction_id_ = 0
      ∧ (send_suspended_data (after_writes
          [(deferring_env 10, plain_write), (deferring_env 11, plain_write)]
          fresh_writer)).available_data_list_ = [] :=
  suspended_writes_flush_high_then_low (deferring_env 10, plain_write)
    (deferring_env 11, plain_write) [] fresh_writer (by decide) (by decide) (by decide)
    (by decide)

/-- The increment of an IDL `long` below its largest value adds one. -/
theorem long_increment_in_range (x : Int) (hlo : -2147483648 ≤ x) (hhi : x < 2147483647) :
    long_increment x = x + 1 := by
  unfold long_increment
  omega

/-- The increment of an IDL `long` is again a 32-bit value. -/
theorem long_increment_bounds (x : Int) :
    -2147483648 ≤ long_increment x ∧ long_increment x ≤ 2147483647 := by
  unfold long_increment
  omega

/-- One run of `liveliness_lost_task` whose elapsed time has reached the lost
interval: the lost flag is set, the count is incremented exactly when the flag
was clear before, and the activity time and the interval are untouched. -/
theorem liveliness_lost_task_expired (env : Env) (s : DataWriterImpl)
    (now : MonotonicTimePoint)
    (h : s.liveliness_lost_interval_ ≤ now - s.last_liveliness_activity_time_) :
    (liveliness_lost_task env s now).liveliness_lost_ = true
      ∧ (liveliness_lost_task env s now).liveliness_lost_status_.total_count
        = (if s.liveliness_lost_ then s.liveliness_lost_status_.total_count
            else long_increment s.liveliness_lost_status_.total_count)
      ∧ (liveliness_lost_task env s now).last_liveliness_activity_time_
        = s.last_liveliness_activity_time_
      ∧ (liveliness_lost_task env s now).liveliness_lost_interval_
        = s.liveliness_lost_interval_ := by
  unfold liveliness_lost_task
  dsimp only [DataWriterImpl.log]
  rw [if_neg (not_lt.mpr h)]
  cases hl : s.liveliness_lost_
  · simp only [Bool.not_false, if_true, Bool.false_eq_true, if_false]
    split <;> exact ⟨rfl, rfl, rfl, rfl⟩
  · simp only [Bool.not_true, Bool.false_eq_true, if_false, if_true]
    refine ⟨?_, ?_, ?_, ?_⟩ <;> trivial

/-- Runs of `liveliness_lost_task` on a writer already flagged lost, all with
the lost interval elapsed, leave the count where it is. -/
theorem liveliness_lost_runs_flagged (runs : List (Env × MonotonicTimePoint))
    (s : DataWriterImpl) (hl : s.liveliness_lost_ = true)
    (h : ∀ c ∈ runs, s.liveliness_lost_interval_ ≤ c.2 - s.last_liveliness_activity_time_) :
    (liveliness_lost_runs runs s).liveliness_lost_status_.total_count
        = s.liveliness_lost_status_.total_count
      ∧ (liveliness_lost_runs runs s).liveliness_lost_ = true := by
  induction runs generalizing s with
  | nil => exact ⟨rfl, hl⟩
  | cons c cs ih =>
    obtain ⟨h1, h2, h3, h4⟩ := liveliness_lost_task_expired c.1 s c.2 (h c (by simp))
    obtain ⟨i1, i2⟩ := ih (liveliness_lost_task c.1 s c.2) h1
      (fun d hd => by rw [h3, h4]; exact h d (by simp [hd]))
    refine ⟨?_, i2⟩
    show (liveliness_lost_runs cs (liveliness_lost_task c.1 s c.2)).liveliness_lost_status_.total_count
      = _
    rw [i1, h2, hl]; simp

/-- A `send_liveliness` that reports success records the activity: the lost
flag is cleared, the activity time is `now`, and the lost count is untouched. -/
theorem send_liveliness_ok (env : Env) (s : DataWriterImpl) (now : MonotonicTimePoint)
    (h : (send_liveliness env s now).1 = true) :
    (send_liveliness env s now).2.liveliness_lost_ = false
      ∧ (send_liveliness env s now).2.last_liveliness_activity_time_ = now
      ∧ (send_liveliness env s now).2.liveliness_lost_status_ = s.liveliness_lost_status_ := by
  have hc := (create_control_message_plain env s DATAWRITER_LIVELINESS env.new_header none
    env.system_now (Or.inl rfl)).1
  unfold send_liveliness at h ⊢
  dsimp only [send_control, DataWriterImpl.log] at h ⊢
  rw [hc] at h ⊢
  split
  · rename_i c1
    rw [if_pos c1] at h
    split
    · rename_i c2
      rw [if_pos c2] at h
      split
      · rename_i c3; rw [if_pos c3] at h; cases h
      · exact ⟨rfl, rfl, rfl⟩
    · rename_i c2
      rw [if_neg c2] at h
      split
      · rename_i c3; rw [if_pos c3] at h; cases h
      · exact ⟨rfl, rfl, rfl⟩
  · exact ⟨rfl, rfl, rfl⟩

/-- C7.  Liveliness loss is counted once per loss episode.  Start with
`liveliness_lost_` clear (a successful write or `send_liveliness` has cleared
it) and run `liveliness_lost_task` any number of times, each time with the
elapsed time since the last activity at least `liveliness_lost_interval_` and
with no write or `send_liveliness` in between.  The first run sets
`liveliness_lost_` and increments `liveliness_lost_status_.total_count` once;
after every further run the count is still the old count incremented once.  A
successful `send_liveliness` clears `liveliness_lost_` again without touching
the count.  The count is an IDL `long`: its increment is the old count plus one
whenever the old count is below 2147483647, the largest value it holds. -/
theorem liveliness_lost_counted_once (first : Env × MonotonicTimePoint)
    (later : List (Env × MonotonicTimePoint)) (s : DataWriterImpl)
    (hclear : s.liveliness_lost_ = false)
    (helapsed : ∀ c ∈ first :: later,
      s.liveliness_lost_interval_ ≤ c.2 - s.last_liveliness_activity_time_) :
    (liveliness_lost_task first.1 s first.2).liveliness_lost_status_.total_count
        = long_increment s.liveliness_lost_status_.total_count
      ∧ (liveliness_lost_task first.1 s first.2).liveliness_lost_ = true
      ∧ (∀ k, (liveliness_lost_runs (first :: later.take k) s).liveliness_lost_status_.total_count
          = long_increment s.liveliness_lost_status_.total_count)
      ∧ (liveliness_lost_runs (first :: later) s).liveliness_lost_status_.total_count
          = long_increment s.liveliness_lost_status_.total_count
      ∧ (liveliness_lost_runs (first :: later) s).liveliness_lost_ = true
      ∧ (∀ (env : Env) (now : MonotonicTimePoint),
          (send_liveliness env (liveliness_lost_runs (first :: later) s) now).1 = true →
          (send_liveliness env (liveliness_lost_runs (first :: later) s) now).2.liveliness_lost_
              = false
            ∧ (send_liveliness env (liveliness_lost_runs (first :: later) s)
                now).2.liveliness_lost_status_.total_count
              = long_increment s.liveliness_lost_status_.total_count)
      ∧ (-2147483648 ≤ s.liveliness_lost_status_.total_count →
          s.liveliness_lost_status_.total_count < 2147483647 →
          long_increment s.liveliness_lost_status_.total_count
            = s.liveliness_lost_status_.total_count + 1) := by
  obtain ⟨h1, h2, h3, h4⟩ :=
    liveliness_lost_task_expired first.1 s first.2 (helapsed first (by simp))
  rw [hclear] at h2
  have h2' : (liveliness_lost_task first.1 s first.2).liveliness_lost_status_.total_count
      = long_increment s.liveliness_lost_status_.total_count := by simpa using h2
  have hrest : ∀ l : List (Env × MonotonicTimePoint), (∀ c ∈ l, c ∈ later) →
      (liveliness_lost_runs (first :: l) s).liveliness_lost_status_.total_count
          = long_increment s.liveliness_lost_status_.total_count
        ∧ (liveliness_lost_runs (first :: l) s).liveliness_lost_ = true := by
    intro l hl
    obtain ⟨i1, i2⟩ := liveliness_lost_runs_flagged l (liveliness_lost_task first.1 s first.2)
      h1 (fun d hd => by rw [h3, h4]; exact helapsed d (by simp [hl d hd]))
    exact ⟨by
      show (liveliness_lost_runs l (liveliness_lost_task first.1 s
        first.2)).liveliness_lost_status_.total_count = _
      rw [i1, h2'], i2⟩
  refine ⟨h2', h1, fun k => (hrest _ (fun c hc => List.mem_of_mem_take hc)).1,
    (hrest later (fun _ hc => hc)).1, (hrest later (fun _ hc => hc)).2, ?_,
    long_increment_in_range _⟩
  intro env now hsent
  obtain ⟨g1, _, g3⟩ := send_liveliness_ok env _ now hsent
  exact ⟨g1, by rw [g3]; exact (hrest later (fun _ hc => hc)).1⟩

/-- With a lost interval of 100 ticks and no activity since tick 0, runs of the
lost task at ticks 150, 250 and 350 leave the lost count at 1. -/
theorem liveliness_lost_counted_once_witness :
    (liveliness_lost_task (accepting_env (some active_publisher) 0) silent_writer
        150).liveliness_lost_status_.total_count = 1
      ∧ (liveliness_lost_runs [(accepting_env (some active_publisher) 0, 150),
          (accepting_env (some active_publisher) 0, 250),
          (accepting_env (some active_publisher) 0, 350)]
          silent_writer).liveliness_lost_status_.total_count = 1 :=
  ⟨(liveliness_lost_counted_once (accepting_env (some active_publisher) 0, 150)
      [(accepting_env (some active_publisher) 0, 250),
        (accepting_env (some active_publisher) 0, 350)] silent_writer
      (by decide) (by decide)).1,
    (liveliness_lost_counted_once (accepting_env (some active_publisher) 0, 150)
      [(accepting_env (some active_publisher) 0, 250),
        (accepting_env (some active_publisher) 0, 350)] silent_writer
      (by decide) (by decide)).2.2.2.1⟩

/-- C8.  For a writer whose reliability kind is not RELIABLE,
`wait_for_acknowledgments` returns `RETCODE_OK` at once, for every association
state and every `max_wait`: the writer is returned as it was, so no REQUEST_ACK
is enqueued, the sequence counter and every reader's cursor are unchanged, and
no call (in particular no `wait_ack_of_seq`) reaches the Sample Store. -/
theorem wait_for_acknowledgments_best_effort (env : Env) (s : DataWriterImpl)
    (max_wait : Duration_t) (h : s.reliability_kind ≠ RELIABLE_RELIABILITY_QOS) :
    wait_for_acknowledgments env s max_wait = (RETCODE_OK, s)
      ∧ (wait_for_acknowledgments env s max_wait).2.trace = s.trace
      ∧ (wait_for_acknowledgments env s max_wait).2.sequence_number_ = s.sequence_number_
      ∧ (wait_for_acknowledgments env s max_wait).2.reader_info_ = s.reader_info_ := by
  have e : wait_for_acknowledgments env s max_wait = (RETCODE_OK, s) := by
    unfold wait_for_acknowledgments
    rw [if_pos (by simpa using h)]
  rw [e]
  exact ⟨rfl, rfl, rfl, rfl⟩

/-- A best-effort writer with a matched reader waits for nothing. -/
theorem wait_for_acknowledgments_best_effort_witness :
    wait_for_acknowledgments (accepting_env (some active_publisher) 1)
        { caught_up_writer with reliability_kind := BEST_EFFORT_RELIABILITY_QOS }
        { sec := 5, nanosec := 0 }
      = (RETCODE_OK, { caught_up_writer with reliability_kind := BEST_EFFORT_RELIABILITY_QOS }) :=
  (wait_for_acknowledgments_best_effort (accepting_env (some active_publisher) 1)
    { caught_up_writer with reliability_kind := BEST_EFFORT_RELIABILITY_QOS }
    { sec := 5, nanosec := 0 } (by decide)).1

/-- The member `create_control_message` makes no call on a collaborator. -/
theorem create_control_message_trace (env : Env) (s : DataWriterImpl)
    (message_id : MessageId) (hd : DataSampleHeader) (data : Option Message_Block)
    (ts : Time_t) :
    (create_control_message env s message_id hd data ts).state.trace = s.trace := by
  cases hp : env.publisher with
  | none =>
    rw [(create_control_message_plain env s message_id hd data ts (Or.inr hp)).1]
  | some p =>
    cases hk : consumes_sequence message_id
    · rw [(create_control_message_plain env s message_id hd data ts (Or.inl hk)).1]
    · rw [(create_control_message_consuming env s message_id hd data ts p hp hk).2.2.2.1]

/-- The element `send_request_ack` hands to `enqueue_control`. -/
theorem send_request_ack_cases (env : Env) (s : DataWriterImpl) :
    (env.obtain_buffer_for_control.1 ≠ RETCODE_OK
        ∧ (send_request_ack env s).ret = env.obtain_buffer_for_control.1
        ∧ (send_request_ack env s).state.trace = s.trace ++ [Event.obtain_buffer_for_control])
      ∨ (env.obtain_buffer_for_control.1 = RETCODE_OK ∧ env.enqueue_control ≠ RETCODE_OK
        ∧ (send_request_ack env s).ret = env.enqueue_control
        ∧ (send_request_ack env s).state.trace
            = s.trace ++ [Event.obtain_buffer_for_control,
                Event.enqueue_control (request_ack_element env s),
                Event.release_buffer (request_ack_element env s)])
      ∨ (env.obtain_buffer_for_control.1 = RETCODE_OK ∧ env.enqueue_control = RETCODE_OK
        ∧ (send_request_ack env s).ret = RETCODE_OK
        ∧ (send_request_ack env s).element = some (request_ack_element env s)
        ∧ (send_request_ack env s).state.sequence_number_
            = (create_control_message env (s.log Event.obtain_buffer_for_control)
              REQUEST_ACK env.obtain_buffer_for_control.2.header none
              env.system_now).state.sequence_number_
        ∧ (send_request_ack env s).state.trace
            = s.trace ++ [Event.obtain_buffer_for_control,
                Event.enqueue_control (request_ack_element env s),
                Event.get_unsent_data, Event.message_sent,
                Event.send env.get_unsent_data.1 env.get_unsent_data.2]) := by
  have ht := create_control_message_trace env (s.log Event.obtain_buffer_for_control)
    REQUEST_ACK env.obtain_buffer_for_control.2.header none env.system_now
  unfold send_request_ack request_ack_element
  dsimp only
  generalize create_control_message env (s.log Event.obtain_buffer_for_control)
    REQUEST_ACK env.obtain_buffer_for_control.2.header none env.system_now = c at ht ⊢
  by_cases c1 : env.obtain_buffer_for_control.1 = RETCODE_OK
  · have d1 : ¬ ((env.obtain_buffer_for_control.1 != RETCODE_OK) = true) := by simp [c1]
    rw [if_neg d1]
    by_cases c2 : env.enqueue_control = RETCODE_OK
    · have d2 : ¬ ((env.enqueue_control != RETCODE_OK) = true) := by simp [c2]
      rw [if_neg d2]
      refine Or.inr (Or.inr ⟨c1, c2, ?_, ?_, ?_, ?_⟩)
      · rfl
      · rfl
      · simp only [send_all_to_flush_control, DataWriterImpl.log]
      · simp only [send_all_to_flush_control, log_trace, ht, List.append_assoc]
        rfl
    · have d2 : (env.enqueue_control != RETCODE_OK) = true := by simp [c2]
      rw [if_pos d2]
      refine Or.inr (Or.inl ⟨c1, c2, ?_, ?_⟩)
      · rfl
      · simp only [log_trace, ht, List.append_assoc]
        rfl
  · have d1 : (env.obtain_buffer_for_control.1 != RETCODE_OK) = true := by simp [c1]
    rw [if_pos d1]
    refine Or.inl ⟨c1, ?_, ?_⟩
    · rfl
    · rfl

/-- C9, refuted as stated.  The writer is reliable, its counter is 5 and the
publisher is gone.  `send_request_ack` succeeds, the REQUEST_ACK element it
enqueues carries `SEQUENCENUMBER_UNKNOWN` (no number was consumed), and
`wait_for_acknowledgments` then waits on sequence 5, which is neither the
number on the REQUEST_ACK nor the pre-call max sequence number plus one. -/
theorem ack_token_not_request_ack_sequence :
    caught_up_writer.reliability_kind = RELIABLE_RELIABILITY_QOS
      ∧ caught_up_writer.sequence_number_ = 5
      ∧ (send_request_ack (accepting_env none 1) caught_up_writer).ret = RETCODE_OK
      ∧ (send_request_ack (accepting_env none 1) caught_up_writer).element.map
          (fun e => (e.header.message_id_, e.header.sequence_))
        = some (REQUEST_ACK, SEQUENCENUMBER_UNKNOWN)
      ∧ (wait_for_acknowledgments (accepting_env none 1) caught_up_writer
          { sec := 5, nanosec := 0 }).2.trace.getLast?
        = some (Event.wait_ack_of_seq { sec := 5, nanosec := 0 } 5)
      ∧ (5 : SequenceNumber) ≠ SEQUENCENUMBER_UNKNOWN
      ∧ (5 : SequenceNumber) ≠ caught_up_writer.sequence_number_ + 1 := by
  decide

/-- C9, amended.  For a reliable writer whose publisher is present:
if `send_request_ack` succeeds, `wait_for_acknowledgments` has enqueued one
REQUEST_ACK control element stamped with the pre-call max sequence number plus
one, flushed it, and then waited on an ack token with exactly that sequence
number; its return value is the Sample Store's `wait_ack_of_seq` answer for
that sequence and the deadline given by `max_wait`.  For every reliable writer
(publisher present or not), if `send_request_ack` fails its error code is
returned and no `wait_ack_of_seq` call is made. -/
theorem wait_for_acknowledgments_reliable (env : Env) (s : DataWriterImpl)
    (max_wait : Duration_t) (hrel : s.reliability_kind = RELIABLE_RELIABILITY_QOS) :
    (env.publisher.isSome = true → (send_request_ack env s).ret = RETCODE_OK →
        (send_request_ack env s).element = some (request_ack_element env s)
          ∧ (request_ack_element env s).header.message_id_ = REQUEST_ACK
          ∧ (request_ack_element env s).header.sequence_ = s.sequence_number_ + 1
          ∧ (wait_for_acknowledgments env s max_wait).1
            = env.wait_ack_of_seq max_wait (s.sequence_number_ + 1)
          ∧ (wait_for_acknowledgments env s max_wait).2.trace
            = s.trace ++ [Event.obtain_buffer_for_control,
                Event.enqueue_control (request_ack_element env s),
                Event.get_unsent_data, Event.message_sent,
                Event.send env.get_unsent_data.1 env.get_unsent_data.2,
                Event.wait_ack_of_seq max_wait (s.sequence_number_ + 1)])
      ∧ ((send_request_ack env s).ret ≠ RETCODE_OK →
        (wait_for_acknowledgments env s max_wait).1 = (send_request_ack env s).ret
          ∧ ∃ rest, (wait_for_acknowledgments env s max_wait).2.trace = s.trace ++ rest
            ∧ ∀ d q, Event.wait_ack_of_seq d q ∉ rest) := by
  have hr : ¬ ((s.reliability_kind != RELIABLE_RELIABILITY_QOS) = true) := by simp [hrel]
  refine ⟨fun hp hok => ?_, fun hfail => ?_⟩
  · obtain ⟨p, hp1⟩ := Option.isSome_iff_exists.mp hp
    obtain ⟨k1, _, k3, k4, _⟩ := create_control_message_consuming env
      (s.log Event.obtain_buffer_for_control) REQUEST_ACK
      env.obtain_buffer_for_control.2.header none env.system_now p hp1 rfl
    have hok' : ¬ (((send_request_ack env s).ret != RETCODE_OK) = true) := by simp [hok]
    rcases send_request_ack_cases env s with ⟨c1, c2, _⟩ | ⟨_, c2, c3, _⟩ | ⟨_, _, _, e1, e2, e3⟩
    · rw [hok] at c2; exact absurd c2.symm c1
    · rw [hok] at c3; exact absurd c3.symm c2
    · have hseq : (send_request_ack env s).state.sequence_number_ = s.sequence_number_ + 1 := by
        rw [e2, k4]
        rfl
      refine ⟨e1, k3, k1, ?_, ?_⟩
      · unfold wait_for_acknowledgments
        rw [if_neg hr]
        dsimp only
        rw [if_neg hok']
        simp only [wait_for_specific_ack, create_ack_token, get_max_sn, hseq]
      · unfold wait_for_acknowledgments
        rw [if_neg hr]
        dsimp only
        rw [if_neg hok']
        simp only [wait_for_specific_ack, create_ack_token, get_max_sn, hseq, log_trace, e3,
          List.append_assoc]
        rfl
  · have hfail' : ((send_request_ack env s).ret != RETCODE_OK) = true := by simp [hfail]
    have hw : wait_for_acknowledgments env s max_wait
        = ((send_request_ack env s).ret, (send_request_ack env s).state) := by
      unfold wait_for_acknowledgments
      rw [if_neg hr]
      dsimp only
      rw [if_pos hfail']
    rw [hw]
    refine ⟨rfl, ?_⟩
    rcases send_request_ack_cases env s with ⟨_, _, e⟩ | ⟨_, _, _, e⟩ | ⟨_, _, c3, _⟩
    · exact ⟨_, e, by simp⟩
    · exact ⟨_, e, by simp⟩
    · exact absurd c3 hfail

/-- On the reliable writer whose counter is 5, with the publisher present, the
REQUEST_ACK is stamped 6 and the wait is for sequence 6. -/
theorem wait_for_acknowledgments_reliable_witness :
    (request_ack_element (accepting_env (some active_publisher) 1)
        caught_up_writer).header.sequence_ = caught_up_writer.sequence_number_ + 1
      ∧ (wait_for_acknowledgments (accepting_env (some active_publisher) 1) caught_up_writer
          { sec := 5, nanosec := 0 }).1
        = (accepting_env (some active_publisher) 1).wait_ack_of_seq { sec := 5, nanosec := 0 }
            (caught_up_writer.sequence_number_ + 1) :=
  ⟨((wait_for_acknowledgments_reliable (accepting_env (some active_publisher) 1)
      caught_up_writer { sec := 5, nanosec := 0 } (by decide)).1 (by decide)
      (by decide)).2.2.1,
    ((wait_for_acknowledgments_reliable (accepting_env (some active_publisher) 1)
      caught_up_writer { sec := 5, nanosec := 0 } (by decide)).1 (by decide)
      (by decide)).2.2.2.1⟩

@[simp] theorem track_sequence_number_coherent (s : DataWriterImpl)
    (filter_out : Option (List GUID_t)) :
    (track_sequence_number s filter_out).coherent_ = s.coherent_ := rfl

@[simp] theorem track_sequence_number_coherent_samples (s : DataWriterImpl)
    (filter_out : Option (List GUID_t)) :
    (track_sequence_number s filter_out).coherent_samples_ = s.coherent_samples_ := rfl

/-- The statements after a successful `enqueue` keep `coherent_` and add one
to `coherent_samples_` exactly when `coherent_` is set. -/
theorem write_enqueued_coherent (env : Env) (s : DataWriterImpl)
    (filter_out : Option (List GUID_t)) :
    (write_enqueued env s filter_out).coherent_ = s.coherent_
      ∧ (write_enqueued env s filter_out).coherent_samples_
        = (if s.coherent_ then s.coherent_samples_ + 1 else s.coherent_samples_) := by
  simp only [write_enqueued, DataWriterImpl.log, apply_ite DataWriterImpl.coherent_,
    apply_ite DataWriterImpl.coherent_samples_, track_sequence_number_coherent,
    track_sequence_number_coherent_samples, ite_self, and_self]

/-- A successful `write` keeps `coherent_` and counts the sample when
`coherent_` is set. -/
theorem write_ok_coherent (env : Env) (s : DataWriterImpl) (a : WriteArgs)
    (h : (write env s a).ret = RETCODE_OK) :
    (write env s a).state.coherent_ = s.coherent_
      ∧ (write env s a).state.coherent_samples_
        = (if s.coherent_ then s.coherent_samples_ + 1 else s.coherent_samples_) := by
  obtain ⟨_, _, hcs, _, _, hst⟩ := write_ok_inv env s a h
  obtain ⟨_, _, _, h4⟩ := create_sample_data_message_ok _ _ _ _ _ _ _ hcs
  rw [hst, h4]
  exact write_enqueued_coherent env _ a.filter_out

/-- Inside a coherent set, a run of successful writes adds its length to the
pending-sample counter. -/
theorem after_writes_coherent (calls : List (Env × WriteArgs)) (s : DataWriterImpl)
    (hc : s.coherent_ = true)
    (hok : ∀ r ∈ write_calls calls s, r.ret = RETCODE_OK) :
    (after_writes calls s).coherent_ = true
      ∧ (after_writes calls s).coherent_samples_ = s.coherent_samples_ + calls.length := by
  induction calls generalizing s with
  | nil => exact ⟨hc, rfl⟩
  | cons c cs ih =>
    have h0 : (write c.1 s c.2).ret = RETCODE_OK := hok _ (by simp [write_calls])
    obtain ⟨h1, h2⟩ := write_ok_coherent c.1 s c.2 h0
    rw [hc] at h1 h2
    obtain ⟨i1, i2⟩ := ih (write c.1 s c.2).state h1
      (fun r hr => hok r (by simp [write_calls, hr]))
    refine ⟨i1, ?_⟩
    show (after_writes cs (write c.1 s c.2).state).coherent_samples_ = _
    rw [i2, h2]
    simp only [if_true, List.length_cons]
    omega

/-- What `end_coherent_changes` builds and leaves behind. -/
theorem end_coherent_changes_spec (env : Env) (s : DataWriterImpl)
    (group_samples : List (GUID_t × Nat × SequenceNumber)) :
    (end_coherent_changes env s group_samples).end_msg.num_samples_ = s.coherent_samples_
      ∧ (end_coherent_changes env s group_samples).end_msg.last_sample_ = s.sequence_number_
      ∧ (end_coherent_changes env s group_samples).header.message_id_ = END_COHERENT_CHANGES
      ∧ (end_coherent_changes env s group_samples).state.coherent_ = false
      ∧ (end_coherent_changes env s group_samples).state.coherent_samples_ = 0
      ∧ (end_coherent_changes env s group_samples).state.sequence_number_
        = s.sequence_number_ := by
  have hc := fun data => create_control_message_plain env s END_COHERENT_CHANGES
    env.new_header (some data) env.system_now (Or.inl rfl)
  cases hp : env.publisher <;>
    simp only [end_coherent_changes, send_control, DataWriterImpl.log, get_max_sn, hp,
      (hc _).1, (hc _).2.2.2, apply_ite CoherentChangeControl.num_samples_,
      apply_ite CoherentChangeControl.last_sample_, apply_ite Prod.snd,
      apply_ite DataWriterImpl.coherent_, apply_ite DataWriterImpl.coherent_samples_,
      apply_ite DataWriterImpl.sequence_number_, ite_self, and_self]

/-- C10.  Coherent counting.  Start outside a coherent set, where the
pending-sample counter `coherent_samples_` is 0.  After
`begin_coherent_changes` followed by k successful `write` calls (k >= 0),
`end_coherent_changes` builds an END_COHERENT_CHANGES message whose
`num_samples_` is k and whose `last_sample_` is the current max sequence number:
the counter's value before the writes plus k, which for k > 0 is the number
stamped on the last written item.  Afterwards `coherent_` is false and
`coherent_samples_` is 0. -/
theorem coherent_set_counts_writes (env : Env) (calls : List (Env × WriteArgs))
    (s : DataWriterImpl) (group_samples : List (GUID_t × Nat × SequenceNumber))
    (hzero : s.coherent_samples_ = 0)
    (hok : ∀ r ∈ write_calls calls (begin_coherent_changes s), r.ret = RETCODE_OK) :
    (end_coherent_changes env (after_writes calls (begin_coherent_changes s))
        group_samples).end_msg.num_samples_ = calls.length
      ∧ (end_coherent_changes env (after_writes calls (begin_coherent_changes s))
        group_samples).end_msg.last_sample_
          = get_max_sn (after_writes calls (begin_coherent_changes s))
      ∧ (end_coherent_changes env (after_writes calls (begin_coherent_changes s))
        group_samples).end_msg.last_sample_ = s.sequence_number_ + calls.length
      ∧ (write_calls calls (begin_coherent_changes s)).map
          (fun r => r.element.map (fun e => e.header.sequence_))
        = (List.range' (s.sequence_number_ + 1) calls.length).map some
      ∧ (end_coherent_changes env (after_writes calls (begin_coherent_changes s))
        group_samples).header.message_id_ = END_COHERENT_CHANGES
      ∧ (end_coherent_changes env (after_writes calls (begin_coherent_changes s))
        group_samples).state.coherent_ = false
      ∧ (end_coherent_changes env (after_writes calls (begin_coherent_changes s))
        group_samples).state.coherent_samples_ = 0 := by
  obtain ⟨e1, e2, e3, e4, e5, _⟩ := end_coherent_changes_spec env
    (after_writes calls (begin_coherent_changes s)) group_samples
  obtain ⟨_, c2⟩ := after_writes_coherent calls (begin_coherent_changes s) rfl hok
  have hseq := after_writes_sequence calls (begin_coherent_changes s) hok
  have hb1 : (begin_coherent_changes s).coherent_samples_ = 0 := hzero
  have hb2 : (begin_coherent_changes s).sequence_number_ = s.sequence_number_ := rfl
  refine ⟨?_, e2, ?_, ?_, e3, e4, e5⟩
  · rw [e1, c2, hb1, Nat.zero_add]
  · rw [e2, hseq, hb2]
  · exact write_calls_sequences calls (begin_coherent_changes s) hok

/-- A coherent set of the three accepted writes on a fresh writer ends with a
message that reports 3 samples and last sample 3. -/
theorem coherent_set_counts_writes_witness :
    (end_coherent_changes (accepting_env (some active_publisher) 4)
        (after_writes three_writes (begin_coherent_changes fresh_writer)) []).end_msg.num_samples_
        = 3
      ∧ (end_coherent_changes (accepting_env (some active_publisher) 4)
        (after_writes three_writes (begin_coherent_changes fresh_writer)) []).end_msg.last_sample_
        = 3 :=
  ⟨(coherent_set_counts_writes (accepting_env (some active_publisher) 4) three_writes
      fresh_writer [] (by decide) (by decide)).1,
    (coherent_set_counts_writes (accepting_env (some active_publisher) 4) three_writes
      fresh_writer [] (by decide) (by decide)).2.2.1⟩

/-! ### Reachable-state invariants -/

/-- `create_control_message` either leaves the writer as it was, or advances
the counter by one and sets every cursor to the new number. -/
theorem create_control_message_state (env : Env) (s : DataWriterImpl)
    (message_id : MessageId) (hd : DataSampleHeader) (data : Option Message_Block)
    (ts : Time_t) :
    (create_control_message env s message_id hd data ts).state = s
      ∨ (create_control_message env s message_id hd data ts).state
        = { s with
            sequence_number_ := s.sequence_number_ + 1
            reader_info_ := s.reader_info_.map (fun reader =>
              (reader.1, { reader.2 with expected_sequence_ := s.sequence_number_ + 1 })) } := by
  cases hp : env.publisher with
  | none => exact Or.inl (create_control_message_plain env s message_id hd data ts (Or.inr hp)).1
  | some p =>
    cases hk : consumes_sequence message_id with
    | false =>
      exact Or.inl (create_control_message_plain env s message_id hd data ts (Or.inl hk)).1
    | true =>
      exact Or.inr (create_control_message_consuming env s message_id hd data ts p hp hk).2.2.2.1

theorem preserves_refl (b : Prop) (s : DataWriterImpl) : preserves b s s :=
  ⟨id, id, fun _ => id⟩

theorem preserves_trans {b : Prop} {s s1 s2 : DataWriterImpl} (h1 : preserves b s s1)
    (h2 : preserves b s1 s2) : preserves b s s2 :=
  ⟨fun h => h2.1 (h1.1 h), fun h => h2.2.1 (h1.2.1 h),
    fun hg h => h2.2.2 hg (h1.2.2 hg h)⟩

/-- A writer that agrees with `s1` on the members the invariants read
inherits what `s1` preserves. -/
theorem preserves_of_fields {b : Prop} {s s1 s2 : DataWriterImpl} (h : preserves b s s1)
    (hc : s2.coherent_ = s1.coherent_) (hn : s2.coherent_samples_ = s1.coherent_samples_)
    (hm : s2.id_to_handle_map_ = s1.id_to_handle_map_)
    (hp : s2.publication_match_status_ = s1.publication_match_status_)
    (hr : s2.reader_info_ = s1.reader_info_)
    (hq : s2.sequence_number_ = s1.sequence_number_) : preserves b s s2 := by
  unfold preserves coherent_counter_clear matched_count_consistent cursors_bounded at h ⊢
  rw [hc, hn, hm, hp, hr, hq]
  exact h

theorem preserves_log {b : Prop} (s s' : DataWriterImpl) (e : Event) :
    preserves b s (s'.log e) ↔ preserves b s s' := by
  unfold preserves coherent_counter_clear matched_count_consistent cursors_bounded
  exact Iff.rfl

theorem preserves_create_control_message {b : Prop} {s s' : DataWriterImpl} (env : Env)
    (message_id : MessageId) (hd : DataSampleHeader) (data : Option Message_Block)
    (ts : Time_t) (h : preserves b s s') :
    preserves b s (create_control_message env s' message_id hd data ts).state := by
  rcases create_control_message_state env s' message_id hd data ts with hc | hc
  · rw [hc]; exact h
  · rw [hc]
    refine ⟨h.1, h.2.1, fun _ _ it hit => ?_⟩
    simp only [List.mem_map] at hit
    obtain ⟨a, _, rfl⟩ := hit
    exact Nat.le_refl _

theorem preserves_send_all_to_flush_control {b : Prop} (s s' : DataWriterImpl) (env : Env) :
    preserves b s (send_all_to_flush_control env s') ↔ preserves b s s' := by
  simp only [send_all_to_flush_control, preserves_log]

theorem preserves_send_control {b : Prop} (s s' : DataWriterImpl) (env : Env)
    (header : DataSampleHeader) (msg : Option HeaderBlock) :
    preserves b s (send_control env s' header msg).2 ↔ preserves b s s' := by
  unfold send_control
  dsimp only
  split <;> simp only [preserves_log]

theorem configured_preserves {b : Prop} {s s' : DataWriterImpl} (h : configured s s') :
    preserves b s s' := by
  unfold configured at h
  have hc : s'.coherent_ = s.coherent_ := by rw [h]
  have hn : s'.coherent_samples_ = s.coherent_samples_ := by rw [h]
  have hm : s'.id_to_handle_map_ = s.id_to_handle_map_ := by rw [h]
  have hp : s'.publication_match_status_ = s.publication_match_status_ := by rw [h]
  have hr : s'.reader_info_ = s.reader_info_ := by rw [h]
  have hq : s'.sequence_number_ = s.sequence_number_ := by rw [h]
  exact preserves_of_fields (preserves_refl b s) hc hn hm hp hr hq

theorem preserves_send_request_ack {b : Prop} {s s' : DataWriterImpl} (env : Env)
    (h : preserves b s s') : preserves b s (send_request_ack env s').state := by
  unfold send_request_ack
  dsimp only
  split_ifs <;>
    simp only [preserves_log, preserves_send_all_to_flush_control,
      preserves_create_control_message, h]

theorem preserves_wait_for_acknowledgments {b : Prop} {s s' : DataWriterImpl} (env : Env)
    (max_wait : Duration_t) (h : preserves b s s') :
    preserves b s (wait_for_acknowledgments env s' max_wait).2 := by
  unfold wait_for_acknowledgments wait_for_specific_ack
  dsimp only
  split_ifs <;> simp only [preserves_log, preserves_send_request_ack, h]

theorem preserves_register_instance_i {b : Prop} {s s' : DataWriterImpl} (env : Env)
    (handle : InstanceHandle_t) (data : Message_Block) (ts : Time_t)
    (h : preserves b s s') :
    preserves b s (register_instance_i env s' handle data ts).state := by
  unfold register_instance_i
  dsimp only
  split_ifs <;>
    simp only [preserves_log, preserves_create_control_message, h]

theorem preserves_insert_instance {b : Prop} {s s' : DataWriterImpl} (handle : InstanceHandle_t)
    (key : Nat) (h : preserves b s s') : preserves b s (insert_instance s' handle key).2 := by
  unfold insert_instance
  dsimp only
  split_ifs
  · exact h
  · exact preserves_of_fields h rfl rfl rfl rfl rfl rfl
  · exact preserves_of_fields h rfl rfl rfl rfl rfl rfl

theorem preserves_get_or_create_instance_handle {b : Prop} {s s' : DataWriterImpl} (env : Env)
    (key : Nat) (ts : Time_t) (h : preserves b s s') :
    preserves b s (get_or_create_instance_handle env s' key ts).state := by
  unfold get_or_create_instance_handle
  dsimp only
  split_ifs
  · exact h
  · cases env.serialize key with
    | none => exact h
    | some serialized =>
      dsimp only
      split_ifs <;>
        simp only [preserves_send_all_to_flush_control, preserves_insert_instance,
          preserves_register_instance_i, h]
  · exact h


theorem preserves_dispose_and_unregister {b : Prop} {s s' : DataWriterImpl} (env : Env)
    (handle : InstanceHandle_t) (ts : Time_t) (h : preserves b s s') :
    preserves b s (dispose_and_unregister env s' handle ts).2 := by
  unfold dispose_and_unregister
  dsimp only
  split_ifs <;>
    simp only [preserves_log, preserves_send_all_to_flush_control,
      preserves_create_control_message, h]

theorem preserves_unregister_instance_i {b : Prop} {s s' : DataWriterImpl} (env : Env)
    (handle : InstanceHandle_t) (ts : Time_t) (h : preserves b s s') :
    preserves b s (unregister_instance_i env s' handle ts).2 := by
  unfold unregister_instance_i
  dsimp only
  split_ifs <;>
    simp only [preserves_log, preserves_send_all_to_flush_control,
      preserves_create_control_message, preserves_dispose_and_unregister, h]

theorem preserves_dispose {b : Prop} {s s' : DataWriterImpl} (env : Env)
    (handle : InstanceHandle_t) (ts : Time_t) (h : preserves b s s') :
    preserves b s (dispose env s' handle ts).2 := by
  unfold dispose
  dsimp only
  split_ifs <;>
    simp only [preserves_log, preserves_send_all_to_flush_control,
      preserves_create_control_message, h]

theorem preserves_instance_must_exist {b : Prop} {s s' : DataWriterImpl} (key : Nat)
    (handle : InstanceHandle_t) (remove : Bool) (h : preserves b s s') :
    preserves b s (instance_must_exist s' key handle remove).state := by
  unfold instance_must_exist
  cases s'.instance_values_to_handles_.lookup key with
  | none => exact h
  | some found =>
    dsimp only
    split_ifs
    · exact h
    · exact preserves_of_fields h rfl rfl rfl rfl rfl rfl
    · exact h

theorem preserves_unregister_instance_w_timestamp {b : Prop} {s s' : DataWriterImpl} (env : Env)
    (key : Nat) (handle : InstanceHandle_t) (ts : Time_t) (h : preserves b s s') :
    preserves b s (unregister_instance_w_timestamp env s' key handle ts).2 := by
  unfold unregister_instance_w_timestamp
  dsimp only
  split_ifs <;>
    simp only [preserves_unregister_instance_i, preserves_instance_must_exist, h]

theorem preserves_dispose_w_timestamp {b : Prop} {s s' : DataWriterImpl} (env : Env)
    (key : Nat) (handle : InstanceHandle_t) (ts : Time_t) (h : preserves b s s') :
    preserves b s (dispose_w_timestamp env s' key handle ts).2 := by
  unfold dispose_w_timestamp
  dsimp only
  split_ifs <;>
    simp only [preserves_dispose, preserves_instance_must_exist, h]

theorem preserves_send_suspended_data {b : Prop} {s s' : DataWriterImpl} (h : preserves b s s') :
    preserves b s (send_suspended_data s') := by
  unfold send_suspended_data
  dsimp only
  split_ifs <;> exact preserves_of_fields h rfl rfl rfl rfl rfl rfl

theorem preserves_send_liveliness {b : Prop} {s s' : DataWriterImpl} (env : Env)
    (now : MonotonicTimePoint) (h : preserves b s s') :
    preserves b s (send_liveliness env s' now).2 := by
  have hc := preserves_create_control_message env DATAWRITER_LIVELINESS env.new_header
    none env.system_now h
  have hs := (preserves_send_control s _ env
    (create_control_message env s' DATAWRITER_LIVELINESS env.new_header none
      env.system_now).header_data
    (create_control_message env s' DATAWRITER_LIVELINESS env.new_header none
      env.system_now).message).2 hc
  unfold send_liveliness
  dsimp only
  split_ifs
  · exact hs
  · exact preserves_of_fields hs rfl rfl rfl rfl rfl rfl
  · exact h
  · exact preserves_of_fields h rfl rfl rfl rfl rfl rfl

theorem preserves_assert_liveliness {b : Prop} {s s' : DataWriterImpl} (env : Env)
    (h : preserves b s s') : preserves b s (assert_liveliness env s').2 := by
  unfold assert_liveliness
  cases s'.liveliness_kind with
  | AUTOMATIC_LIVELINESS_QOS => exact h
  | MANUAL_BY_PARTICIPANT_LIVELINESS_QOS =>
    cases env.participant with
    | none => exact h
    | some participant => exact (preserves_log s s' _).2 h
  | MANUAL_BY_TOPIC_LIVELINESS_QOS =>
    dsimp only
    split_ifs <;> exact preserves_send_liveliness env _ h

theorem preserves_assert_liveliness_by_participant {b : Prop} {s s' : DataWriterImpl} (env : Env)
    (h : preserves b s s') : preserves b s (assert_liveliness_by_participant env s').2 := by
  unfold assert_liveliness_by_participant
  dsimp only
  split_ifs
  · exact preserves_send_liveliness env _ h
  · exact preserves_send_liveliness env _ h
  · exact h

theorem preserves_liveliness_send_task {b : Prop} {s s' : DataWriterImpl} (env : Env)
    (now : MonotonicTimePoint) (h : preserves b s s') :
    preserves b s (liveliness_send_task env s' now) := by
  unfold liveliness_send_task
  dsimp only
  split_ifs <;> simp only [preserves_log, preserves_send_liveliness, h]

theorem preserves_liveliness_lost_task {b : Prop} {s s' : DataWriterImpl} (env : Env)
    (now : MonotonicTimePoint) (h : preserves b s s') :
    preserves b s (liveliness_lost_task env s' now) := by
  unfold preserves coherent_counter_clear matched_count_consistent cursors_bounded at h ⊢
  unfold liveliness_lost_task
  dsimp only [DataWriterImpl.log]
  split_ifs <;> exact h
theorem preserves_add_association {b : Prop} {s s' : DataWriterImpl} (env : Env)
    (reader : ReaderAssociation) (active : Bool) (h : preserves b s s') :
    preserves b s (add_association env s' reader active) := by
  unfold preserves coherent_counter_clear matched_count_consistent cursors_bounded at h ⊢
  rw [add_association_eq]
  by_cases hd : s'.deleted_ = true
  · rw [if_pos hd]
    exact h
  · rw [if_neg hd]
    refine ⟨h.1, h.2.1, fun hg hb it hit => ?_⟩
    unfold map_insert at hit
    split_ifs at hit
    all_goals
      first
      | exact h.2.2 hg hb it hit
      | (rcases List.mem_append.1 hit with hit | hit
         · exact h.2.2 hg hb it hit
         · rw [List.mem_singleton.1 hit]
           exact Nat.zero_le _)

theorem preserves_begin_coherent_changes {b : Prop} {s s' : DataWriterImpl} (h : preserves b s s') :
    preserves b s (begin_coherent_changes s') := by
  unfold preserves coherent_counter_clear matched_count_consistent cursors_bounded at h ⊢
  unfold begin_coherent_changes
  exact ⟨fun _ hf => Bool.noConfusion hf, h.2.1, h.2.2⟩

theorem preserves_end_coherent_changes {b : Prop} {s s' : DataWriterImpl} (env : Env)
    (group_samples : List (GUID_t × Nat × SequenceNumber)) (h : preserves b s s') :
    preserves b s (end_coherent_changes env s' group_samples).state := by
  unfold end_coherent_changes
  dsimp only
  rw [preserves_send_control]
  generalize (⟨env.serialized_size _, _⟩ : Message_Block) = data
  have hc := preserves_create_control_message env END_COHERENT_CHANGES env.new_header
    (some data) env.system_now h
  generalize (create_control_message env s' END_COHERENT_CHANGES env.new_header
    (some data) env.system_now).state = c at hc
  unfold preserves coherent_counter_clear matched_count_consistent cursors_bounded at hc ⊢
  exact ⟨fun _ _ => rfl, hc.2.1, hc.2.2⟩

theorem preserves_create_sample_data_message {b : Prop} {s s' : DataWriterImpl} (env : Env)
    (data : Message_Block) (handle : InstanceHandle_t) (hd : DataSampleHeader)
    (ts : Time_t) (cf : Bool) (h : preserves b s s') :
    preserves b s (create_sample_data_message env s' data handle hd ts cf).state := by
  unfold create_sample_data_message
  by_cases hi : (!env.get_handle_instance handle) = true
  · rw [if_pos hi]
    exact h
  · rw [if_neg hi]
    cases env.publisher with
    | none => exact h
    | some publisher =>
      unfold preserves coherent_counter_clear matched_count_consistent cursors_bounded
        at h ⊢
      dsimp only [get_next_sn_i]
      exact ⟨h.1, h.2.1, fun hg hb it hit => Nat.le_succ_of_le (h.2.2 hg hb it hit)⟩

theorem write_enqueued_frame (env : Env) (s : DataWriterImpl)
    (filter_out : Option (List GUID_t)) :
    (write_enqueued env s filter_out).id_to_handle_map_ = s.id_to_handle_map_
      ∧ (write_enqueued env s filter_out).publication_match_status_
        = s.publication_match_status_
      ∧ (write_enqueued env s filter_out).reader_info_
        = (track_sequence_number s filter_out).reader_info_ := by
  simp only [write_enqueued, track_sequence_number, DataWriterImpl.log, get_max_sn,
    apply_ite DataWriterImpl.id_to_handle_map_,
    apply_ite DataWriterImpl.publication_match_status_,
    apply_ite DataWriterImpl.reader_info_, ite_self, and_self]

theorem preserves_write_enqueued {b : Prop} {s s' : DataWriterImpl} (env : Env)
    (filter_out : Option (List GUID_t)) (h : preserves b s s') :
    preserves b s (write_enqueued env s' filter_out) := by
  obtain ⟨hm, hp, hr⟩ := write_enqueued_frame env s' filter_out
  obtain ⟨hc, hn⟩ := write_enqueued_coherent env s' filter_out
  have hq := write_enqueued_sequence env s' filter_out
  unfold preserves coherent_counter_clear matched_count_consistent cursors_bounded at h ⊢
  rw [hm, hp, hr, hc, hn, hq]
  refine ⟨fun h0 hf => ?_, h.2.1, fun hg hb it hit => ?_⟩
  · simp only [hf, Bool.false_eq_true, if_false]
    exact h.1 h0 hf
  · unfold track_sequence_number at hit
    simp only [List.mem_map] at hit
    obtain ⟨a, ha, rfl⟩ := hit
    split_ifs
    all_goals
      first
      | exact Nat.le_refl _
      | exact h.2.2 hg hb a ha

theorem preserves_write {b : Prop} {s s' : DataWriterImpl} (env : Env) (a : WriteArgs)
    (h : preserves b s s') : preserves b s (write env s' a).state := by
  unfold write
  dsimp only
  split_ifs <;>
    simp only [preserves_log, preserves_write_enqueued,
      preserves_create_sample_data_message, h]

theorem preserves_write_sample {b : Prop} {s s' : DataWriterImpl} (env : Env)
    (handle : InstanceHandle_t) (ts : Time_t) (filter_out : Option (List GUID_t))
    (h : preserves b s s') : preserves b s (write_sample env s' handle ts filter_out).state := by
  unfold write_sample
  cases env.serialize_sample with
  | none => exact h
  | some serialized => exact preserves_write env _ h

theorem preserves_write_w_timestamp {b : Prop} {s s' : DataWriterImpl} (env : Env) (key : Nat)
    (handle : InstanceHandle_t) (ts : Time_t) (h : preserves b s s') :
    preserves b s (write_w_timestamp env s' key handle ts).state := by
  unfold write_w_timestamp
  dsimp only
  split_ifs <;>
    simp only [preserves_write_sample, preserves_get_or_create_instance_handle, h]

theorem preserves_association_matched {b : Prop} {s s' : DataWriterImpl} (env : Env)
    (r : GUID_t) (h : preserves b s s') :
    preserves b s (association_matched env s' r).2 := by
  unfold preserves coherent_counter_clear matched_count_consistent cursors_bounded at h ⊢
  unfold association_matched map_insert
  dsimp only [DataWriterImpl.log, get_max_sn]
  by_cases hb : (!s'.is_bit_) = true
  · rw [if_pos hb]
    cases env.participant with
    | none => exact h
    | some participant =>
      dsimp only
      split_ifs
      all_goals
        first
        | exact h
        | (refine ⟨h.1, fun hm => ?_, h.2.2⟩
           have hm1 := h.2.1 hm
           simp only [List.length_append, List.length_singleton, Nat.cast_add, Nat.cast_one,
             hm1]
           done)
        | (rename_i h1 h2 h3
           exact absurd rfl h2)
  · rw [if_neg hb]
    exact h

theorem lookup_some_mem {α β : Type} [BEq α] (l : List (α × β)) (k : α) (v : β)
    (h : l.lookup k = some v) : ∃ p ∈ l, p.2 = v := by
  induction l with
  | nil => cases h
  | cons p l ih =>
    obtain ⟨a, c⟩ := p
    simp only [List.lookup_cons] at h
    split at h
    · exact ⟨(a, c), List.mem_cons_self _ _, Option.some.inj h⟩
    · obtain ⟨q, hq, hv⟩ := ih h
      exact ⟨q, List.mem_cons_of_mem _ hq, hv⟩

theorem preserves_replay_stage {b : Prop} {s s' : DataWriterImpl} (env : Env)
    (r : GUID_t) (h : preserves b s s') (hP : b → restaged_assigned env s') :
    preserves b s (replay_stage env s' r).2 := by
  unfold preserves coherent_counter_clear matched_count_consistent cursors_bounded at h ⊢
  unfold replay_stage
  dsimp only [DataWriterImpl.log]
  refine ⟨h.1, h.2.1, fun hg hb it hit => ?_⟩
  have hb' := h.2.2 hg hb
  simp only [List.mem_map] at hit
  obtain ⟨a, ha, rfl⟩ := hit
  split_ifs
  · rw [mark_historic_eq]
    dsimp only
    have key : ∀ x : Nat, x ≤ s'.sequence_number_ →
        List.foldl max x (List.map (fun e => e.header.sequence_) env.get_resend_data)
          ≤ s'.sequence_number_ := by
      intro x hx
      obtain ⟨_, _, h3⟩ := foldl_max_spec
        (env.get_resend_data.map (fun e => e.header.sequence_)) x
      rcases h3 with h3 | h3
      · rw [h3]
        exact hx
      · obtain ⟨e, he, hes⟩ := List.mem_map.1 h3
        rw [← hes]
        exact hP hg e he
    apply key
    split
    · rename_i info hl
      obtain ⟨p, hp, hv⟩ := lookup_some_mem _ _ _ hl
      have := hb' p hp
      rw [hv] at this
      exact this
    · exact Nat.zero_le _
  · exact hb' a ha

theorem preserves_replay {b : Prop} {s s' : DataWriterImpl} (env : Env)
    (r : GUID_t) (h : preserves b s s') (hP : b → restaged_assigned env s') :
    preserves b s (replay env s' r) := by
  have hs := preserves_replay_stage env r h hP
  unfold replay
  dsimp only
  split_ifs
  · exact preserves_of_fields hs rfl rfl rfl rfl rfl rfl
  · simp only [preserves_log, preserves_create_control_message, hs]
  · simp only [preserves_log, preserves_create_control_message, hs]

theorem preserves_replay_durable_data_for {b : Prop} {s s' : DataWriterImpl} (env : Env)
    (r : GUID_t) (h : preserves b s s') (hP : b → restaged_assigned env s') :
    preserves b s (replay_durable_data_for env s' r) := by
  unfold replay_durable_data_for
  dsimp only
  split_ifs
  · exact preserves_replay env r h hP
  · exact h

theorem preserves_association_complete_i {b : Prop} {s s' : DataWriterImpl} (env : Env)
    (r : GUID_t) (h : preserves b s s') (hP : b → restaged_assigned env s') :
    preserves b s (association_complete_i env s' r) := by
  have hm := preserves_association_matched env r h
  have hP' : b → restaged_assigned env (association_matched env s' r).2 := by
    intro hg e he
    rw [(association_matched_frame env s' r).2.1]
    exact hP hg e he
  unfold association_complete_i
  dsimp only
  split_ifs
  · exact preserves_replay env r hm hP'
  · exact hm

theorem preserves_foldl_log {b : Prop} {α : Type} (s s' : DataWriterImpl) (f : α → Event)
    (l : List α) :
    preserves b s (l.foldl (fun st x => st.log (f x)) s') ↔ preserves b s s' := by
  induction l generalizing s' with
  | nil => exact Iff.rfl
  | cons x l ih => rw [List.foldl_cons, ih, preserves_log]

theorem preserves_erase_reader_info {b : Prop} {s s' : DataWriterImpl} (env : Env)
    (id : GUID_t) (h : preserves b s s') : preserves b s (erase_reader_info env s' id) := by
  have hsub : preserves b s { s' with reader_info_ := map_erase s'.reader_info_ id } := by
    unfold preserves coherent_counter_clear matched_count_consistent cursors_bounded at h ⊢
    exact ⟨h.1, h.2.1, fun hg hb it hit => h.2.2 hg hb it (List.mem_filter.1 hit).1⟩
  unfold erase_reader_info
  cases s'.reader_info_.lookup id with
  | none => exact h
  | some info =>
    dsimp only
    cases env.participant with
    | none => exact hsub
    | some participant =>
      dsimp only
      split_ifs
      · exact (preserves_log s _ _).2 hsub
      · exact hsub

theorem preserves_remove_readers {b : Prop} {s s' : DataWriterImpl} (env : Env)
    (readers : List GUID_t) (h : preserves b s s') :
    preserves b s (remove_readers env readers s').2 := by
  induction readers generalizing s' with
  | nil => exact h
  | cons id rest ih =>
    unfold remove_readers
    dsimp only
    apply ih
    apply preserves_erase_reader_info
    rw [preserves_log]
    exact preserves_of_fields h rfl rfl rfl rfl rfl rfl

/-- After the status processing of `remove_associations` on a writer that is
not for a built-in topic, `current_count` is the size of `id_to_handle_map_`;
the other members read by the invariants are as before. -/
theorem publication_unmatched_some (env : Env) (s s' : DataWriterImpl)
    (handles : List InstanceHandle_t) (len : Nat)
    (h : publication_unmatched env s handles len = some s') :
    s'.coherent_ = s.coherent_ ∧ s'.coherent_samples_ = s.coherent_samples_
      ∧ s'.reader_info_ = s.reader_info_ ∧ s'.sequence_number_ = s.sequence_number_
      ∧ s'.id_to_handle_map_ = s.id_to_handle_map_
      ∧ s'.publication_match_status_.total_count = s.publication_match_status_.total_count
      ∧ (s.is_bit_ = false → matched_count_consistent s')
      ∧ (s.is_bit_ = true → s' = s) := by
  unfold publication_unmatched at h
  dsimp only [DataWriterImpl.log] at h
  unfold matched_count_consistent
  by_cases hb : (!s.is_bit_) = true
  · rw [if_pos hb] at h
    have hb' : s.is_bit_ = false := by simpa using hb
    by_cases hc : ((s.id_to_handle_map_.length : Int)
        - s.publication_match_status_.current_count != 0) = true
    · rw [if_pos hc] at h
      cases hl : handles[(len + 4294967295) % 4294967296]? with
      | none => rw [hl] at h; cases h
      | some last =>
        rw [hl] at h
        dsimp only at h
        have h' := (Option.some.inj h).symm
        split_ifs at h' <;> subst h' <;>
          exact ⟨rfl, rfl, rfl, rfl, rfl, rfl, fun _ => rfl, fun hf => by rw [hb'] at hf; cases hf⟩
    · rw [if_neg hc] at h
      have h' := (Option.some.inj h).symm
      subst h'
      refine ⟨rfl, rfl, rfl, rfl, rfl, rfl, fun _ => ?_, fun hf => by rw [hb'] at hf; cases hf⟩
      have hz : (s.id_to_handle_map_.length : Int)
          - s.publication_match_status_.current_count = 0 := by simpa using hc
      show s.publication_match_status_.current_count = (s.id_to_handle_map_.length : Int)
      omega
  · rw [if_neg hb] at h
    have h' := Option.some.inj h
    subst h'
    have hb' : s.is_bit_ = true := by simpa using hb
    refine ⟨rfl, rfl, rfl, rfl, rfl, rfl, fun hf => ?_, fun _ => rfl⟩
    rw [hb'] at hf
    cases hf

theorem preserves_notify_publication_lost {b : Prop} (s s' : DataWriterImpl) (env : Env)
    (handles : List InstanceHandle_t) :
    preserves b s (notify_publication_lost env s' handles) ↔ preserves b s s' := by
  unfold notify_publication_lost
  split_ifs <;> simp only [preserves_log]

theorem preserves_remove_associations {b : Prop} {s s' s'' : DataWriterImpl} (env : Env)
    (readers : List GUID_t) (notify_lost : Bool) (h : preserves b s s')
    (hr : remove_associations env s' readers notify_lost = some s'') :
    preserves b s s'' := by
  unfold remove_associations at hr
  by_cases hlen : (readers.length == 0) = true
  · rw [if_pos hlen] at hr
    rw [← Option.some.inj hr]
    exact h
  · rw [if_neg hlen] at hr
    dsimp only at hr
    have h2 := preserves_remove_readers env readers
      ((preserves_log s s' (Event.stop_associating readers)).2 h)
    generalize remove_readers env readers (s'.log (Event.stop_associating readers)) = rm
      at hr h2
    obtain ⟨fully, s2⟩ := rm
    dsimp only at hr h2
    generalize (if (decide (fully.length > 0) && !s2.is_bit_) = true then
      lookup_instance_handles env fully [] else []) = handles at hr
    generalize hs3 : (if (decide (fully.length > 0) && !s2.is_bit_) = true then
      ({ s2 with
        id_to_handle_map_ :=
          fully.foldl (fun m id => map_erase m id) s2.id_to_handle_map_ } : DataWriterImpl)
      else s2) = s3 at hr
    have hf3 : s3.coherent_ = s2.coherent_ ∧ s3.coherent_samples_ = s2.coherent_samples_
        ∧ s3.reader_info_ = s2.reader_info_ ∧ s3.sequence_number_ = s2.sequence_number_
        ∧ (s3.is_bit_ = true → s3 = s2) := by
      rw [← hs3]
      by_cases hc : (decide (fully.length > 0) && !s2.is_bit_) = true
      · rw [if_pos hc]
        refine ⟨rfl, rfl, rfl, rfl, fun hbit => ?_⟩
        have hbit' : s2.is_bit_ = true := hbit
        rw [hbit'] at hc
        simp at hc
      · rw [if_neg hc]
        exact ⟨rfl, rfl, rfl, rfl, fun _ => rfl⟩
    cases hpu : publication_unmatched env s3 handles fully.length with
    | none => rw [hpu] at hr; cases hr
    | some s4 =>
      rw [hpu] at hr
      dsimp only at hr
      obtain ⟨g1, g2, g3, g4, _, _, g7, g8⟩ :=
        publication_unmatched_some env s3 s4 handles _ hpu
      have h4 : preserves b s s4 := by
        unfold preserves coherent_counter_clear matched_count_consistent cursors_bounded
          at h2 ⊢
        refine ⟨?_, fun hm => ?_, ?_⟩
        · rw [g1, g2, hf3.1, hf3.2.1]
          exact h2.1
        · cases hbit : s3.is_bit_ with
          | false => exact g7 hbit
          | true =>
            rw [g8 hbit, hf3.2.2.2.2 hbit]
            exact h2.2.1 hm
        · rw [g3, g4, hf3.2.2.1, hf3.2.2.2.1]
          exact h2.2.2
      cases hp : env.participant with
      | none =>
        rw [hp] at hr
        dsimp only at hr
        split_ifs at hr <;> rw [← Option.some.inj hr] <;>
          simp only [preserves_foldl_log, preserves_notify_publication_lost, h4]
      | some participant =>
        rw [hp] at hr
        dsimp only at hr
        rw [← Option.some.inj hr]
        split_ifs <;>
          simp only [preserves_foldl_log, preserves_notify_publication_lost, h4]

/-- Every step preserves the reachable-state invariants; the bound on the
cursors is preserved when the re-staging answers allowed in the state before
the step carry only assigned sequence numbers. -/
theorem step_preserves (P : Env → DataWriterImpl → Prop) (s s' : DataWriterImpl)
    (h : Step P s s') : preserves (∀ env, P env s → restaged_assigned env s) s s' := by
  have h0 := preserves_refl (∀ env, P env s → restaged_assigned env s) s
  cases h with
  | configure _ _ hc => exact configured_preserves hc
  | add_association env _ reader active => exact preserves_add_association env reader active h0
  | association_complete_i env _ r hP =>
    exact preserves_association_complete_i env r h0 (fun hg => hg env hP)
  | replay_durable_data_for env _ r hP =>
    exact preserves_replay_durable_data_for env r h0 (fun hg => hg env hP)
  | remove_associations env _ readers notify_lost _ hr =>
    exact preserves_remove_associations env readers notify_lost h0 hr
  | write env _ a => exact preserves_write env a h0
  | write_w_timestamp env _ key handle ts =>
    exact preserves_write_w_timestamp env key handle ts h0
  | create_control_message env _ message_id hd data ts =>
    exact preserves_create_control_message env message_id hd data ts h0
  | send_request_ack env _ => exact preserves_send_request_ack env h0
  | wait_for_acknowledgments env _ max_wait =>
    exact preserves_wait_for_acknowledgments env max_wait h0
  | register_instance_i env _ handle data ts =>
    exact preserves_register_instance_i env handle data ts h0
  | register_instance_w_timestamp env _ key ts =>
    exact preserves_get_or_create_instance_handle env key ts h0
  | unregister_instance_i env _ handle ts =>
    exact preserves_unregister_instance_i env handle ts h0
  | dispose_and_unregister env _ handle ts =>
    exact preserves_dispose_and_unregister env handle ts h0
  | dispose env _ handle ts => exact preserves_dispose env handle ts h0
  | unregister_instance_w_timestamp env _ key handle ts =>
    exact preserves_unregister_instance_w_timestamp env key handle ts h0
  | dispose_w_timestamp env _ key handle ts =>
    exact preserves_dispose_w_timestamp env key handle ts h0
  | send_suspended_data _ => exact preserves_send_suspended_data h0
  | send_liveliness env _ now => exact preserves_send_liveliness env now h0
  | assert_liveliness env _ => exact preserves_assert_liveliness env h0
  | assert_liveliness_by_participant env _ =>
    exact preserves_assert_liveliness_by_participant env h0
  | liveliness_send_task env _ now => exact preserves_liveliness_send_task env now h0
  | liveliness_lost_task env _ now => exact preserves_liveliness_lost_task env now h0
  | begin_coherent_changes _ => exact preserves_begin_coherent_changes h0
  | end_coherent_changes env _ group_samples =>
    exact preserves_end_coherent_changes env group_samples h0

/-- In every reachable state the pending-sample counter is zero outside a
coherent set, and `current_count` is the size of `id_to_handle_map_`. -/
theorem reachable_counts (P : Env → DataWriterImpl → Prop) (s : DataWriterImpl)
    (h : Reachable P s) : coherent_counter_clear s ∧ matched_count_consistent s := by
  induction h with
  | ctor _ _ _ _ _ _ => exact ⟨fun _ => rfl, rfl⟩
  | step s s' _ hs ih =>
    have hp := step_preserves P s s' hs
    exact ⟨hp.1 ih.1, hp.2.1 ih.2⟩

/-- In every state reached with answers that re-stage only assigned sequence
numbers, every cursor is at most the counter. -/
theorem reachable_cursors_bounded (s : DataWriterImpl)
    (h : Reachable restaged_assigned s) : cursors_bounded s := by
  induction h with
  | ctor _ _ _ _ _ _ => exact fun it hit => nomatch hit
  | step s s' _ hs ih =>
    exact (step_preserves restaged_assigned s s' hs).2.2 (fun _ hP => hP) ih

/-- The fresh writer is the constructed writer after `enable`. -/
theorem fresh_writer_reachable (P : Env → DataWriterImpl → Prop) :
    Reachable P fresh_writer :=
  Reachable.step _ _
    (Reachable.ctor RELIABLE_RELIABILITY_QOS AUTOMATIC_LIVELINESS_QOS
      { sec := DURATION_INFINITE_SEC, nanosec := DURATION_INFINITE_NSEC } true true 1000)
    (Step.configure _ _ rfl)

/-- C11.  In every reachable state with `coherent_ = false` the counter
`coherent_samples_` is 0.  A call of `end_coherent_changes` in such a state
(one without a preceding `begin_coherent_changes`) builds an
END_COHERENT_CHANGES message whose `num_samples_` is 0 and leaves `coherent_`
false and `coherent_samples_` 0; a later `begin_coherent_changes`, k successful
writes and `end_coherent_changes` report exactly k samples. -/
theorem end_without_begin_keeps_counter_clear (P : Env → DataWriterImpl → Prop)
    (env : Env) (s : DataWriterImpl) (group_samples : List (GUID_t × Nat × SequenceNumber))
    (hr : Reachable P s) (hc : s.coherent_ = false) :
    s.coherent_samples_ = 0
      ∧ (end_coherent_changes env s group_samples).end_msg.num_samples_ = 0
      ∧ (end_coherent_changes env s group_samples).header.message_id_ = END_COHERENT_CHANGES
      ∧ (end_coherent_changes env s group_samples).state.coherent_ = false
      ∧ (end_coherent_changes env s group_samples).state.coherent_samples_ = 0
      ∧ ∀ (env2 : Env) (calls : List (Env × WriteArgs))
          (group_samples2 : List (GUID_t × Nat × SequenceNumber)),
          (∀ r ∈ write_calls calls
              (begin_coherent_changes (end_coherent_changes env s group_samples).state),
            r.ret = RETCODE_OK) →
          (end_coherent_changes env2
            (after_writes calls
              (begin_coherent_changes (end_coherent_changes env s group_samples).state))
            group_samples2).end_msg.num_samples_ = calls.length := by
  have h0 : s.coherent_samples_ = 0 := (reachable_counts P s hr).1 hc
  obtain ⟨e1, _, e3, e4, e5, _⟩ := end_coherent_changes_spec env s group_samples
  refine ⟨h0, by rw [e1, h0], e3, e4, e5, fun env2 calls group_samples2 hok => ?_⟩
  obtain ⟨f1, _⟩ := end_coherent_changes_spec env2
    (after_writes calls
      (begin_coherent_changes (end_coherent_changes env s group_samples).state))
    group_samples2
  obtain ⟨_, c2⟩ := after_writes_coherent calls
    (begin_coherent_changes (end_coherent_changes env s group_samples).state) rfl hok
  have hb : (begin_coherent_changes
      (end_coherent_changes env s group_samples).state).coherent_samples_ = 0 := e5
  rw [f1, c2, hb, Nat.zero_add]

/-- On the writer left by one accepted write outside a coherent set,
`end_coherent_changes` reports 0 samples and leaves the counter at 0. -/
theorem end_without_begin_keeps_counter_clear_witness :
    (end_coherent_changes (accepting_env (some active_publisher) 2) once_written_writer
        []).end_msg.num_samples_ = 0
      ∧ (end_coherent_changes (accepting_env (some active_publisher) 2) once_written_writer
        []).state.coherent_samples_ = 0 :=
  ⟨(end_without_begin_keeps_counter_clear any_answers
      (accepting_env (some active_publisher) 2) once_written_writer []
      (Reachable.step _ _ (fresh_writer_reachable any_answers)
        (Step.write (accepting_env (some active_publisher) 1) fresh_writer plain_write))
      (by decide)).2.1,
    (end_without_begin_keeps_counter_clear any_answers
      (accepting_env (some active_publisher) 2) once_written_writer []
      (Reachable.step _ _ (fresh_writer_reachable any_answers)
        (Step.write (accepting_env (some active_publisher) 1) fresh_writer plain_write))
      (by decide)).2.2.2.2.1⟩

/-- C18.  With the publisher present, `create_control_message` for a kind that
takes a sequence number leaves every reader's `expected_sequence_` equal to
the number stamped on the message: the reader table afterwards is the table
before with every cursor replaced by that number (whatever the records' filter
members are), so `need_sequence_repair` is false right after the call. -/
theorem control_message_sets_every_cursor (env : Env) (s : DataWriterImpl)
    (message_id : MessageId) (hd : DataSampleHeader) (data : Option Message_Block)
    (ts : Time_t) (p : PublisherImpl) (hp : env.publisher = some p)
    (hk : consumes_sequence message_id = true) :
    (create_control_message env s message_id hd data ts).header_data.sequence_
        = s.sequence_number_ + 1
      ∧ (create_control_message env s message_id hd data ts).state.reader_info_
        = s.reader_info_.map (fun reader =>
            (reader.1,
              { reader.2 with
                expected_sequence_ :=
                  (create_control_message env s message_id hd data ts).header_data.sequence_ }))
      ∧ (∀ it ∈ (create_control_message env s message_id hd data ts).state.reader_info_,
          it.2.expected_sequence_
            = (create_control_message env s message_id hd data ts).header_data.sequence_)
      ∧ need_sequence_repair (create_control_message env s message_id hd data ts).state
        = false := by
  obtain ⟨h1, _, _, h4, _⟩ := create_control_message_consuming env s message_id hd data ts p hp hk
  have hri : (create_control_message env s message_id hd data ts).state.reader_info_
      = s.reader_info_.map (fun reader =>
          (reader.1, { reader.2 with expected_sequence_ := s.sequence_number_ + 1 })) := by
    rw [h4]
  have hsq : (create_control_message env s message_id hd data ts).state.sequence_number_
      = s.sequence_number_ + 1 := by
    rw [h4]
  have hall : ∀ it ∈ (create_control_message env s message_id hd data ts).state.reader_info_,
      it.2.expected_sequence_ = s.sequence_number_ + 1 := by
    intro it hit
    rw [hri] at hit
    obtain ⟨a, _, rfl⟩ := List.mem_map.1 hit
    rfl
  refine ⟨h1, ?_, ?_, ?_⟩
  · rw [h1]
    exact hri
  · rw [h1]
    exact hall
  · unfold need_sequence_repair need_sequence_repair_i
    rw [List.any_eq_false]
    intro it hit
    rw [hall it hit, hsq]
    simp

/-- A REQUEST_ACK built on the writer whose counter and only cursor stand at 5
is stamped 6, and the cursor is 6 afterwards. -/
theorem control_message_sets_every_cursor_witness :
    (create_control_message (accepting_env (some active_publisher) 0) caught_up_writer
        REQUEST_ACK clear_header none { sec := 0, nanosec := 0 }).header_data.sequence_ = 6
      ∧ ∀ it ∈ (create_control_message (accepting_env (some active_publisher) 0)
          caught_up_writer REQUEST_ACK clear_header none
          { sec := 0, nanosec := 0 }).state.reader_info_,
        it.2.expected_sequence_
          = (create_control_message (accepting_env (some active_publisher) 0)
            caught_up_writer REQUEST_ACK clear_header none
            { sec := 0, nanosec := 0 }).header_data.sequence_ :=
  ⟨(control_message_sets_every_cursor (accepting_env (some active_publisher) 0)
      caught_up_writer REQUEST_ACK clear_header none { sec := 0, nanosec := 0 }
      active_publisher rfl (by decide)).1,
    (control_message_sets_every_cursor (accepting_env (some active_publisher) 0)
      caught_up_writer REQUEST_ACK clear_header none { sec := 0, nanosec := 0 }
      active_publisher rfl (by decide)).2.2.1⟩

/-- The reader table left by `track_sequence_number`: the cursor of every
reader that `filter_out` does not list is the counter. -/
theorem track_sequence_number_reader_info (s : DataWriterImpl)
    (filter_out : Option (List GUID_t)) :
    (track_sequence_number s filter_out).reader_info_
      = s.reader_info_.map (fun iter =>
          if iter.1 ∈ filter_out.getD [] then iter
          else (iter.1, { iter.2 with expected_sequence_ := s.sequence_number_ })) := by
  have hcount : ∀ (buf : List GUID_t) (it : GUID_t × ReaderInfo),
      (if (buf.count it.1 == 0) = true then
          (it.1, { it.2 with expected_sequence_ := s.sequence_number_ })
        else it)
        = (if it.1 ∈ buf then it
          else (it.1, { it.2 with expected_sequence_ := s.sequence_number_ })) := by
    intro buf it
    by_cases hm : it.1 ∈ buf
    · have hc : ¬ (buf.count it.1 == 0) = true := by
        simpa [List.count_eq_zero] using hm
      rw [if_neg hc, if_pos hm]
    · have hc : (buf.count it.1 == 0) = true := by
        simpa [List.count_eq_zero] using hm
      rw [if_pos hc, if_neg hm]
  unfold track_sequence_number
  dsimp only [get_max_sn]
  cases filter_out with
  | none =>
    dsimp only [Option.getD]
    exact List.map_congr_left (fun it _ => hcount [] it)
  | some buf =>
    cases hri : s.reader_info_ with
    | nil => rfl
    | cons r rest =>
      dsimp only [Option.getD]
      exact List.map_congr_left (fun it _ => hcount buf it)

/-- The reader table after a successful `write`. -/
theorem write_ok_reader_info (env : Env) (s : DataWriterImpl) (a : WriteArgs)
    (h : (write env s a).ret = RETCODE_OK) :
    (write env s a).state.reader_info_
      = s.reader_info_.map (fun iter =>
          if iter.1 ∈ a.filter_out.getD [] then iter
          else (iter.1, { iter.2 with expected_sequence_ := s.sequence_number_ + 1 })) := by
  obtain ⟨_, _, hcs, _, _, hst⟩ := write_ok_inv env s a h
  obtain ⟨_, _, _, h4⟩ := create_sample_data_message_ok _ _ _ _ _ _ _ hcs
  rw [hst, (write_enqueued_frame env _ a.filter_out).2.2, h4,
    track_sequence_number_reader_info]
  rfl

/-- C19.  After a successful `write` with exclusion list `filter_out`, the
reader table is the table before the call in which every reader not listed in
`filter_out` has its `expected_sequence_` set to the sequence number stamped
on the sample just written, and every listed reader keeps its record; with a
null `filter_out` every reader's cursor is set. -/
theorem write_tracks_unfiltered_readers (env : Env) (s : DataWriterImpl) (a : WriteArgs)
    (h : (write env s a).ret = RETCODE_OK) :
    ∃ e, (write env s a).element = some e
      ∧ e.header.sequence_ = s.sequence_number_ + 1
      ∧ (write env s a).state.reader_info_
        = s.reader_info_.map (fun iter =>
            if iter.1 ∈ a.filter_out.getD [] then iter
            else (iter.1, { iter.2 with expected_sequence_ := e.header.sequence_ }))
      ∧ (a.filter_out = none →
          (write env s a).state.reader_info_
            = s.reader_info_.map (fun iter =>
                (iter.1, { iter.2 with expected_sequence_ := e.header.sequence_ }))) := by
  obtain ⟨⟨e, he, hseq, _, _⟩, _⟩ := write_ok_sequence env s a h
  have hri := write_ok_reader_info env s a h
  refine ⟨e, he, hseq, ?_, fun hnone => ?_⟩
  · rw [hseq]
    exact hri
  · rw [hseq, hri, hnone]
    apply List.map_congr_left
    intro it _
    have hm : ¬ it.1 ∈ (none : Option (List GUID_t)).getD [] := by simp
    rw [if_neg hm]

/-- A write that excludes reader 2, on the writer whose counter is 5 and whose
readers 1 and 2 have cursors 5 and 3, is stamped 6, sets the cursor of reader 1
to 6 and leaves the cursor of reader 2 at 3. -/
theorem write_tracks_unfiltered_readers_witness :
    ∃ e, (write (accepting_env (some active_publisher) 1) two_reader_writer
          filtered_write).element = some e
      ∧ e.header.sequence_ = 6
      ∧ (write (accepting_env (some active_publisher) 1) two_reader_writer
          filtered_write).state.reader_info_.map (fun it => (it.1, it.2.expected_sequence_))
        = [(1, 6), (2, 3)] := by
  obtain ⟨e, he, hseq, hri, _⟩ := write_tracks_unfiltered_readers
    (accepting_env (some active_publisher) 1) two_reader_writer filtered_write (by decide)
  refine ⟨e, he, hseq, ?_⟩
  rw [hri, hseq]
  decide

/-- A run of writes from a reachable state ends in a reachable state. -/
theorem after_writes_reachable (P : Env → DataWriterImpl → Prop)
    (calls : List (Env × WriteArgs)) (s : DataWriterImpl) (hr : Reachable P s) :
    Reachable P (after_writes calls s) := by
  induction calls generalizing s with
  | nil => exact hr
  | cons c cs ih =>
    exact ih (write c.1 s c.2).state (Reachable.step _ _ hr (Step.write c.1 s c.2))

/-- C20.  In every state reached from the constructed writer by calls of the
embedded member functions (among them `add_association`,
`association_complete_i`, `remove_associations`, `write`,
`create_control_message` and `replay_durable_data_for`), where the elements
re-staged by the container carry sequence numbers not above the counter, every
reader's `expected_sequence_` is at most `sequence_number_`; the sentinel
`SEQUENCENUMBER_UNKNOWN` is below every counter value. -/
theorem cursors_never_ahead_of_counter (s : DataWriterImpl)
    (hr : Reachable restaged_assigned s) :
    (∀ it ∈ s.reader_info_, it.2.expected_sequence_ ≤ s.sequence_number_)
      ∧ SEQUENCENUMBER_UNKNOWN ≤ s.sequence_number_ :=
  ⟨reachable_cursors_bounded s hr, Nat.zero_le _⟩

/-- After three writes, `add_association` of durable reader 9 and
`association_complete_i` with the three written elements re-staged, the cursor
of reader 9 is not above the counter. -/
theorem cursors_never_ahead_of_counter_witness :
    cursors_bounded
      (association_complete_i (replay_env (some active_publisher)) durable_matched_writer 9) :=
  (cursors_never_ahead_of_counter
    (association_complete_i (replay_env (some active_publisher)) durable_matched_writer 9)
    (Reachable.step _ _
      (Reachable.step _ _
        (after_writes_reachable restaged_assigned three_writes fresh_writer
          (fresh_writer_reachable restaged_assigned))
        (Step.add_association (replay_env (some active_publisher))
          (after_writes three_writes fresh_writer) (durable_reader 9) true))
      (Step.association_complete_i (replay_env (some active_publisher))
        durable_matched_writer 9 (by unfold restaged_assigned; decide)))).1

theorem erase_reader_info_frame (env : Env) (s : DataWriterImpl) (id : GUID_t) :
    (erase_reader_info env s id).publication_match_status_ = s.publication_match_status_
      ∧ (erase_reader_info env s id).id_to_handle_map_ = s.id_to_handle_map_
      ∧ (erase_reader_info env s id).is_bit_ = s.is_bit_ := by
  unfold erase_reader_info
  cases s.reader_info_.lookup id with
  | none => exact ⟨rfl, rfl, rfl⟩
  | some info =>
    dsimp only
    cases env.participant with
    | none => exact ⟨rfl, rfl, rfl⟩
    | some participant =>
      dsimp only
      split_ifs <;> exact ⟨rfl, rfl, rfl⟩

theorem remove_readers_frame (env : Env) (readers : List GUID_t) (s : DataWriterImpl) :
    (remove_readers env readers s).2.publication_match_status_ = s.publication_match_status_
      ∧ (remove_readers env readers s).2.id_to_handle_map_ = s.id_to_handle_map_
      ∧ (remove_readers env readers s).2.is_bit_ = s.is_bit_ := by
  induction readers generalizing s with
  | nil => exact ⟨rfl, rfl, rfl⟩
  | cons id rest ih =>
    unfold remove_readers
    dsimp only
    obtain ⟨i1, i2, i3⟩ := ih (erase_reader_info env
      (({ s with readers_ := (set_remove s.readers_ id).1 } : DataWriterImpl).log
        (Event.remove_reader_acks id)) id)
    obtain ⟨e1, e2, e3⟩ := erase_reader_info_frame env
      (({ s with readers_ := (set_remove s.readers_ id).1 } : DataWriterImpl).log
        (Event.remove_reader_acks id)) id
    exact ⟨i1.trans e1, i2.trans e2, i3.trans e3⟩

/-- With the participant alive and `current_count` equal to the size of
`id_to_handle_map_`, `remove_associations` reads `handles` inside its bounds:
it runs to its end. -/
theorem remove_associations_defined (env : Env) (s : DataWriterImpl)
    (readers : List GUID_t) (notify_lost : Bool) (participant : DomainParticipantImpl)
    (hp : env.participant = some participant) (hm : matched_count_consistent s) :
    ∃ s', remove_associations env s readers notify_lost = some s' := by
  unfold remove_associations
  by_cases hlen : (readers.length == 0) = true
  · rw [if_pos hlen]
    exact ⟨s, rfl⟩
  · rw [if_neg hlen]
    dsimp only
    obtain ⟨h2, h2m, _⟩ :=
      remove_readers_frame env readers (s.log (Event.stop_associating readers))
    generalize remove_readers env readers (s.log (Event.stop_associating readers)) = rm
      at h2 h2m
    obtain ⟨fully, s2⟩ := rm
    dsimp only at h2 h2m ⊢
    have hm2 : s2.publication_match_status_.current_count
        = (s2.id_to_handle_map_.length : Int) := by
      rw [h2, h2m]
      exact hm
    have hsome : ∃ s4, publication_unmatched env
        (if (decide (fully.length > 0) && !s2.is_bit_) = true then
          ({ s2 with
            id_to_handle_map_ :=
              fully.foldl (fun m id => map_erase m id) s2.id_to_handle_map_ }
            : DataWriterImpl)
        else s2)
        (if (decide (fully.length > 0) && !s2.is_bit_) = true then
          lookup_instance_handles env fully [] else [])
        fully.length = some s4 := by
      by_cases hc : (decide (fully.length > 0) && !s2.is_bit_) = true
      · rw [if_pos hc, if_pos hc]
        have hpos : 0 < fully.length := by
          simp only [Bool.and_eq_true, decide_eq_true_eq] at hc
          exact hc.1
        unfold publication_unmatched lookup_instance_handles
        rw [hp]
        dsimp only
        have hidx : (fully.length + 4294967295) % 4294967296
            < (fully.map participant.lookup_handle).length := by
          rw [List.length_map]
          omega
        rw [List.getElem?_eq_getElem hidx]
        dsimp only
        split_ifs <;> exact ⟨_, rfl⟩
      · rw [if_neg hc, if_neg hc]
        unfold publication_unmatched
        dsimp only
        have hz : ¬ ((s2.id_to_handle_map_.length : Int)
            - s2.publication_match_status_.current_count != 0) = true := by
          rw [hm2]
          simp
        rw [if_neg hz]
        split_ifs <;> exact ⟨_, rfl⟩
    obtain ⟨s4, hs4⟩ := hsome
    rw [hs4, hp]
    exact ⟨_, rfl⟩

theorem write_enqueued_liveliness (env : Env) (s : DataWriterImpl)
    (filter_out : Option (List GUID_t)) :
    (write_enqueued env s filter_out).last_liveliness_activity_time_ = env.monotonic_now
      ∧ (write_enqueued env s filter_out).liveliness_lost_ = false := by
  simp only [write_enqueued, track_sequence_number, DataWriterImpl.log,
    apply_ite DataWriterImpl.last_liveliness_activity_time_,
    apply_ite DataWriterImpl.liveliness_lost_, ite_self, and_self]

/-- A failed `send_liveliness` leaves the activity time and the lost flag as
they were. -/
theorem send_liveliness_failed (env : Env) (s : DataWriterImpl) (now : MonotonicTimePoint)
    (h : (send_liveliness env s now).1 = false) :
    (send_liveliness env s now).2.last_liveliness_activity_time_
        = s.last_liveliness_activity_time_
      ∧ (send_liveliness env s now).2.liveliness_lost_ = s.liveliness_lost_ := by
  have hc := (create_control_message_plain env s DATAWRITER_LIVELINESS env.new_header none
    env.system_now (Or.inl rfl)).1
  unfold send_liveliness at h ⊢
  dsimp only [send_control, DataWriterImpl.log] at h ⊢
  rw [hc] at h ⊢
  split_ifs at h ⊢ <;> exact ⟨rfl, rfl⟩

/-- C17, refuted as stated.  On a writer with a manual liveliness kind (by
topic, and by participant) whose last activity was at tick 0 and whose
liveliness is flagged lost, a successful `write` at tick 500 sets
`last_liveliness_activity_time_` to 500 and clears `liveliness_lost_`. -/
theorem manual_liveliness_write_updates_activity :
    (manual_writer MANUAL_BY_TOPIC_LIVELINESS_QOS).last_liveliness_activity_time_ = 0
      ∧ (manual_writer MANUAL_BY_TOPIC_LIVELINESS_QOS).liveliness_lost_ = true
      ∧ (write later_env (manual_writer MANUAL_BY_TOPIC_LIVELINESS_QOS) plain_write).ret
        = RETCODE_OK
      ∧ (write later_env (manual_writer MANUAL_BY_TOPIC_LIVELINESS_QOS)
          plain_write).state.last_liveliness_activity_time_ = 500
      ∧ (write later_env (manual_writer MANUAL_BY_TOPIC_LIVELINESS_QOS)
          plain_write).state.liveliness_lost_ = false
      ∧ (write later_env (manual_writer MANUAL_BY_PARTICIPANT_LIVELINESS_QOS)
          plain_write).ret = RETCODE_OK
      ∧ (write later_env (manual_writer MANUAL_BY_PARTICIPANT_LIVELINESS_QOS)
          plain_write).state.last_liveliness_activity_time_ = 500
      ∧ (write later_env (manual_writer MANUAL_BY_PARTICIPANT_LIVELINESS_QOS)
          plain_write).state.liveliness_lost_ = false := by
  decide

/-- C17, amended.  Under every liveliness kind a successful `write` sets
`last_liveliness_activity_time_` to the current time and clears
`liveliness_lost_`.  The explicit assertion calls update them as well:
`assert_liveliness` under MANUAL_BY_TOPIC and `assert_liveliness_by_participant`
under MANUAL_BY_PARTICIPANT return RETCODE_OK with the time set and the flag
cleared when `send_liveliness` succeeds, and return RETCODE_ERROR with both
unchanged when it fails; `assert_liveliness` under AUTOMATIC changes nothing. -/
theorem write_updates_liveliness_under_every_kind (env : Env) (s : DataWriterImpl)
    (a : WriteArgs) (h : (write env s a).ret = RETCODE_OK) :
    (write env s a).state.last_liveliness_activity_time_ = env.monotonic_now
      ∧ (write env s a).state.liveliness_lost_ = false
      ∧ (s.liveliness_kind = MANUAL_BY_TOPIC_LIVELINESS_QOS →
          ((assert_liveliness env s).1 = RETCODE_OK
              ∧ (assert_liveliness env s).2.last_liveliness_activity_time_
                = env.monotonic_now
              ∧ (assert_liveliness env s).2.liveliness_lost_ = false)
            ∨ ((assert_liveliness env s).1 = RETCODE_ERROR
              ∧ (assert_liveliness env s).2.last_liveliness_activity_time_
                = s.last_liveliness_activity_time_
              ∧ (assert_liveliness env s).2.liveliness_lost_ = s.liveliness_lost_))
      ∧ (s.liveliness_kind = MANUAL_BY_PARTICIPANT_LIVELINESS_QOS →
          ((assert_liveliness_by_participant env s).1 = RETCODE_OK
              ∧ (assert_liveliness_by_participant env s).2.last_liveliness_activity_time_
                = env.monotonic_now
              ∧ (assert_liveliness_by_participant env s).2.liveliness_lost_ = false)
            ∨ ((assert_liveliness_by_participant env s).1 = RETCODE_ERROR
              ∧ (assert_liveliness_by_participant env s).2.last_liveliness_activity_time_
                = s.last_liveliness_activity_time_
              ∧ (assert_liveliness_by_participant env s).2.liveliness_lost_
                = s.liveliness_lost_))
      ∧ (s.liveliness_kind = AUTOMATIC_LIVELINESS_QOS →
          assert_liveliness env s = (RETCODE_OK, s)) := by
  obtain ⟨_, _, _, _, _, hst⟩ := write_ok_inv env s a h
  have hw := write_enqueued_liveliness env
    ((create_sample_data_message env (s.log (Event.obtain_buffer a.handle)) a.data
        a.handle env.obtain_buffer.2.header a.source_timestamp
        a.filter_out.isSome).state.log
      (Event.enqueue (written_element env s a) a.handle)) a.filter_out
  rw [← hst] at hw
  refine ⟨hw.1, hw.2, fun hk => ?_, fun hk => ?_, fun hk => ?_⟩
  · unfold assert_liveliness
    rw [hk]
    dsimp only
    cases hs : (send_liveliness env s env.monotonic_now).1 with
    | true =>
      obtain ⟨o1, o2, _⟩ := send_liveliness_ok env s env.monotonic_now hs
      exact Or.inl ⟨rfl, o2, o1⟩
    | false =>
      obtain ⟨f1, f2⟩ := send_liveliness_failed env s env.monotonic_now hs
      exact Or.inr ⟨rfl, f1, f2⟩
  · unfold assert_liveliness_by_participant
    rw [hk]
    dsimp only
    cases hs : (send_liveliness env s env.monotonic_now).1 with
    | true =>
      obtain ⟨o1, o2, _⟩ := send_liveliness_ok env s env.monotonic_now hs
      exact Or.inl ⟨rfl, o2, o1⟩
    | false =>
      obtain ⟨f1, f2⟩ := send_liveliness_failed env s env.monotonic_now hs
      exact Or.inr ⟨rfl, f1, f2⟩
  · unfold assert_liveliness
    rw [hk]

/-- The plain write at tick 500 on the writer with MANUAL_BY_TOPIC liveliness
leaves the activity time at 500 and the lost flag clear. -/
theorem write_updates_liveliness_under_every_kind_witness :
    (write later_env (manual_writer MANUAL_BY_TOPIC_LIVELINESS_QOS)
        plain_write).state.last_liveliness_activity_time_ = later_env.monotonic_now
      ∧ (write later_env (manual_writer MANUAL_BY_TOPIC_LIVELINESS_QOS)
        plain_write).state.liveliness_lost_ = false :=
  ⟨(write_updates_liveliness_under_every_kind later_env
      (manual_writer MANUAL_BY_TOPIC_LIVELINESS_QOS) plain_write (by decide)).1,
    (write_updates_liveliness_under_every_kind later_env
      (manual_writer MANUAL_BY_TOPIC_LIVELINESS_QOS) plain_write (by decide)).2.1⟩

/-- C14.  For a key that is not registered (`lookup_instance` gives
HANDLE_NIL), when `serialize_sample` fails inside
`get_or_create_instance_handle` (the access check before it having passed),
the function returns RETCODE_ERROR and the writer is exactly as before: no
call has been made on the container (so `register_instance_i` has not run and
no INSTANCE_REGISTRATION has been built), the counter and both instance maps
are unchanged, and `register_instance_w_timestamp` returns HANDLE_NIL. -/
theorem serialize_failure_registers_nothing (env : Env) (s : DataWriterImpl) (key : Nat)
    (ts : Time_t) (hnew : lookup_instance s key = HANDLE_NIL)
    (hsec : env.check_register_instance = true) (hser : env.serialize key = none) :
    (get_or_create_instance_handle env s key ts).ret = RETCODE_ERROR
      ∧ (get_or_create_instance_handle env s key ts).state = s
      ∧ (get_or_create_instance_handle env s key ts).state.trace = s.trace
      ∧ (get_or_create_instance_handle env s key ts).state.sequence_number_
        = s.sequence_number_
      ∧ (get_or_create_instance_handle env s key ts).state.instance_handles_to_values_
        = s.instance_handles_to_values_
      ∧ (get_or_create_instance_handle env s key ts).state.instance_values_to_handles_
        = s.instance_values_to_handles_
      ∧ register_instance_w_timestamp env s key ts = (HANDLE_NIL, s) := by
  have hret : get_or_create_instance_handle env s key ts
      = { ret := RETCODE_ERROR, handle := HANDLE_NIL, state := s } := by
    unfold get_or_create_instance_handle
    simp only [hnew, hsec, hser, beq_self_eq_true, Bool.true_or, if_true, Bool.not_true,
      Bool.false_eq_true, if_false]
  unfold register_instance_w_timestamp
  rw [hret]
  exact ⟨rfl, rfl, rfl, rfl, rfl, rfl, rfl⟩

/-- On the fresh writer, registering key 1 when serialization fails returns
HANDLE_NIL and leaves the writer as it was. -/
theorem serialize_failure_registers_nothing_witness :
    (get_or_create_instance_handle unserializable_env fresh_writer 1
        { sec := 0, nanosec := 0 }).ret = RETCODE_ERROR
      ∧ register_instance_w_timestamp unserializable_env fresh_writer 1
        { sec := 0, nanosec := 0 } = (HANDLE_NIL, fresh_writer) :=
  ⟨(serialize_failure_registers_nothing unserializable_env fresh_writer 1
      { sec := 0, nanosec := 0 } (by decide) (by decide) rfl).1,
    (serialize_failure_registers_nothing unserializable_env fresh_writer 1
      { sec := 0, nanosec := 0 } (by decide) (by decide) rfl).2.2.2.2.2.2⟩

/-- What `instance_must_exist` answers for a registered key: a handle that is
neither HANDLE_NIL nor the registered one is rejected and the writer is left
alone; otherwise the registered handle is handed back. -/
theorem instance_must_exist_registered (s : DataWriterImpl) (k : Nat)
    (h h' : InstanceHandle_t) (remove : Bool)
    (hreg : s.instance_values_to_handles_.lookup k = some h) :
    (h' ≠ HANDLE_NIL → h' ≠ h →
        instance_must_exist s k h' remove
          = { ret := RETCODE_PRECONDITION_NOT_MET, handle := h', state := s })
      ∧ ((h' = HANDLE_NIL ∨ h' = h) →
        (instance_must_exist s k h' remove).ret = RETCODE_OK
          ∧ (instance_must_exist s k h' remove).handle = h
          ∧ instance_must_exist s k h' remove = instance_must_exist s k h remove) := by
  unfold instance_must_exist
  rw [hreg]
  dsimp only
  refine ⟨fun h1 h2 => ?_, fun h1 => ?_⟩
  · have hc : (h' != HANDLE_NIL && h' != h) = true := by simp [h1, h2]
    rw [if_pos hc]
  · have hc : ¬ (h' != HANDLE_NIL && h' != h) = true := by
      rcases h1 with h1 | h1 <;> simp [h1]
    have hc' : ¬ (h != HANDLE_NIL && h != h) = true := by simp
    rw [if_neg hc, if_neg hc']
    cases remove <;> exact ⟨rfl, rfl, rfl⟩

/-- C15.  Let key `k` be registered with handle `h`.  With a handle `h'` that
is neither HANDLE_NIL nor `h`, `unregister_instance_w_timestamp` and (the
access check, where compiled in, allowing the call) `dispose_w_timestamp`
return RETCODE_PRECONDITION_NOT_MET and leave the writer, so both instance
maps, as before.  For a key that is not registered they return RETCODE_ERROR
and leave the writer as before.  With `h'` equal to HANDLE_NIL they act on the
registered handle `h`: they are the calls of `unregister_instance_i` (after the
registry entry is dropped) and of `dispose` with `h`, the same as when `h` is
passed. -/
theorem handle_sample_mismatch_rejected (env : Env) (s : DataWriterImpl) (k k0 : Nat)
    (h h' : InstanceHandle_t) (t : Time_t)
    (hreg : s.instance_values_to_handles_.lookup k = some h)
    (hnone : s.instance_values_to_handles_.lookup k0 = none)
    (hsec : env.check_dispose_instance = true) :
    (h' ≠ HANDLE_NIL → h' ≠ h →
        unregister_instance_w_timestamp env s k h' t = (RETCODE_PRECONDITION_NOT_MET, s)
          ∧ dispose_w_timestamp env s k h' t = (RETCODE_PRECONDITION_NOT_MET, s))
      ∧ unregister_instance_w_timestamp env s k0 h' t = (RETCODE_ERROR, s)
      ∧ dispose_w_timestamp env s k0 h' t = (RETCODE_ERROR, s)
      ∧ unregister_instance_w_timestamp env s k HANDLE_NIL t
        = unregister_instance_i env
            { s with
              instance_values_to_handles_ := map_erase s.instance_values_to_handles_ k
              instance_handles_to_values_ := map_erase s.instance_handles_to_values_ h }
            h t
      ∧ unregister_instance_w_timestamp env s k HANDLE_NIL t
        = unregister_instance_w_timestamp env s k h t
      ∧ dispose_w_timestamp env s k HANDLE_NIL t = dispose env s h t
      ∧ dispose_w_timestamp env s k HANDLE_NIL t = dispose_w_timestamp env s k h t := by
  have hsec' : ¬ (!env.check_dispose_instance) = true := by simp [hsec]
  have hnil := ((instance_must_exist_registered s k h HANDLE_NIL true hreg).2
    (Or.inl rfl))
  have hnil' := ((instance_must_exist_registered s k h HANDLE_NIL false hreg).2
    (Or.inl rfl))
  have hk0 : ∀ remove, instance_must_exist s k0 h' remove
      = { ret := RETCODE_ERROR, handle := h', state := s } := by
    intro remove
    unfold instance_must_exist
    rw [hnone]
  have hself : ∀ remove, instance_must_exist s k h remove
      = (if remove then
          { ret := RETCODE_OK, handle := h,
            state :=
              { s with
                instance_values_to_handles_ := map_erase s.instance_values_to_handles_ k
                instance_handles_to_values_ :=
                  map_erase s.instance_handles_to_values_ h } }
        else { ret := RETCODE_OK, handle := h, state := s }) := by
    intro remove
    unfold instance_must_exist
    rw [hreg]
    dsimp only
    have hc' : ¬ (h != HANDLE_NIL && h != h) = true := by simp
    rw [if_neg hc']
  refine ⟨fun h1 h2 => ⟨?_, ?_⟩, ?_, ?_, ?_, ?_, ?_, ?_⟩
  · unfold unregister_instance_w_timestamp
    rw [(instance_must_exist_registered s k h h' true hreg).1 h1 h2]
    rfl
  · unfold dispose_w_timestamp
    rw [if_neg hsec', (instance_must_exist_registered s k h h' false hreg).1 h1 h2]
    rfl
  · unfold unregister_instance_w_timestamp
    rw [hk0]
    rfl
  · unfold dispose_w_timestamp
    rw [if_neg hsec', hk0]
    rfl
  · unfold unregister_instance_w_timestamp
    rw [hnil.2.2, hself]
    rfl
  · unfold unregister_instance_w_timestamp
    rw [hnil.2.2]
  · unfold dispose_w_timestamp
    rw [if_neg hsec', hnil'.2.2, hself]
    rfl
  · unfold dispose_w_timestamp
    rw [if_neg hsec', hnil'.2.2, if_neg hsec']

/-- On the writer where key 1 is registered with handle 7, unregistering or
disposing key 1 with handle 8 is refused with RETCODE_PRECONDITION_NOT_MET and
the writer stays as it was; key 2 is not registered and gives RETCODE_ERROR. -/
theorem handle_sample_mismatch_rejected_witness :
    unregister_instance_w_timestamp (accepting_env (some active_publisher) 2)
        registered_writer 1 8 { sec := 0, nanosec := 0 }
        = (RETCODE_PRECONDITION_NOT_MET, registered_writer)
      ∧ dispose_w_timestamp (accepting_env (some active_publisher) 2)
        registered_writer 1 8 { sec := 0, nanosec := 0 }
        = (RETCODE_PRECONDITION_NOT_MET, registered_writer)
      ∧ unregister_instance_w_timestamp (accepting_env (some active_publisher) 2)
        registered_writer 2 8 { sec := 0, nanosec := 0 }
        = (RETCODE_ERROR, registered_writer) :=
  ⟨((handle_sample_mismatch_rejected (accepting_env (some active_publisher) 2)
      registered_writer 1 2 7 8 { sec := 0, nanosec := 0 } (by decide) (by decide)
      rfl).1 (by decide) (by decide)).1,
    ((handle_sample_mismatch_rejected (accepting_env (some active_publisher) 2)
      registered_writer 1 2 7 8 { sec := 0, nanosec := 0 } (by decide) (by decide)
      rfl).1 (by decide) (by decide)).2,
    (handle_sample_mismatch_rejected (accepting_env (some active_publisher) 2)
      registered_writer 1 2 7 8 { sec := 0, nanosec := 0 } (by decide) (by decide)
      rfl).2.1⟩

/-- The counter and the reader table left by `create_control_message` for a
kind that takes a sequence number. -/
theorem create_control_message_consumed (env : Env) (s : DataWriterImpl)
    (message_id : MessageId) (hd : DataSampleHeader) (data : Option Message_Block)
    (ts : Time_t) (hk : consumes_sequence message_id = true) :
    (env.publisher = none →
        (create_control_message env s message_id hd data ts).state.sequence_number_
            = s.sequence_number_
          ∧ (create_control_message env s message_id hd data ts).state.reader_info_
            = s.reader_info_)
      ∧ (env.publisher.isSome = true →
        (create_control_message env s message_id hd data ts).state.sequence_number_
            = s.sequence_number_ + 1
          ∧ (create_control_message env s message_id hd data ts).state.reader_info_
            = s.reader_info_.map (fun reader =>
                (reader.1,
                  { reader.2 with expected_sequence_ := s.sequence_number_ + 1 }))) := by
  refine ⟨fun hp => ?_, fun hp => ?_⟩
  · rw [(create_control_message_plain env s message_id hd data ts (Or.inr hp)).1]
    exact ⟨rfl, rfl⟩
  · cases hpe : env.publisher with
    | none => rw [hpe] at hp; cases hp
    | some p =>
      rw [(create_control_message_consuming env s message_id hd data ts p hpe hk).2.2.2.1]
      exact ⟨rfl, rfl⟩

/-- The common tail of the control operations: after a run of container calls
that leave the counter and the reader table alone, the buffer is requested,
the message is stamped, and the element is enqueued or released. -/
theorem control_tail_failure_effect (env : Env) (s s1 : DataWriterImpl)
    (message_id : MessageId) (data : Option Message_Block) (ts : Time_t)
    (ret : ReturnCode_t) (s' : DataWriterImpl) (ok : ReturnCode_t × DataWriterImpl)
    (hk : consumes_sequence message_id = true)
    (hq : s1.sequence_number_ = s.sequence_number_) (hri : s1.reader_info_ = s.reader_info_)
    (hres : (ret, s')
      = (if (env.obtain_buffer_for_control.1 != RETCODE_OK) = true then
          (env.obtain_buffer_for_control.1, s1.log Event.obtain_buffer_for_control)
        else
          if (env.enqueue_control != RETCODE_OK) = true then
            (env.enqueue_control,
              ((create_control_message env (s1.log Event.obtain_buffer_for_control)
                  message_id env.obtain_buffer_for_control.2.header data ts).state.log
                (Event.enqueue_control
                  { env.obtain_buffer_for_control.2 with
                    header := (create_control_message env
                      (s1.log Event.obtain_buffer_for_control) message_id
                      env.obtain_buffer_for_control.2.header data ts).header_data
                    sample := (create_control_message env
                      (s1.log Event.obtain_buffer_for_control) message_id
                      env.obtain_buffer_for_control.2.header data ts).message })).log
                (Event.release_buffer
                  { env.obtain_buffer_for_control.2 with
                    header := (create_control_message env
                      (s1.log Event.obtain_buffer_for_control) message_id
                      env.obtain_buffer_for_control.2.header data ts).header_data
                    sample := (create_control_message env
                      (s1.log Event.obtain_buffer_for_control) message_id
                      env.obtain_buffer_for_control.2.header data ts).message }))
          else ok)) :
    control_failure_effect env s ret s' := by
  obtain ⟨hn, hs⟩ := create_control_message_consumed env
    (s1.log Event.obtain_buffer_for_control) message_id
    env.obtain_buffer_for_control.2.header data ts hk
  generalize create_control_message env (s1.log Event.obtain_buffer_for_control)
    message_id env.obtain_buffer_for_control.2.header data ts = c at hres hn hs
  unfold control_failure_effect
  refine ⟨fun hb => ?_, fun hb he => ?_⟩
  · have c1 : (env.obtain_buffer_for_control.1 != RETCODE_OK) = true := by simp [hb]
    rw [if_pos c1] at hres
    obtain ⟨rfl, rfl⟩ := Prod.mk.inj hres
    exact ⟨rfl, hq, hri⟩
  · have c1 : ¬ (env.obtain_buffer_for_control.1 != RETCODE_OK) = true := by simp [hb]
    have c2 : (env.enqueue_control != RETCODE_OK) = true := by simp [he]
    rw [if_neg c1, if_pos c2] at hres
    obtain ⟨rfl, rfl⟩ := Prod.mk.inj hres
    refine ⟨rfl,
      ⟨{ env.obtain_buffer_for_control.2 with header := c.header_data, sample := c.message },
        ?_⟩, fun hp => ?_, fun hp => ?_⟩
    · simp only [log_trace, List.getLast?_append, List.getLast?_singleton]
      rfl
    · rw [log_sequence_number, log_sequence_number, log_reader_info, log_reader_info,
        (hn hp).1, (hn hp).2]
      exact ⟨hq, hri⟩
    · rw [log_sequence_number, log_sequence_number, log_reader_info, log_reader_info,
        (hs hp).1, (hs hp).2]
      exact ⟨congrArg (· + 1) hq, by rw [log_reader_info, log_sequence_number, hq, hri]⟩

/-- C12, refuted as stated.  The writer's counter is 5 and its only reader's
cursor is 5.  With the container refusing the control element
(`enqueue_control` returns RETCODE_ERROR), `send_request_ack` and `dispose`
return RETCODE_ERROR, and afterwards the counter is 6 and the reader's cursor
is 6. -/
theorem control_failure_consumes_sequence :
    caught_up_writer.sequence_number_ = 5
      ∧ caught_up_writer.reader_info_.map (fun it => (it.1, it.2.expected_sequence_))
        = [(1, 5)]
      ∧ (send_request_ack refusing_env caught_up_writer).ret = RETCODE_ERROR
      ∧ (send_request_ack refusing_env caught_up_writer).state.sequence_number_ = 6
      ∧ (send_request_ack refusing_env caught_up_writer).state.reader_info_.map
          (fun it => (it.1, it.2.expected_sequence_)) = [(1, 6)]
      ∧ (dispose refusing_env caught_up_writer 7 { sec := 0, nanosec := 0 }).1
        = RETCODE_ERROR
      ∧ (dispose refusing_env caught_up_writer 7
          { sec := 0, nanosec := 0 }).2.sequence_number_ = 6
      ∧ (dispose refusing_env caught_up_writer 7
          { sec := 0, nanosec := 0 }).2.reader_info_.map
          (fun it => (it.1, it.2.expected_sequence_)) = [(1, 6)] := by
  decide

/-- C12, amended.  For each of `send_request_ack`, `register_instance_i`,
`unregister_instance_i`, `dispose_and_unregister` and `dispose`, once the
steps before the buffer request have passed: if `obtain_buffer_for_control`
fails, the operation returns its code and the counter and every reader's
cursor are as before the call; if the buffer is granted and `enqueue_control`
fails, the operation returns its code and releases the element, and the
stamping already done by `create_control_message` stays: with the publisher
present the counter is one above its value before the call and every reader's
cursor equals it, with the publisher absent both are as before the call. -/
theorem control_failure_returns_code (env : Env) (s : DataWriterImpl)
    (handle : InstanceHandle_t) (data : Message_Block) (ts : Time_t) :
    control_failure_effect env s (send_request_ack env s).ret (send_request_ack env s).state
      ∧ (s.enabled_ = true → (env.register_instance handle).1 = RETCODE_OK →
          control_failure_effect env s (register_instance_i env s handle data ts).ret
            (register_instance_i env s handle data ts).state)
      ∧ (s.enabled_ = true → s.autodispose_unregistered_instances = false →
          (env.container_unregister none true).1 = RETCODE_OK →
          control_failure_effect env s (unregister_instance_i env s handle ts).1
            (unregister_instance_i env s handle ts).2)
      ∧ (s.enabled_ = true → s.autodispose_unregistered_instances = true →
          env.container_dispose.1 = RETCODE_OK →
          (env.container_unregister env.container_dispose.2 false).1 = RETCODE_OK →
          control_failure_effect env s (unregister_instance_i env s handle ts).1
            (unregister_instance_i env s handle ts).2)
      ∧ (env.container_dispose.1 = RETCODE_OK →
          (env.container_unregister env.container_dispose.2 false).1 = RETCODE_OK →
          control_failure_effect env s (dispose_and_unregister env s handle ts).1
            (dispose_and_unregister env s handle ts).2)
      ∧ (s.enabled_ = true → env.container_dispose.1 = RETCODE_OK →
          control_failure_effect env s (dispose env s handle ts).1
            (dispose env s handle ts).2) := by
  have hdu : env.container_dispose.1 = RETCODE_OK →
      (env.container_unregister env.container_dispose.2 false).1 = RETCODE_OK →
      control_failure_effect env s (dispose_and_unregister env s handle ts).1
        (dispose_and_unregister env s handle ts).2 := by
    intro hdi hun
    refine control_tail_failure_effect env s
      ((s.log (Event.container_dispose handle)).log
        (Event.container_unregister handle false))
      DISPOSE_UNREGISTER_INSTANCE (env.container_unregister env.container_dispose.2 false).2
      ts _ _ (dispose_and_unregister env s handle ts) rfl rfl rfl ?_
    have c1 : ¬ (env.container_dispose.1 != RETCODE_OK) = true := by simp [hdi]
    have c2 : ¬ ((env.container_unregister env.container_dispose.2 false).1
        != RETCODE_OK) = true := by simp [hun]
    unfold dispose_and_unregister
    dsimp only
    rw [if_neg c1, if_neg c2]
    split_ifs <;> rfl
  refine ⟨?_, fun hen hreg => ?_, fun hen hauto hun => ?_, fun hen hauto hdi hun => ?_, hdu,
    fun hen hdi => ?_⟩
  · refine control_tail_failure_effect env s s REQUEST_ACK none env.system_now _ _
      (RETCODE_OK, (send_request_ack env s).state) rfl rfl rfl ?_
    unfold send_request_ack
    dsimp only
    split_ifs <;> rfl
  · refine control_tail_failure_effect env s (s.log (Event.register_instance handle data))
      INSTANCE_REGISTRATION (some data) ts _ _
      ((register_instance_i env s handle data ts).ret,
        (register_instance_i env s handle data ts).state) rfl rfl rfl ?_
    have c1 : ¬ (!s.enabled_) = true := by simp [hen]
    have c2 : ¬ ((env.register_instance handle).1 != RETCODE_OK) = true := by simp [hreg]
    unfold register_instance_i
    dsimp only
    rw [if_neg c1, if_neg c2]
    split_ifs <;> rfl
  · refine control_tail_failure_effect env s
      (s.log (Event.container_unregister handle true))
      UNREGISTER_INSTANCE (env.container_unregister none true).2 ts _ _
      (unregister_instance_i env s handle ts) rfl rfl rfl ?_
    have c1 : ¬ (!s.enabled_) = true := by simp [hen]
    have c2 : ¬ s.autodispose_unregistered_instances = true := by simp [hauto]
    have c3 : ¬ ((env.container_unregister none true).1 != RETCODE_OK) = true := by
      simp [hun]
    unfold unregister_instance_i
    dsimp only
    rw [if_neg c1, if_neg c2, if_neg c3]
    split_ifs <;> rfl
  · have c1 : ¬ (!s.enabled_) = true := by simp [hen]
    have heq : unregister_instance_i env s handle ts
        = dispose_and_unregister env s handle ts := by
      unfold unregister_instance_i
      rw [if_neg c1, if_pos hauto]
    rw [heq]
    exact hdu hdi hun
  · refine control_tail_failure_effect env s (s.log (Event.container_dispose handle))
      DISPOSE_INSTANCE env.container_dispose.2 ts _ _ (dispose env s handle ts)
      rfl rfl rfl ?_
    have c1 : ¬ (!s.enabled_) = true := by simp [hen]
    have c2 : ¬ (env.container_dispose.1 != RETCODE_OK) = true := by simp [hdi]
    unfold dispose
    dsimp only
    rw [if_neg c1, if_neg c2]
    split_ifs <;> rfl

/-- With the container refusing the control element, `send_request_ack` on the
writer whose counter is 5 returns the container's code and leaves the counter
one above; with no buffer for the control element it returns the container's
code and leaves the counter as it was. -/
theorem control_failure_returns_code_witness :
    (send_request_ack refusing_env caught_up_writer).ret = refusing_env.enqueue_control
      ∧ (send_request_ack refusing_env caught_up_writer).state.sequence_number_
        = caught_up_writer.sequence_number_ + 1
      ∧ (send_request_ack no_control_buffer_env caught_up_writer).ret
        = no_control_buffer_env.obtain_buffer_for_control.1
      ∧ (send_request_ack no_control_buffer_env caught_up_writer).state.sequence_number_
        = caught_up_writer.sequence_number_ := by
  have h1 := (control_failure_returns_code refusing_env caught_up_writer 7
    { total_length := 4, content := BlockContent.sample [1] } { sec := 0, nanosec := 0 }).1
  have h2 := (control_failure_returns_code no_control_buffer_env caught_up_writer 7
    { total_length := 4, content := BlockContent.sample [1] } { sec := 0, nanosec := 0 }).1
  unfold control_failure_effect at h1 h2
  obtain ⟨a1, _, _, a4⟩ := h1.2 (by decide) (by decide)
  obtain ⟨b1, b2, _⟩ := h2.1 (by decide)
  exact ⟨a1, (a4 rfl).1, b1, b2⟩

/-- C13, the code at the failing input.  Key 1 is registered with handle 7:
`lookup_instance` gives 7 and `get_key_value` of 7 succeeds.
`unregister_instance_w_timestamp` of key 1 with handle 7, with no buffer for
the control element, returns RETCODE_ERROR; afterwards `lookup_instance` of
key 1 gives HANDLE_NIL and `get_key_value` of 7 fails with
RETCODE_BAD_PARAMETER: `instance_must_exist` has erased the entry before
`unregister_instance_i` failed.  The same happens when the container refuses
the control element. -/
theorem unregister_failure_erases_registration :
    lookup_instance registered_writer 1 = 7
      ∧ get_key_value registered_writer 7 = (RETCODE_OK, some 1)
      ∧ (unregister_instance_w_timestamp no_control_buffer_env registered_writer 1 7
          { sec := 0, nanosec := 0 }).1 = RETCODE_ERROR
      ∧ lookup_instance
          (unregister_instance_w_timestamp no_control_buffer_env registered_writer 1 7
            { sec := 0, nanosec := 0 }).2 1 = HANDLE_NIL
      ∧ get_key_value
          (unregister_instance_w_timestamp no_control_buffer_env registered_writer 1 7
            { sec := 0, nanosec := 0 }).2 7 = (RETCODE_BAD_PARAMETER, none)
      ∧ (unregister_instance_w_timestamp refusing_env registered_writer 1 7
          { sec := 0, nanosec := 0 }).1 = RETCODE_ERROR
      ∧ lookup_instance
          (unregister_instance_w_timestamp refusing_env registered_writer 1 7
            { sec := 0, nanosec := 0 }).2 1 = HANDLE_NIL := by
  decide

/-! ### Control messages by kind -/

/-- The block and header `create_control_message` builds without data: the
length field keeps the value it had and nothing is chained to the block. -/
theorem create_control_message_no_data (env : Env) (s : DataWriterImpl)
    (message_id : MessageId) (hd : DataSampleHeader) (ts : Time_t) (p : PublisherImpl)
    (hp : env.publisher = some p) :
    (create_control_message env s message_id hd none ts).header_data.message_length_
        = hd.message_length_
      ∧ (create_control_message env s message_id hd none ts).message
        = some { header := (create_control_message env s message_id hd none ts).header_data
                 cont := none } := by
  unfold create_control_message
  simp only [hp]
  refine ⟨?_, ?_⟩
  · split_ifs <;> rfl
  · simp only [ite_self]

/-- C21: with the publisher present, `create_control_message` takes a sequence
number exactly for the kinds INSTANCE_REGISTRATION, DISPOSE_INSTANCE,
UNREGISTER_INSTANCE, DISPOSE_UNREGISTER_INSTANCE and REQUEST_ACK: for these the
counter advances by one and the header carries the new number; for every other
kind the writer (counter and every reader cursor) is unchanged and the header
carries SEQUENCENUMBER_UNKNOWN with the repair flag false.  The REQUEST_ACK
element built by `send_request_ack` has nothing chained to its block and its
length field is the one the container's element came with. -/
theorem control_message_consumes_sequence_by_kind (env : Env) (s : DataWriterImpl)
    (message_id : MessageId) (hd : DataSampleHeader) (data : Option Message_Block)
    (ts : Time_t) (p : PublisherImpl) (hp : env.publisher = some p) :
    ((message_id = INSTANCE_REGISTRATION ∨ message_id = DISPOSE_INSTANCE
          ∨ message_id = UNREGISTER_INSTANCE ∨ message_id = DISPOSE_UNREGISTER_INSTANCE
          ∨ message_id = REQUEST_ACK) →
        (create_control_message env s message_id hd data ts).state.sequence_number_
            = s.sequence_number_ + 1
          ∧ (create_control_message env s message_id hd data ts).header_data.sequence_
            = s.sequence_number_ + 1)
      ∧ (¬ (message_id = INSTANCE_REGISTRATION ∨ message_id = DISPOSE_INSTANCE
          ∨ message_id = UNREGISTER_INSTANCE ∨ message_id = DISPOSE_UNREGISTER_INSTANCE
          ∨ message_id = REQUEST_ACK) →
        (create_control_message env s message_id hd data ts).state = s
          ∧ (create_control_message env s message_id hd data ts).header_data.sequence_
            = SEQUENCENUMBER_UNKNOWN
          ∧ (create_control_message env s message_id hd data ts).header_data.sequence_repair_
            = false)
      ∧ (env.obtain_buffer_for_control.1 = RETCODE_OK →
        ∃ element block, (send_request_ack env s).element = some element
          ∧ element.sample = some block
          ∧ block.cont = none
          ∧ block.header = element.header
          ∧ element.header.message_id_ = REQUEST_ACK
          ∧ element.header.sequence_ = s.sequence_number_ + 1
          ∧ element.header.message_length_
            = env.obtain_buffer_for_control.2.header.message_length_) := by
  refine ⟨fun hk => ?_, fun hk => ?_, fun hb => ?_⟩
  · have hc : consumes_sequence message_id = true := by
      rcases hk with h | h | h | h | h <;> rw [h] <;> rfl
    obtain ⟨h1, -, -, h4, -⟩ := create_control_message_consuming env s message_id hd data ts p hp hc
    exact ⟨by rw [h4], h1⟩
  · have hc : consumes_sequence message_id = false := by
      cases message_id <;> first | rfl | exact absurd (by simp) hk
    obtain ⟨h1, h2, h3, -⟩ := create_control_message_plain env s message_id hd data ts (Or.inl hc)
    exact ⟨h1, h2, h3⟩
  · obtain ⟨h1, h2⟩ := create_control_message_no_data env
      (s.log Event.obtain_buffer_for_control) REQUEST_ACK
      env.obtain_buffer_for_control.2.header env.system_now p hp
    obtain ⟨h3, -, h5, -, -⟩ := create_control_message_consuming env
      (s.log Event.obtain_buffer_for_control) REQUEST_ACK
      env.obtain_buffer_for_control.2.header none env.system_now p hp rfl
    have he : (send_request_ack env s).element = some (request_ack_element env s) := by
      unfold send_request_ack request_ack_element
      simp only [hb, ne_eq, not_true_eq_false, bne_self_eq_false, Bool.false_eq_true, if_false]
      split_ifs <;> rfl
    refine ⟨request_ack_element env s,
      { header := (create_control_message env (s.log Event.obtain_buffer_for_control)
          REQUEST_ACK env.obtain_buffer_for_control.2.header none env.system_now).header_data
        cont := none }, he, ?_, ?_, ?_, ?_, ?_, ?_⟩
    · unfold request_ack_element
      exact h2
    · rfl
    · rfl
    · exact h5
    · exact h3
    · exact h1

/-- On a fresh writer with an active publisher a REQUEST_ACK moves the counter
from 0 to 1 and is stamped 1. -/
theorem control_message_consumes_sequence_by_kind_witness :
    (create_control_message (accepting_env (some active_publisher) 0) fresh_writer
        REQUEST_ACK clear_header none { sec := 0, nanosec := 0 }).state.sequence_number_ = 1
      ∧ (create_control_message (accepting_env (some active_publisher) 0) fresh_writer
        REQUEST_ACK clear_header none { sec := 0, nanosec := 0 }).header_data.sequence_ = 1 :=
  (control_message_consumes_sequence_by_kind (accepting_env (some active_publisher) 0)
    fresh_writer REQUEST_ACK clear_header none { sec := 0, nanosec := 0 }
    active_publisher rfl).1 (Or.inr (Or.inr (Or.inr (Or.inr rfl))))

/-! ### Reader acks at association -/

/-- The calls made by `replay`: the re-staging, the fetch of the resend list,
and then only calls on the control tracker and the transport. -/
theorem replay_calls (env : Env) (s : DataWriterImpl) (r : GUID_t) :
    ∃ rest, (replay env s r).trace
        = s.trace ++ Event.reenqueue_all r :: Event.get_resend_data :: rest
      ∧ ∀ e ∈ rest, (e = Event.message_sent ∨ e = Event.message_dropped
          ∨ ∃ list header msg, e = Event.send_w_control list header msg r) := by
  have hst : (replay_stage env s r).2.trace
      = s.trace ++ [Event.reenqueue_all r, Event.get_resend_data] := by
    simp [replay_stage, DataWriterImpl.log]
  unfold replay
  simp only []
  have hc := (create_control_message_plain env (replay_stage env s r).2
      END_HISTORIC_SAMPLES env.new_header
      (some { total_length := env.serialized_size (BlockContent.reader_id r)
              content := BlockContent.reader_id r }) env.system_now (Or.inl rfl)).1
  split
  · exact ⟨[], hst, by simp⟩
  · split
    · exact ⟨[Event.message_sent, Event.send_w_control _ _ _ r, Event.message_dropped],
        by simp only [log_trace, hc, hst, List.append_assoc]; rfl, by simp⟩
    · exact ⟨[Event.message_sent, Event.send_w_control _ _ _ r],
        by simp only [log_trace, hc, hst, List.append_assoc]; rfl, by simp⟩

/-- C22: for a built-in-topic writer, or with the participant alive, the calls
`association_complete_i` makes for reader `r` start with `add_reader_acks` for
`r` seeded with the current `get_max_sn()`; no later call of the same run is an
`add_reader_acks`, and when the replay runs its re-staging comes later. -/
theorem association_adds_reader_acks_once (env : Env) (s : DataWriterImpl) (r : GUID_t)
    (h : s.is_bit_ = true ∨ env.participant.isSome = true) :
    ∃ rest, (association_complete_i env s r).trace
        = s.trace ++ Event.add_reader_acks r (get_max_sn s) :: rest
      ∧ (∀ e ∈ rest, ∀ id sn, e ≠ Event.add_reader_acks id sn)
      ∧ (((association_matched env s r).1 && reader_durable s r) = true →
          Event.reenqueue_all r ∈ rest) := by
  obtain ⟨rest, hr, hrest⟩ := (association_matched_frame env s r).2.2.2 h
  have hno : ∀ e ∈ rest, ∀ id sn, e ≠ Event.add_reader_acks id sn := by
    intro e he id sn heq
    subst heq
    rcases hrest _ he with h1 | h1 | h1 | ⟨st, h1⟩ <;> cases h1
  unfold association_complete_i
  simp only [get_max_sn]
  by_cases hd : ((association_matched env s r).1 && reader_durable s r) = true
  · rw [if_pos hd]
    obtain ⟨rest1, hr1, hrest1⟩ := replay_calls env (association_matched env s r).2 r
    refine ⟨rest ++ Event.reenqueue_all r :: Event.get_resend_data :: rest1,
      by rw [hr1, hr]; simp, ?_, fun _ => by simp⟩
    intro e he id sn heq
    subst heq
    rcases List.mem_append.1 he with h1 | h1
    · exact hno _ h1 id sn rfl
    · rcases List.mem_cons.1 h1 with h2 | h2
      · cases h2
      · rcases List.mem_cons.1 h2 with h3 | h3
        · cases h3
        · rcases hrest1 _ h3 with h4 | h4 | ⟨_, _, _, h4⟩ <;> cases h4
  · rw [if_neg hd]
    exact ⟨rest, hr, hno, fun hc => absurd hc hd⟩

/-- Completing durable reader 9 on the writer with three samples: the first
call is `add_reader_acks 9 3`. -/
theorem association_adds_reader_acks_once_witness :
    ∃ rest, (association_complete_i (replay_env (some active_publisher))
          durable_matched_writer 9).trace
        = durable_matched_writer.trace ++ Event.add_reader_acks 9 3 :: rest
      ∧ Event.reenqueue_all 9 ∈ rest := by
  obtain ⟨rest, h1, _, h3⟩ := association_adds_reader_acks_once
    (replay_env (some active_publisher)) durable_matched_writer 9 (Or.inr rfl)
  exact ⟨rest, h1, h3 (by decide)⟩

/-! ### Removing a reader that never associated -/

/-- Erasing a key from a map leaves no value under it. -/
theorem lookup_map_erase_self {α β : Type} [BEq α] [LawfulBEq α] (m : List (α × β)) (k : α) :
    (map_erase m k).lookup k = none := by
  unfold map_erase
  induction m with
  | nil => rfl
  | cons p m ih =>
    by_cases h : p.1 == k
    · simp only [List.filter, h, Bool.not_true]
      exact ih
    · have h' : (k == p.1) = false := by
        rw [beq_eq_false_iff_ne]
        intro e
        exact h (by rw [e]; exact beq_self_eq_true _)
      simp only [List.filter, h, Bool.not_false, List.lookup, h']
      exact ih

/-- The first loop of `remove_associations` on one reader that is recorded but
not in `readers_`. -/
theorem remove_readers_unassociated (env : Env) (s : DataWriterImpl) (id : GUID_t)
    (info : ReaderInfo) (hinfo : s.reader_info_.lookup id = some info)
    (hnot : id ∉ s.readers_) :
    (remove_readers env [id] s).1 = []
      ∧ (remove_readers env [id] s).2.readers_ = s.readers_
      ∧ (remove_readers env [id] s).2.reader_info_ = map_erase s.reader_info_ id
      ∧ (remove_readers env [id] s).2.trace
        = s.trace ++ Event.remove_reader_acks id
          :: (if env.participant.isSome && info.filter_ != "" then
              [Event.deref_filter_eval info.filter_] else [])
      ∧ (remove_readers env [id] s).2.id_to_handle_map_ = s.id_to_handle_map_
      ∧ (remove_readers env [id] s).2.publication_match_status_
        = s.publication_match_status_
      ∧ (remove_readers env [id] s).2.is_bit_ = s.is_bit_ := by
  have hc : s.readers_.contains id = false := by
    simpa using hnot
  simp only [remove_readers, set_remove, hc, Bool.false_eq_true, if_false, erase_reader_info,
    DataWriterImpl.log, hinfo]
  cases hp : env.participant with
  | none => simp
  | some p =>
    by_cases hf : (info.filter_ != "") = true
    · simp [hf]
    · simp [hf]

/-- C23: in a reachable state, `remove_associations` on one reader that has a
record in `reader_info_` but is not in `readers_` runs to its end; it leaves
`readers_`, `id_to_handle_map_`, `total_count` and `current_count` as they were,
its only calls are `stop_associating`, `remove_reader_acks` and (with the
participant alive and a filter recorded) `deref_filter_eval`, so no matched
status is notified; and the reader's record is erased from `reader_info_`. -/
theorem remove_unassociated_reader_erases_record (P : Env → DataWriterImpl → Prop)
    (env : Env) (s : DataWriterImpl) (id : GUID_t) (notify_lost : Bool) (info : ReaderInfo)
    (hreach : Reachable P s)
    (hinfo : s.reader_info_.lookup id = some info)
    (hnot : id ∉ s.readers_) :
    ∃ s', remove_associations env s [id] notify_lost = some s'
      ∧ s'.readers_ = s.readers_
      ∧ s'.id_to_handle_map_ = s.id_to_handle_map_
      ∧ s'.publication_match_status_.total_count = s.publication_match_status_.total_count
      ∧ s'.publication_match_status_.current_count
        = s.publication_match_status_.current_count
      ∧ s'.trace = s.trace ++ Event.stop_associating [id] :: Event.remove_reader_acks id
          :: (if env.participant.isSome && info.filter_ != "" then
              [Event.deref_filter_eval info.filter_] else [])
      ∧ s'.reader_info_ = map_erase s.reader_info_ id
      ∧ s'.reader_info_.lookup id = none := by
  have hm : matched_count_consistent s := (reachable_counts P s hreach).2
  unfold matched_count_consistent at hm
  obtain ⟨h1, h2, h3, h4, h5, h6, h7⟩ := remove_readers_unassociated env
    (s.log (Event.stop_associating [id])) id info hinfo hnot
  generalize hr : remove_readers env [id] (s.log (Event.stop_associating [id])) = removed
    at h1 h2 h3 h4 h5 h6 h7
  obtain ⟨fully, r⟩ := removed
  dsimp only at h1 h2 h3 h4 h5 h6 h7
  subst h1
  have hchange : ((r.id_to_handle_map_.length : Int)
      - r.publication_match_status_.current_count != 0) = false := by
    rw [h5, h6]
    simp only [DataWriterImpl.log, hm, sub_self, bne_self_eq_false]
  have hra : remove_associations env s [id] notify_lost
      = some (if r.is_bit_ then r else
          { r with
            publication_match_status_ :=
              { r.publication_match_status_ with
                current_count_change :=
                  (r.id_to_handle_map_.length : Int)
                    - r.publication_match_status_.current_count } }) := by
    unfold remove_associations publication_unmatched
    simp only [hr, List.length_cons, List.length_nil]
    cases hb : r.is_bit_ with
    | true => cases env.participant <;> simp [hb]
    | false => cases env.participant <;> simp [hb, hchange]
  refine ⟨_, hra, ?_⟩
  have hl : (map_erase s.reader_info_ id).lookup id = none := lookup_map_erase_self _ _
  cases hb : r.is_bit_ with
  | true =>
    simp only [if_true]
    exact ⟨h2, h5, by rw [h6]; rfl, by rw [h6]; rfl, by rw [h4]; simp [DataWriterImpl.log],
      h3, by rw [h3]; exact hl⟩
  | false =>
    simp only [Bool.false_eq_true, if_false]
    exact ⟨h2, h5, by rw [h6]; rfl, by rw [h6]; rfl, by rw [h4]; simp [DataWriterImpl.log],
      h3, by rw [h3]; exact hl⟩

/-- Removing reader 1, recorded with a filter but never associated: the record
goes, the evaluator is released, and `readers_` stays empty. -/
theorem remove_unassociated_reader_erases_record_witness :
    ∃ s', remove_associations (accepting_env (some active_publisher) 0)
          pending_reader_writer [1] false = some s'
      ∧ s'.readers_ = pending_reader_writer.readers_
      ∧ s'.trace = pending_reader_writer.trace ++ [Event.stop_associating [1],
          Event.remove_reader_acks 1, Event.deref_filter_eval "x > 1"]
      ∧ s'.reader_info_.lookup 1 = none := by
  have hreach : Reachable any_answers pending_reader_writer :=
    Reachable.step _ _ (fresh_writer_reachable any_answers)
      (Step.add_association (accepting_env (some active_publisher) 0) fresh_writer
        { volatile_reader 1 with filterExpression := "x > 1" } true)
  obtain ⟨s', h1, h2, _, _, _, h6, _, h8⟩ := remove_unassociated_reader_erases_record
    any_answers (accepting_env (some active_publisher) 0) pending_reader_writer 1 false
    (ReaderInfo.ctor (accepting_env (some active_publisher) 0) "" "x > 1" [] false)
    hreach rfl (by decide)
  exact ⟨s', h1, h2, h6, h8⟩

/-! ### The assert task -/

/-- `send_liveliness` leaves the send interval alone. -/
theorem send_liveliness_interval (env : Env) (s : DataWriterImpl) (now : MonotonicTimePoint) :
    (send_liveliness env s now).2.liveliness_send_interval_ = s.liveliness_send_interval_ := by
  unfold send_liveliness send_control
  dsimp only [DataWriterImpl.log]
  rcases create_control_message_state env s DATAWRITER_LIVELINESS env.new_header none
    env.system_now with h | h <;>
  · split_ifs <;> simp only [h]

/-- `send_liveliness` reports success when the control message was not needed
(the kind is not MANUAL_BY_TOPIC and discovery provides liveliness) or the
transport did not answer SEND_CONTROL_ERROR. -/
theorem send_liveliness_succeeds (env : Env) (s : DataWriterImpl) (now : MonotonicTimePoint)
    (h : (s.liveliness_kind ≠ MANUAL_BY_TOPIC_LIVELINESS_QOS ∧ env.supports_liveliness = true)
      ∨ env.send_control ≠ SEND_CONTROL_ERROR) :
    (send_liveliness env s now).1 = true := by
  unfold send_liveliness send_control
  dsimp only [DataWriterImpl.log]
  by_cases hc : (s.liveliness_kind == MANUAL_BY_TOPIC_LIVELINESS_QOS
      || !env.supports_liveliness) = true
  · rw [if_pos hc]
    have he : env.send_control ≠ SEND_CONTROL_ERROR := by
      rcases h with ⟨h1, h2⟩ | h
      · simp [h1, h2] at hc
      · exact h
    have hb : (env.send_control != SEND_CONTROL_ERROR) = true := by simpa using he
    split_ifs <;> simp_all
  · rw [if_neg hc]
    simp

/-- C24: the assert task.  With `elapsed = now - last_liveliness_activity_time_`:
when `elapsed < liveliness_send_interval_` the task makes one call, the
rescheduling after `liveliness_send_interval_ - elapsed`, and every member keeps
its value; otherwise the task is `send_liveliness(now)` followed by the
rescheduling after the full `liveliness_send_interval_`, and when the send
succeeds or discovery provides liveliness the activity time is `now` and the
lost flag is false afterwards. -/
theorem liveliness_send_task_sends_or_waits (env : Env) (s : DataWriterImpl)
    (now : MonotonicTimePoint) :
    (now - s.last_liveliness_activity_time_ < s.liveliness_send_interval_ →
        (liveliness_send_task env s now).trace
            = s.trace ++ [Event.schedule_liveliness_send
                (s.liveliness_send_interval_ - (now - s.last_liveliness_activity_time_))]
          ∧ { liveliness_send_task env s now with trace := s.trace } = s)
      ∧ (¬ now - s.last_liveliness_activity_time_ < s.liveliness_send_interval_ →
        liveliness_send_task env s now
            = (send_liveliness env s now).2.log
                (Event.schedule_liveliness_send s.liveliness_send_interval_)
          ∧ (((s.liveliness_kind ≠ MANUAL_BY_TOPIC_LIVELINESS_QOS
                  ∧ env.supports_liveliness = true)
                ∨ env.send_control ≠ SEND_CONTROL_ERROR) →
              (liveliness_send_task env s now).last_liveliness_activity_time_ = now
                ∧ (liveliness_send_task env s now).liveliness_lost_ = false)) := by
  refine ⟨fun h => ?_, fun h => ?_⟩
  · unfold liveliness_send_task
    dsimp only
    rw [if_pos h]
    exact ⟨rfl, rfl⟩
  · have he : liveliness_send_task env s now
        = (send_liveliness env s now).2.log
            (Event.schedule_liveliness_send s.liveliness_send_interval_) := by
      unfold liveliness_send_task
      dsimp only
      rw [if_neg h, send_liveliness_interval]
    refine ⟨he, fun hs => ?_⟩
    obtain ⟨h1, h2, -⟩ := send_liveliness_ok env s now (send_liveliness_succeeds env s now hs)
    rw [he]
    exact ⟨h2, h1⟩

/-- On a fresh writer (interval 1000, last activity at 0) the task run at 400
only reschedules itself after 600; run at 1500 it records activity at 1500. -/
theorem liveliness_send_task_sends_or_waits_witness :
    (liveliness_send_task (accepting_env (some active_publisher) 0) fresh_writer 400).trace
        = [Event.schedule_liveliness_send 600]
      ∧ (liveliness_send_task (accepting_env (some active_publisher) 0) fresh_writer
          1500).last_liveliness_activity_time_ = 1500 :=
  ⟨((liveliness_send_task_sends_or_waits (accepting_env (some active_publisher) 0)
      fresh_writer 400).1 (by decide)).1,
    (((liveliness_send_task_sends_or_waits (accepting_env (some active_publisher) 0)
      fresh_writer 1500).2 (by decide)).2 (Or.inr (by decide))).1⟩

/-! ### Replay under suspension -/

/-- The bookkeeping part of `association_complete_i` leaves the suspended
transaction ids alone. -/
theorem association_matched_suspended_ids (env : Env) (s : DataWriterImpl) (r : GUID_t) :
    (association_matched env s r).2.min_suspended_transaction_id_
        = s.min_suspended_transaction_id_
      ∧ (association_matched env s r).2.max_suspended_transaction_id_
        = s.max_suspended_transaction_id_ := by
  unfold association_matched
  dsimp only [DataWriterImpl.log, get_max_sn]
  split
  · split
    · exact ⟨rfl, rfl⟩
    · split
      · exact ⟨rfl, rfl⟩
      · split <;> exact ⟨rfl, rfl⟩
  · exact ⟨rfl, rfl⟩

/-- With the publisher absent or suspended, `replay` makes only the two calls
on the container, appends the marked list to `available_data_list_`, raises the
reader's cursor and leaves the counter and the suspended transaction ids. -/
theorem replay_deferred (env : Env) (s : DataWriterImpl) (r : GUID_t)
    (hs : absent_or_suspended env = true) :
    (replay env s r).trace = s.trace ++ [Event.reenqueue_all r, Event.get_resend_data]
      ∧ (replay env s r).available_data_list_
        = s.available_data_list_ ++ env.get_resend_data.map set_historic
      ∧ (replay env s r).reader_info_.lookup r
        = (s.reader_info_.lookup r).map (fun info =>
            { info with
              expected_sequence_ :=
                ((env.get_resend_data.map (fun e => e.header.sequence_)).foldl max
                  info.expected_sequence_) })
      ∧ (replay env s r).sequence_number_ = s.sequence_number_
      ∧ (replay env s r).min_suspended_transaction_id_ = s.min_suspended_transaction_id_
      ∧ (replay env s r).max_suspended_transaction_id_ = s.max_suspended_transaction_id_ := by
  have hst1 : (replay_stage env s r).1 = env.get_resend_data.map set_historic := by
    simp only [replay_stage, mark_historic_eq]
  have hst2 : (replay_stage env s r).2.trace
      = s.trace ++ [Event.reenqueue_all r, Event.get_resend_data] := by
    simp only [replay_stage, DataWriterImpl.log, List.append_assoc]; rfl
  have hri : (replay_stage env s r).2.reader_info_.lookup r
      = (s.reader_info_.lookup r).map (fun info =>
          { info with
            expected_sequence_ :=
              ((env.get_resend_data.map (fun e => e.header.sequence_)).foldl max
                info.expected_sequence_) }) := by
    simp only [replay_stage, mark_historic_eq, DataWriterImpl.log]
    refine (lookup_map_update s.reader_info_ r (fun info =>
      { info with
        expected_sequence_ :=
          ((env.get_resend_data.map (fun e => e.header.sequence_)).foldl max
            (match s.reader_info_.lookup r with
              | some info => info.expected_sequence_
              | none => SEQUENCENUMBER_UNKNOWN)) })).trans ?_
    cases s.reader_info_.lookup r <;> rfl
  unfold replay
  dsimp only
  rw [if_pos hs]
  refine ⟨hst2, ?_, hri, ?_, ?_, ?_⟩
  · simp only [hst1]
    simp only [replay_stage, DataWriterImpl.log]
  · simp only [replay_stage, DataWriterImpl.log]
  · simp only [replay_stage, DataWriterImpl.log]
  · simp only [replay_stage, DataWriterImpl.log]

/-- What `send_suspended_data` does: the pending list goes to the transport
with the larger suspended transaction id when that is set, then with the
smaller one, and the list is emptied. -/
theorem send_suspended_data_spec (s : DataWriterImpl) :
    (send_suspended_data s).trace
        = s.trace
          ++ (if s.max_suspended_transaction_id_ ≠ 0
              then [Event.send s.available_data_list_ s.max_suspended_transaction_id_]
              else [])
          ++ [Event.send s.available_data_list_ s.min_suspended_transaction_id_]
      ∧ (send_suspended_data s).available_data_list_ = [] := by
  unfold send_suspended_data
  dsimp only [DataWriterImpl.log]
  refine ⟨?_, rfl⟩
  by_cases h : s.max_suspended_transaction_id_ = 0
  · simp [h]
  · simp [h]

/-- C25: when the association of a durable reader completes while the publisher
is absent or suspended, `association_complete_i` appends the whole re-staged
batch, every element marked historic and in order, to `available_data_list_`,
hands nothing to the transport and tells the control tracker of no message (no
END_HISTORIC_SAMPLES leaves), and raises the reader's cursor to the larger of
its old value and the largest re-staged sequence number.  The next
`send_suspended_data` hands the pending list, batch included, to the
transport's `send` under the suspended transaction ids, as it does for deferred
writes, and empties the list. -/
theorem suspended_replay_joins_pending_list (env : Env) (s : DataWriterImpl)
    (r : GUID_t) (info : ReaderInfo)
    (hpub : absent_or_suspended env = true)
    (hinfo : s.reader_info_.lookup r = some info)
    (hdur : info.durable_ = true)
    (hcomp : s.is_bit_ = true
      ∨ (env.participant.isSome = true ∧ s.id_to_handle_map_.lookup r = none)) :
    (association_complete_i env s r).available_data_list_
        = s.available_data_list_ ++ env.get_resend_data.map set_historic
      ∧ (∀ e ∈ env.get_resend_data.map set_historic, e.header.historic_sample_ = true)
      ∧ (∃ pre, (association_complete_i env s r).trace
            = s.trace ++ pre ++ [Event.reenqueue_all r, Event.get_resend_data]
          ∧ ∀ e ∈ pre, e.is_transport_send = false ∧ e ≠ Event.message_sent)
      ∧ ((association_complete_i env s r).reader_info_.lookup r).map
            (fun i => i.expected_sequence_)
          = some ((env.get_resend_data.map (fun e => e.header.sequence_)).foldl max
              info.expected_sequence_)
      ∧ (association_complete_i env s r).sequence_number_ = s.sequence_number_
      ∧ (send_suspended_data (association_complete_i env s r)).trace
          = (association_complete_i env s r).trace
            ++ (if s.max_suspended_transaction_id_ ≠ 0
                then [Event.send (s.available_data_list_
                    ++ env.get_resend_data.map set_historic) s.max_suspended_transaction_id_]
                else [])
            ++ [Event.send (s.available_data_list_ ++ env.get_resend_data.map set_historic)
                s.min_suspended_transaction_id_]
      ∧ (send_suspended_data (association_complete_i env s r)).available_data_list_ = [] := by
  obtain ⟨hri, hsn, hav, htr⟩ := association_matched_frame env s r
  obtain ⟨rest, hrest, hbook⟩ := htr (hcomp.imp id (fun h => h.1))
  obtain ⟨hmin, hmax⟩ := association_matched_suspended_ids env s r
  have hflag := association_matched_completes env s r hcomp
  have hd : reader_durable s r = true := by simp [reader_durable, hinfo, hdur]
  obtain ⟨h1, h2, h3, h4, h5, h6⟩ := replay_deferred env (association_matched env s r).2 r hpub
  have he : association_complete_i env s r = replay env (association_matched env s r).2 r := by
    unfold association_complete_i
    simp only [hflag, hd, Bool.and_self, if_true]
  obtain ⟨hs1, hs2⟩ := send_suspended_data_spec (association_complete_i env s r)
  have hlist : (association_complete_i env s r).available_data_list_
      = s.available_data_list_ ++ env.get_resend_data.map set_historic := by
    rw [he, h2, hav]
  refine ⟨hlist, ?_, ⟨Event.add_reader_acks r s.sequence_number_ :: rest, ?_, ?_⟩, ?_, ?_, ?_,
    hs2⟩
  · intro e he'
    obtain ⟨a, _, rfl⟩ := List.mem_map.1 he'
    rfl
  · rw [he, h1, hrest]
  · intro e he'
    rcases List.mem_cons.1 he' with h | h
    · subst h
      exact ⟨rfl, fun h => by cases h⟩
    · rcases hbook e h with h | h | h | ⟨st, h⟩ <;> subst h <;>
        exact ⟨rfl, fun h => by cases h⟩
  · rw [he, h3, hri, hinfo]
    rfl
  · rw [he, h4, hsn]
  · rw [hs1, hlist]
    have hmin' : (association_complete_i env s r).min_suspended_transaction_id_
        = s.min_suspended_transaction_id_ := by rw [he, h5, hmin]
    have hmax' : (association_complete_i env s r).max_suspended_transaction_id_
        = s.max_suspended_transaction_id_ := by rw [he, h6, hmax]
    rw [hmin', hmax']

/-- Completing durable reader 9 under a suspended publisher, on the writer
with three samples: the three re-staged elements join the pending list. -/
theorem suspended_replay_joins_pending_list_witness :
    (association_complete_i (replay_env (some suspended_publisher)) durable_matched_writer
        9).available_data_list_
      = durable_matched_writer.available_data_list_ ++ three_written.map set_historic :=
  (suspended_replay_joins_pending_list (replay_env (some suspended_publisher))
    durable_matched_writer 9
    (ReaderInfo.ctor (replay_env (some active_publisher)) "" "" [] true)
    rfl (by decide) rfl (Or.inr ⟨rfl, by decide⟩)).1

/-! ### Instance registry -/

/-- Erasing a key from a map leaves the values under the other keys. -/
theorem lookup_map_erase_other {α β : Type} [BEq α] [LawfulBEq α] (m : List (α × β))
    (k k' : α) (hk : k' ≠ k) : (map_erase m k).lookup k' = m.lookup k' := by
  unfold map_erase
  induction m with
  | nil => rfl
  | cons p m ih =>
    by_cases h : p.1 == k
    · have hp : p.1 = k := eq_of_beq h
      have h' : (k' == p.1) = false := by
        rw [beq_eq_false_iff_ne, hp]
        exact hk
      simp only [List.filter, h, Bool.not_true, List.lookup, h']
      exact ih
    · simp only [List.filter, h, Bool.not_false, List.lookup]
      split
      · rfl
      · exact ih

/-- Appending a pair under a new key leaves the values under the other keys. -/
theorem lookup_append_other {α β : Type} [BEq α] [LawfulBEq α] (m : List (α × β))
    (k k' : α) (v : β) (hk : k' ≠ k) : (m ++ [(k, v)]).lookup k' = m.lookup k' := by
  induction m with
  | nil =>
    have h' : (k' == k) = false := by
      rw [beq_eq_false_iff_ne]
      exact hk
    simp only [List.nil_append, List.lookup, h']
  | cons p m ih =>
    simp only [List.cons_append, List.lookup]
    split
    · rfl
    · exact ih

/-- A map without key `k` is not changed by erasing `k`. -/
theorem map_erase_absent {α β : Type} [BEq α] [LawfulBEq α] (m : List (α × β)) (k : α)
    (h : m.lookup k = none) : map_erase m k = m := by
  unfold map_erase
  induction m with
  | nil => rfl
  | cons p m ih =>
    obtain ⟨a, b⟩ := p
    simp only [List.lookup_cons] at h
    split at h
    · cases h
    · rename_i hne
      have h1 : (a == k) = false := by
        rw [beq_eq_false_iff_ne]
        intro e
        rw [e] at hne
        simp at hne
      simp only [List.filter, h1, Bool.not_false]
      rw [ih h]

/-- Inserting a pair under a new key and erasing the key again gives the map
back. -/
theorem map_erase_append_new {α β : Type} [BEq α] [LawfulBEq α] (m : List (α × β)) (k : α)
    (v : β) (h : m.lookup k = none) : map_erase (m ++ [(k, v)]) k = m := by
  have h1 := map_erase_absent m k h
  unfold map_erase at h1 ⊢
  rw [List.filter_append, h1]
  simp

/-- The three outcomes of `insert_instance`: the handle is already a key and
nothing changes; the key is already registered and nothing changes; or both
are new and the pair is added to both maps. -/
theorem insert_instance_cases (s : DataWriterImpl) (handle : InstanceHandle_t) (key : Nat) :
    ((s.instance_handles_to_values_.lookup handle).isSome = true
        ∧ insert_instance s handle key = (false, s))
      ∨ (s.instance_handles_to_values_.lookup handle = none
        ∧ (s.instance_values_to_handles_.lookup key).isSome = true
        ∧ (insert_instance s handle key).1 = false
        ∧ (insert_instance s handle key).2.instance_handles_to_values_
          = s.instance_handles_to_values_
        ∧ (insert_instance s handle key).2.instance_values_to_handles_
          = s.instance_values_to_handles_)
      ∨ (s.instance_handles_to_values_.lookup handle = none
        ∧ s.instance_values_to_handles_.lookup key = none
        ∧ (insert_instance s handle key).1 = true
        ∧ (insert_instance s handle key).2.instance_handles_to_values_
          = s.instance_handles_to_values_ ++ [(handle, key)]
        ∧ (insert_instance s handle key).2.instance_values_to_handles_
          = s.instance_values_to_handles_ ++ [(key, handle)]) := by
  unfold insert_instance map_insert
  cases hh : s.instance_handles_to_values_.lookup handle with
  | some v => exact Or.inl ⟨rfl, by simp⟩
  | none =>
    cases hv : s.instance_values_to_handles_.lookup key with
    | some h' =>
      refine Or.inr (Or.inl ⟨rfl, rfl, ?_, ?_, ?_⟩)
      · simp
      · simp only [Option.isSome_none, Bool.false_eq_true, if_false, Bool.not_true,
          Option.isSome_some, if_true, Bool.not_false]
        exact map_erase_append_new _ _ _ hh
      · simp
    | none =>
      exact Or.inr (Or.inr ⟨rfl, rfl, by simp, by simp, by simp⟩)

/-- `insert_instance` keeps the instance maps mutual inverses. -/
theorem insert_instance_inverse (s : DataWriterImpl) (handle : InstanceHandle_t) (key : Nat)
    (hinv : instance_maps_inverse s) : instance_maps_inverse (insert_instance s handle key).2 := by
  rcases insert_instance_cases s handle key with ⟨_, h⟩ | ⟨_, _, _, h1, h2⟩ | ⟨hh, hv, _, h1, h2⟩
  · rw [h]
    exact hinv
  · unfold instance_maps_inverse at hinv ⊢
    rw [h1, h2]
    exact hinv
  · unfold instance_maps_inverse at hinv ⊢
    rw [h1, h2]
    intro h v
    by_cases e1 : h = handle
    · subst e1
      rw [lookup_append_new _ _ _ hh]
      by_cases e2 : v = key
      · subst e2
        rw [lookup_append_new _ _ _ hv]
        simp
      · rw [lookup_append_other _ _ _ _ e2]
        constructor
        · intro e
          exact absurd (Option.some.inj e).symm e2
        · intro e
          rw [(hinv h v).2 e] at hh
          cases hh
    · rw [lookup_append_other _ _ _ _ e1]
      by_cases e2 : v = key
      · subst e2
        rw [lookup_append_new _ _ _ hv]
        constructor
        · intro e
          rw [(hinv h v).1 e] at hv
          cases hv
        · intro e
          exact absurd (Option.some.inj e).symm e1
      · rw [lookup_append_other _ _ _ _ e2]
        exact hinv h v

/-- The outcome of `instance_must_exist` with `remove` for a registered key
passed with no handle or with its own handle: the pair leaves both maps. -/
theorem instance_must_exist_removes (s : DataWriterImpl) (key : Nat)
    (instance_handle found : InstanceHandle_t)
    (hl : s.instance_values_to_handles_.lookup key = some found)
    (hh : instance_handle = HANDLE_NIL ∨ instance_handle = found) :
    (instance_must_exist s key instance_handle true).ret = RETCODE_OK
      ∧ (instance_must_exist s key instance_handle true).handle = found
      ∧ (instance_must_exist s key instance_handle true).state.instance_values_to_handles_
        = map_erase s.instance_values_to_handles_ key
      ∧ (instance_must_exist s key instance_handle true).state.instance_handles_to_values_
        = map_erase s.instance_handles_to_values_ found := by
  unfold instance_must_exist
  rw [hl]
  dsimp only
  have hc : ¬ (instance_handle != HANDLE_NIL && instance_handle != found) = true := by
    rcases hh with h | h <;> simp [h]
  rw [if_neg hc]
  exact ⟨rfl, rfl, rfl, rfl⟩

/-- `instance_must_exist` changes the maps only in the case described by
`instance_must_exist_removes`. -/
theorem instance_must_exist_cases (s : DataWriterImpl) (key : Nat)
    (instance_handle : InstanceHandle_t) (remove : Bool) :
    (instance_must_exist s key instance_handle remove).state = s
      ∨ ∃ found, s.instance_values_to_handles_.lookup key = some found
        ∧ (instance_must_exist s key instance_handle remove).state
          = { s with
              instance_values_to_handles_ := map_erase s.instance_values_to_handles_ key
              instance_handles_to_values_ := map_erase s.instance_handles_to_values_ found } := by
  unfold instance_must_exist
  cases hl : s.instance_values_to_handles_.lookup key with
  | none => exact Or.inl rfl
  | some found =>
    dsimp only
    split_ifs
    · exact Or.inl rfl
    · exact Or.inr ⟨found, rfl, rfl⟩
    · exact Or.inl rfl

/-- Erasing a registered pair from both maps keeps them mutual inverses. -/
theorem erase_pair_inverse (h2v : List (InstanceHandle_t × Nat))
    (v2h : List (Nat × InstanceHandle_t)) (key : Nat) (found : InstanceHandle_t)
    (hinv : ∀ (h : InstanceHandle_t) (v : Nat), h2v.lookup h = some v ↔ v2h.lookup v = some h)
    (hl : v2h.lookup key = some found) :
    ∀ (h : InstanceHandle_t) (v : Nat),
      (map_erase h2v found).lookup h = some v ↔ (map_erase v2h key).lookup v = some h := by
  intro h v
  have hf : h2v.lookup found = some key := (hinv found key).2 hl
  by_cases e1 : h = found
  · subst e1
    rw [lookup_map_erase_self]
    by_cases e2 : v = key
    · subst e2
      rw [lookup_map_erase_self]
      constructor <;> intro e <;> cases e
    · rw [lookup_map_erase_other _ _ _ e2]
      constructor
      · intro e
        cases e
      · intro e
        rw [(hinv h v).2 e] at hf
        exact absurd (Option.some.inj hf) e2
  · rw [lookup_map_erase_other _ _ _ e1]
    by_cases e2 : v = key
    · subst e2
      rw [lookup_map_erase_self]
      constructor
      · intro e
        rw [(hinv h v).1 e] at hl
        exact absurd (Option.some.inj hl) e1
      · intro e
        cases e
    · rw [lookup_map_erase_other _ _ _ e2]
      exact hinv h v

/-- `instance_must_exist` keeps the instance maps mutual inverses. -/
theorem instance_must_exist_inverse (s : DataWriterImpl) (key : Nat)
    (instance_handle : InstanceHandle_t) (remove : Bool) (hinv : instance_maps_inverse s) :
    instance_maps_inverse (instance_must_exist s key instance_handle remove).state := by
  rcases instance_must_exist_cases s key instance_handle remove with h | ⟨found, hl, h⟩
  · rw [h]
    exact hinv
  · rw [h]
    unfold instance_maps_inverse at hinv ⊢
    exact erase_pair_inverse _ _ key found hinv hl

theorem keeps_registry_refl (s : DataWriterImpl) : keeps_registry s s :=
  id

/-- A writer that agrees with `s1` on the two instance maps inherits what `s1`
keeps. -/
theorem keeps_registry_of_fields {s s1 s2 : DataWriterImpl} (h : keeps_registry s s1)
    (hh : s2.instance_handles_to_values_ = s1.instance_handles_to_values_)
    (hv : s2.instance_values_to_handles_ = s1.instance_values_to_handles_) :
    keeps_registry s s2 := by
  unfold keeps_registry instance_maps_inverse at h ⊢
  rw [hh, hv]
  exact h

theorem keeps_registry_log (s s' : DataWriterImpl) (e : Event) :
    keeps_registry s (s'.log e) ↔ keeps_registry s s' := by
  unfold keeps_registry instance_maps_inverse
  exact Iff.rfl

theorem keeps_registry_create_control_message {s s' : DataWriterImpl} (env : Env)
    (message_id : MessageId) (hd : DataSampleHeader) (data : Option Message_Block)
    (ts : Time_t) (h : keeps_registry s s') :
    keeps_registry s (create_control_message env s' message_id hd data ts).state := by
  rcases create_control_message_state env s' message_id hd data ts with hc | hc
  · rw [hc]; exact h
  · rw [hc]; exact keeps_registry_of_fields h rfl rfl

theorem keeps_registry_send_all_to_flush_control (s s' : DataWriterImpl) (env : Env) :
    keeps_registry s (send_all_to_flush_control env s') ↔ keeps_registry s s' := by
  simp only [send_all_to_flush_control, keeps_registry_log]

theorem keeps_registry_send_control (s s' : DataWriterImpl) (env : Env)
    (header : DataSampleHeader) (msg : Option HeaderBlock) :
    keeps_registry s (send_control env s' header msg).2 ↔ keeps_registry s s' := by
  unfold send_control
  dsimp only
  split <;> simp only [keeps_registry_log]

theorem configured_keeps_registry {s s' : DataWriterImpl} (h : configured s s') :
    keeps_registry s s' := by
  unfold configured at h
  have hh : s'.instance_handles_to_values_ = s.instance_handles_to_values_ := by rw [h]
  have hv : s'.instance_values_to_handles_ = s.instance_values_to_handles_ := by rw [h]
  exact keeps_registry_of_fields (keeps_registry_refl s) hh hv

theorem keeps_registry_send_request_ack {s s' : DataWriterImpl} (env : Env)
    (h : keeps_registry s s') : keeps_registry s (send_request_ack env s').state := by
  unfold send_request_ack
  dsimp only
  split_ifs <;>
    simp only [keeps_registry_log, keeps_registry_send_all_to_flush_control,
      keeps_registry_create_control_message, h]

theorem keeps_registry_wait_for_acknowledgments {s s' : DataWriterImpl} (env : Env)
    (max_wait : Duration_t) (h : keeps_registry s s') :
    keeps_registry s (wait_for_acknowledgments env s' max_wait).2 := by
  unfold wait_for_acknowledgments wait_for_specific_ack
  dsimp only
  split_ifs <;> simp only [keeps_registry_log, keeps_registry_send_request_ack, h]

theorem keeps_registry_register_instance_i {s s' : DataWriterImpl} (env : Env)
    (handle : InstanceHandle_t) (data : Message_Block) (ts : Time_t)
    (h : keeps_registry s s') :
    keeps_registry s (register_instance_i env s' handle data ts).state := by
  unfold register_instance_i
  dsimp only
  split_ifs <;>
    simp only [keeps_registry_log, keeps_registry_create_control_message, h]

theorem keeps_registry_insert_instance {s s' : DataWriterImpl} (handle : InstanceHandle_t)
    (key : Nat) (h : keeps_registry s s') :
    keeps_registry s (insert_instance s' handle key).2 :=
  fun hinv => insert_instance_inverse s' handle key (h hinv)

theorem keeps_registry_instance_must_exist {s s' : DataWriterImpl} (key : Nat)
    (handle : InstanceHandle_t) (remove : Bool) (h : keeps_registry s s') :
    keeps_registry s (instance_must_exist s' key handle remove).state :=
  fun hinv => instance_must_exist_inverse s' key handle remove (h hinv)

theorem keeps_registry_get_or_create_instance_handle {s s' : DataWriterImpl} (env : Env)
    (key : Nat) (ts : Time_t) (h : keeps_registry s s') :
    keeps_registry s (get_or_create_instance_handle env s' key ts).state := by
  unfold get_or_create_instance_handle
  dsimp only
  split_ifs
  · exact h
  · cases env.serialize key with
    | none => exact h
    | some serialized =>
      dsimp only
      split_ifs <;>
        simp only [keeps_registry_send_all_to_flush_control, keeps_registry_insert_instance,
          keeps_registry_register_instance_i, h]
  · exact h

theorem keeps_registry_dispose_and_unregister {s s' : DataWriterImpl} (env : Env)
    (handle : InstanceHandle_t) (ts : Time_t) (h : keeps_registry s s') :
    keeps_registry s (dispose_and_unregister env s' handle ts).2 := by
  unfold dispose_and_unregister
  dsimp only
  split_ifs <;>
    simp only [keeps_registry_log, keeps_registry_send_all_to_flush_control,
      keeps_registry_create_control_message, h]

theorem keeps_registry_unregister_instance_i {s s' : DataWriterImpl} (env : Env)
    (handle : InstanceHandle_t) (ts : Time_t) (h : keeps_registry s s') :
    keeps_registry s (unregister_instance_i env s' handle ts).2 := by
  unfold unregister_instance_i
  dsimp only
  split_ifs <;>
    simp only [keeps_registry_log, keeps_registry_send_all_to_flush_control,
      keeps_registry_create_control_message, keeps_registry_dispose_and_unregister, h]

theorem keeps_registry_dispose {s s' : DataWriterImpl} (env : Env)
    (handle : InstanceHandle_t) (ts : Time_t) (h : keeps_registry s s') :
    keeps_registry s (dispose env s' handle ts).2 := by
  unfold dispose
  dsimp only
  split_ifs <;>
    simp only [keeps_registry_log, keeps_registry_send_all_to_flush_control,
      keeps_registry_create_control_message, h]

theorem keeps_registry_unregister_instance_w_timestamp {s s' : DataWriterImpl} (env : Env)
    (key : Nat) (handle : InstanceHandle_t) (ts : Time_t) (h : keeps_registry s s') :
    keeps_registry s (unregister_instance_w_timestamp env s' key handle ts).2 := by
  unfold unregister_instance_w_timestamp
  dsimp only
  split_ifs <;>
    simp only [keeps_registry_unregister_instance_i, keeps_registry_instance_must_exist, h]

theorem keeps_registry_dispose_w_timestamp {s s' : DataWriterImpl} (env : Env)
    (key : Nat) (handle : InstanceHandle_t) (ts : Time_t) (h : keeps_registry s s') :
    keeps_registry s (dispose_w_timestamp env s' key handle ts).2 := by
  unfold dispose_w_timestamp
  dsimp only
  split_ifs <;>
    simp only [keeps_registry_dispose, keeps_registry_instance_must_exist, h]

theorem keeps_registry_send_suspended_data {s s' : DataWriterImpl} (h : keeps_registry s s') :
    keeps_registry s (send_suspended_data s') := by
  unfold send_suspended_data
  dsimp only
  split_ifs <;> exact keeps_registry_of_fields h rfl rfl

theorem keeps_registry_send_liveliness {s s' : DataWriterImpl} (env : Env)
    (now : MonotonicTimePoint) (h : keeps_registry s s') :
    keeps_registry s (send_liveliness env s' now).2 := by
  have hc := keeps_registry_create_control_message env DATAWRITER_LIVELINESS env.new_header
    none env.system_now h
  have hs := (keeps_registry_send_control s _ env
    (create_control_message env s' DATAWRITER_LIVELINESS env.new_header none
      env.system_now).header_data
    (create_control_message env s' DATAWRITER_LIVELINESS env.new_header none
      env.system_now).message).2 hc
  unfold send_liveliness
  dsimp only
  split_ifs
  · exact hs
  · exact keeps_registry_of_fields hs rfl rfl
  · exact h
  · exact keeps_registry_of_fields h rfl rfl

theorem keeps_registry_assert_liveliness {s s' : DataWriterImpl} (env : Env)
    (h : keeps_registry s s') : keeps_registry s (assert_liveliness env s').2 := by
  unfold assert_liveliness
  cases s'.liveliness_kind with
  | AUTOMATIC_LIVELINESS_QOS => exact h
  | MANUAL_BY_PARTICIPANT_LIVELINESS_QOS =>
    cases env.participant with
    | none => exact h
    | some participant => exact (keeps_registry_log s s' _).2 h
  | MANUAL_BY_TOPIC_LIVELINESS_QOS =>
    dsimp only
    split_ifs <;> exact keeps_registry_send_liveliness env _ h

theorem keeps_registry_assert_liveliness_by_participant {s s' : DataWriterImpl} (env : Env)
    (h : keeps_registry s s') :
    keeps_registry s (assert_liveliness_by_participant env s').2 := by
  unfold assert_liveliness_by_participant
  dsimp only
  split_ifs
  · exact keeps_registry_send_liveliness env _ h
  · exact keeps_registry_send_liveliness env _ h
  · exact h

theorem keeps_registry_liveliness_send_task {s s' : DataWriterImpl} (env : Env)
    (now : MonotonicTimePoint) (h : keeps_registry s s') :
    keeps_registry s (liveliness_send_task env s' now) := by
  unfold liveliness_send_task
  dsimp only
  split_ifs <;> simp only [keeps_registry_log, keeps_registry_send_liveliness, h]

theorem keeps_registry_liveliness_lost_task {s s' : DataWriterImpl} (env : Env)
    (now : MonotonicTimePoint) (h : keeps_registry s s') :
    keeps_registry s (liveliness_lost_task env s' now) := by
  unfold keeps_registry instance_maps_inverse at h ⊢
  unfold liveliness_lost_task
  dsimp only [DataWriterImpl.log]
  split_ifs <;> exact h

theorem keeps_registry_add_association {s s' : DataWriterImpl} (env : Env)
    (reader : ReaderAssociation) (active : Bool) (h : keeps_registry s s') :
    keeps_registry s (add_association env s' reader active) := by
  unfold keeps_registry instance_maps_inverse at h ⊢
  rw [add_association_eq]
  by_cases hd : s'.deleted_ = true
  · rw [if_pos hd]
    exact h
  · rw [if_neg hd]
    exact h

theorem keeps_registry_begin_coherent_changes {s s' : DataWriterImpl}
    (h : keeps_registry s s') : keeps_registry s (begin_coherent_changes s') := by
  unfold keeps_registry instance_maps_inverse at h ⊢
  unfold begin_coherent_changes
  exact h

theorem keeps_registry_end_coherent_changes {s s' : DataWriterImpl} (env : Env)
    (group_samples : List (GUID_t × Nat × SequenceNumber)) (h : keeps_registry s s') :
    keeps_registry s (end_coherent_changes env s' group_samples).state := by
  unfold end_coherent_changes
  dsimp only
  rw [keeps_registry_send_control]
  generalize (⟨env.serialized_size _, _⟩ : Message_Block) = data
  have hc := keeps_registry_create_control_message env END_COHERENT_CHANGES env.new_header
    (some data) env.system_now h
  generalize (create_control_message env s' END_COHERENT_CHANGES env.new_header
    (some data) env.system_now).state = c at hc
  unfold keeps_registry instance_maps_inverse at hc ⊢
  exact hc

theorem keeps_registry_create_sample_data_message {s s' : DataWriterImpl} (env : Env)
    (data : Message_Block) (handle : InstanceHandle_t) (hd : DataSampleHeader)
    (ts : Time_t) (cf : Bool) (h : keeps_registry s s') :
    keeps_registry s (create_sample_data_message env s' data handle hd ts cf).state := by
  unfold create_sample_data_message
  by_cases hi : (!env.get_handle_instance handle) = true
  · rw [if_pos hi]
    exact h
  · rw [if_neg hi]
    cases env.publisher with
    | none => exact h
    | some publisher =>
      unfold keeps_registry instance_maps_inverse at h ⊢
      dsimp only [get_next_sn_i]
      exact h

theorem write_enqueued_registry (env : Env) (s : DataWriterImpl)
    (filter_out : Option (List GUID_t)) :
    (write_enqueued env s filter_out).instance_handles_to_values_
        = s.instance_handles_to_values_
      ∧ (write_enqueued env s filter_out).instance_values_to_handles_
        = s.instance_values_to_handles_ := by
  simp only [write_enqueued, track_sequence_number, DataWriterImpl.log, get_max_sn,
    apply_ite DataWriterImpl.instance_handles_to_values_,
    apply_ite DataWriterImpl.instance_values_to_handles_, ite_self, and_self]

theorem keeps_registry_write_enqueued {s s' : DataWriterImpl} (env : Env)
    (filter_out : Option (List GUID_t)) (h : keeps_registry s s') :
    keeps_registry s (write_enqueued env s' filter_out) :=
  keeps_registry_of_fields h (write_enqueued_registry env s' filter_out).1
    (write_enqueued_registry env s' filter_out).2

theorem keeps_registry_write {s s' : DataWriterImpl} (env : Env) (a : WriteArgs)
    (h : keeps_registry s s') : keeps_registry s (write env s' a).state := by
  unfold write
  dsimp only
  split_ifs <;>
    simp only [keeps_registry_log, keeps_registry_write_enqueued,
      keeps_registry_create_sample_data_message, h]

theorem keeps_registry_write_sample {s s' : DataWriterImpl} (env : Env)
    (handle : InstanceHandle_t) (ts : Time_t) (filter_out : Option (List GUID_t))
    (h : keeps_registry s s') :
    keeps_registry s (write_sample env s' handle ts filter_out).state := by
  unfold write_sample
  cases env.serialize_sample with
  | none => exact h
  | some serialized => exact keeps_registry_write env _ h

theorem keeps_registry_write_w_timestamp {s s' : DataWriterImpl} (env : Env) (key : Nat)
    (handle : InstanceHandle_t) (ts : Time_t) (h : keeps_registry s s') :
    keeps_registry s (write_w_timestamp env s' key handle ts).state := by
  unfold write_w_timestamp
  dsimp only
  split_ifs <;>
    simp only [keeps_registry_write_sample, keeps_registry_get_or_create_instance_handle, h]

theorem keeps_registry_association_matched {s s' : DataWriterImpl} (env : Env)
    (r : GUID_t) (h : keeps_registry s s') :
    keeps_registry s (association_matched env s' r).2 := by
  unfold keeps_registry instance_maps_inverse at h ⊢
  unfold association_matched
  dsimp only [DataWriterImpl.log, get_max_sn]
  by_cases hb : (!s'.is_bit_) = true
  · rw [if_pos hb]
    cases env.participant with
    | none => exact h
    | some participant =>
      dsimp only
      split_ifs <;> exact h
  · rw [if_neg hb]
    exact h

theorem keeps_registry_replay_stage {s s' : DataWriterImpl} (env : Env)
    (r : GUID_t) (h : keeps_registry s s') :
    keeps_registry s (replay_stage env s' r).2 := by
  unfold keeps_registry instance_maps_inverse at h ⊢
  unfold replay_stage
  dsimp only [DataWriterImpl.log]
  exact h

theorem keeps_registry_replay {s s' : DataWriterImpl} (env : Env)
    (r : GUID_t) (h : keeps_registry s s') : keeps_registry s (replay env s' r) := by
  have hs := keeps_registry_replay_stage env r h
  unfold replay
  dsimp only
  split_ifs
  · exact keeps_registry_of_fields hs rfl rfl
  · simp only [keeps_registry_log, keeps_registry_create_control_message, hs]
  · simp only [keeps_registry_log, keeps_registry_create_control_message, hs]

theorem keeps_registry_replay_durable_data_for {s s' : DataWriterImpl} (env : Env)
    (r : GUID_t) (h : keeps_registry s s') :
    keeps_registry s (replay_durable_data_for env s' r) := by
  unfold replay_durable_data_for
  dsimp only
  split_ifs
  · exact keeps_registry_replay env r h
  · exact h

theorem keeps_registry_association_complete_i {s s' : DataWriterImpl} (env : Env)
    (r : GUID_t) (h : keeps_registry s s') :
    keeps_registry s (association_complete_i env s' r) := by
  have hm := keeps_registry_association_matched env r h
  unfold association_complete_i
  dsimp only
  split_ifs
  · exact keeps_registry_replay env r hm
  · exact hm

theorem keeps_registry_foldl_log {α : Type} (s s' : DataWriterImpl) (f : α → Event)
    (l : List α) :
    keeps_registry s (l.foldl (fun st x => st.log (f x)) s') ↔ keeps_registry s s' := by
  induction l generalizing s' with
  | nil => exact Iff.rfl
  | cons x l ih => rw [List.foldl_cons, ih, keeps_registry_log]

theorem keeps_registry_erase_reader_info {s s' : DataWriterImpl} (env : Env)
    (id : GUID_t) (h : keeps_registry s s') :
    keeps_registry s (erase_reader_info env s' id) := by
  have hsub : keeps_registry s { s' with reader_info_ := map_erase s'.reader_info_ id } :=
    keeps_registry_of_fields h rfl rfl
  unfold erase_reader_info
  cases s'.reader_info_.lookup id with
  | none => exact h
  | some info =>
    dsimp only
    cases env.participant with
    | none => exact hsub
    | some participant =>
      dsimp only
      split_ifs
      · exact (keeps_registry_log s _ _).2 hsub
      · exact hsub

theorem keeps_registry_remove_readers {s s' : DataWriterImpl} (env : Env)
    (readers : List GUID_t) (h : keeps_registry s s') :
    keeps_registry s (remove_readers env readers s').2 := by
  induction readers generalizing s' with
  | nil => exact h
  | cons id rest ih =>
    unfold remove_readers
    dsimp only
    apply ih
    apply keeps_registry_erase_reader_info
    rw [keeps_registry_log]
    exact keeps_registry_of_fields h rfl rfl

theorem publication_unmatched_registry (env : Env) (s s' : DataWriterImpl)
    (handles : List InstanceHandle_t) (len : Nat)
    (h : publication_unmatched env s handles len = some s') :
    s'.instance_handles_to_values_ = s.instance_handles_to_values_
      ∧ s'.instance_values_to_handles_ = s.instance_values_to_handles_ := by
  unfold publication_unmatched at h
  dsimp only [DataWriterImpl.log] at h
  by_cases hb : (!s.is_bit_) = true
  · rw [if_pos hb] at h
    by_cases hc : ((s.id_to_handle_map_.length : Int)
        - s.publication_match_status_.current_count != 0) = true
    · rw [if_pos hc] at h
      cases hl : handles[(len + 4294967295) % 4294967296]? with
      | none => rw [hl] at h; cases h
      | some last =>
        rw [hl] at h
        dsimp only at h
        have h' := (Option.some.inj h).symm
        split_ifs at h' <;> subst h' <;> exact ⟨rfl, rfl⟩
    · rw [if_neg hc] at h
      have h' := (Option.some.inj h).symm
      subst h'
      exact ⟨rfl, rfl⟩
  · rw [if_neg hb] at h
    have h' := Option.some.inj h
    subst h'
    exact ⟨rfl, rfl⟩

theorem keeps_registry_notify_publication_lost (s s' : DataWriterImpl) (env : Env)
    (handles : List InstanceHandle_t) :
    keeps_registry s (notify_publication_lost env s' handles) ↔ keeps_registry s s' := by
  unfold notify_publication_lost
  split_ifs <;> simp only [keeps_registry_log]

theorem keeps_registry_remove_associations {s s' s'' : DataWriterImpl} (env : Env)
    (readers : List GUID_t) (notify_lost : Bool) (h : keeps_registry s s')
    (hr : remove_associations env s' readers notify_lost = some s'') :
    keeps_registry s s'' := by
  unfold remove_associations at hr
  by_cases hlen : (readers.length == 0) = true
  · rw [if_pos hlen] at hr
    rw [← Option.some.inj hr]
    exact h
  · rw [if_neg hlen] at hr
    dsimp only at hr
    have h2 := keeps_registry_remove_readers env readers
      ((keeps_registry_log s s' (Event.stop_associating readers)).2 h)
    generalize remove_readers env readers (s'.log (Event.stop_associating readers)) = rm
      at hr h2
    obtain ⟨fully, s2⟩ := rm
    dsimp only at hr h2
    generalize (if (decide (fully.length > 0) && !s2.is_bit_) = true then
      lookup_instance_handles env fully [] else []) = handles at hr
    generalize hs3 : (if (decide (fully.length > 0) && !s2.is_bit_) = true then
      ({ s2 with
        id_to_handle_map_ :=
          fully.foldl (fun m id => map_erase m id) s2.id_to_handle_map_ } : DataWriterImpl)
      else s2) = s3 at hr
    have h3 : keeps_registry s s3 := by
      rw [← hs3]
      split_ifs
      · exact keeps_registry_of_fields h2 rfl rfl
      · exact h2
    cases hpu : publication_unmatched env s3 handles fully.length with
    | none => rw [hpu] at hr; cases hr
    | some s4 =>
      rw [hpu] at hr
      dsimp only at hr
      obtain ⟨g1, g2⟩ := publication_unmatched_registry env s3 s4 handles _ hpu
      have h4 : keeps_registry s s4 := keeps_registry_of_fields h3 g1 g2
      cases hp : env.participant with
      | none =>
        rw [hp] at hr
        dsimp only at hr
        split_ifs at hr <;> rw [← Option.some.inj hr] <;>
          simp only [keeps_registry_foldl_log, keeps_registry_notify_publication_lost, h4]
      | some participant =>
        rw [hp] at hr
        dsimp only at hr
        rw [← Option.some.inj hr]
        split_ifs <;>
          simp only [keeps_registry_foldl_log, keeps_registry_notify_publication_lost, h4]

/-- Every step keeps the instance maps mutual inverses. -/
theorem step_keeps_registry (P : Env → DataWriterImpl → Prop) (s s' : DataWriterImpl)
    (h : Step P s s') : keeps_registry s s' := by
  have h0 := keeps_registry_refl s
  cases h with
  | configure _ _ hc => exact configured_keeps_registry hc
  | add_association env _ reader active =>
    exact keeps_registry_add_association env reader active h0
  | association_complete_i env _ r hP => exact keeps_registry_association_complete_i env r h0
  | replay_durable_data_for env _ r hP =>
    exact keeps_registry_replay_durable_data_for env r h0
  | remove_associations env _ readers notify_lost _ hr =>
    exact keeps_registry_remove_associations env readers notify_lost h0 hr
  | write env _ a => exact keeps_registry_write env a h0
  | write_w_timestamp env _ key handle ts =>
    exact keeps_registry_write_w_timestamp env key handle ts h0
  | create_control_message env _ message_id hd data ts =>
    exact keeps_registry_create_control_message env message_id hd data ts h0
  | send_request_ack env _ => exact keeps_registry_send_request_ack env h0
  | wait_for_acknowledgments env _ max_wait =>
    exact keeps_registry_wait_for_acknowledgments env max_wait h0
  | register_instance_i env _ handle data ts =>
    exact keeps_registry_register_instance_i env handle data ts h0
  | register_instance_w_timestamp env _ key ts =>
    exact keeps_registry_get_or_create_instance_handle env key ts h0
  | unregister_instance_i env _ handle ts =>
    exact keeps_registry_unregister_instance_i env handle ts h0
  | dispose_and_unregister env _ handle ts =>
    exact keeps_registry_dispose_and_unregister env handle ts h0
  | dispose env _ handle ts => exact keeps_registry_dispose env handle ts h0
  | unregister_instance_w_timestamp env _ key handle ts =>
    exact keeps_registry_unregister_instance_w_timestamp env key handle ts h0
  | dispose_w_timestamp env _ key handle ts =>
    exact keeps_registry_dispose_w_timestamp env key handle ts h0
  | send_suspended_data _ => exact keeps_registry_send_suspended_data h0
  | send_liveliness env _ now => exact keeps_registry_send_liveliness env now h0
  | assert_liveliness env _ => exact keeps_registry_assert_liveliness env h0
  | assert_liveliness_by_participant env _ =>
    exact keeps_registry_assert_liveliness_by_participant env h0
  | liveliness_send_task env _ now => exact keeps_registry_liveliness_send_task env now h0
  | liveliness_lost_task env _ now => exact keeps_registry_liveliness_lost_task env now h0
  | begin_coherent_changes _ => exact keeps_registry_begin_coherent_changes h0
  | end_coherent_changes env _ group_samples =>
    exact keeps_registry_end_coherent_changes env group_samples h0

/-- In every state reached by steps the instance maps are mutual inverses. -/
theorem reachable_instance_maps_inverse (P : Env → DataWriterImpl → Prop)
    (s : DataWriterImpl) (h : Reachable P s) : instance_maps_inverse s := by
  induction h with
  | ctor _ _ _ _ _ _ => exact fun h v => ⟨(fun e => nomatch e), (fun e => nomatch e)⟩
  | step s s' _ hs ih => exact step_keeps_registry P s s' hs ih

/-- C26: in every state reached by calls of `insert_instance` and
`instance_must_exist` (with or without `remove`) and by the other member
functions, `instance_handles_to_values_` and `instance_values_to_handles_` are
mutual inverses.  There `insert_instance` returns false and leaves both maps as
they were when the handle or the key is already present, and
`instance_must_exist` with `remove` for a registered key (passed with HANDLE_NIL
or with its own handle) erases the pair from both maps. -/
theorem instance_maps_mutual_inverses (P : Env → DataWriterImpl → Prop)
    (s : DataWriterImpl) (hreach : RegistryReachable P s) :
    instance_maps_inverse s
      ∧ (∀ (handle : InstanceHandle_t) (key : Nat),
          ((s.instance_handles_to_values_.lookup handle).isSome = true
              ∨ (s.instance_values_to_handles_.lookup key).isSome = true) →
            (insert_instance s handle key).1 = false
              ∧ (insert_instance s handle key).2.instance_handles_to_values_
                = s.instance_handles_to_values_
              ∧ (insert_instance s handle key).2.instance_values_to_handles_
                = s.instance_values_to_handles_)
      ∧ (∀ (key : Nat) (instance_handle found : InstanceHandle_t),
          s.instance_values_to_handles_.lookup key = some found →
          (instance_handle = HANDLE_NIL ∨ instance_handle = found) →
            (instance_must_exist s key instance_handle true).ret = RETCODE_OK
              ∧ s.instance_handles_to_values_.lookup found = some key
              ∧ (instance_must_exist s key instance_handle
                  true).state.instance_values_to_handles_.lookup key = none
              ∧ (instance_must_exist s key instance_handle
                  true).state.instance_handles_to_values_.lookup found = none
              ∧ ∀ (h : InstanceHandle_t) (v : Nat), h ≠ found → v ≠ key →
                  ((instance_must_exist s key instance_handle
                      true).state.instance_handles_to_values_.lookup h
                    = s.instance_handles_to_values_.lookup h
                  ∧ (instance_must_exist s key instance_handle
                      true).state.instance_values_to_handles_.lookup v
                    = s.instance_values_to_handles_.lookup v)) := by
  have hinv : instance_maps_inverse s := by
    induction hreach with
    | reachable s hr => exact reachable_instance_maps_inverse P s hr
    | insert_instance s handle key _ ih => exact insert_instance_inverse s handle key ih
    | instance_must_exist s key handle remove _ ih =>
      exact instance_must_exist_inverse s key handle remove ih
    | step s s' _ hs ih => exact step_keeps_registry P s s' hs ih
  refine ⟨hinv, fun handle key hp => ?_, fun key instance_handle found hl hh => ?_⟩
  · rcases insert_instance_cases s handle key with ⟨_, h⟩ | ⟨_, _, h0, h1, h2⟩
        | ⟨hh, hv, _, _, _⟩
    · rw [h]
      exact ⟨rfl, rfl, rfl⟩
    · exact ⟨h0, h1, h2⟩
    · rw [hh, hv] at hp
      rcases hp with hp | hp <;> cases hp
  · obtain ⟨h1, _, h3, h4⟩ := instance_must_exist_removes s key instance_handle found hl hh
    refine ⟨h1, (hinv found key).2 hl, ?_, ?_, fun h v hne1 hne2 => ⟨?_, ?_⟩⟩
    · rw [h3]
      exact lookup_map_erase_self _ _
    · rw [h4]
      exact lookup_map_erase_self _ _
    · rw [h4]
      exact lookup_map_erase_other _ _ _ hne1
    · rw [h3]
      exact lookup_map_erase_other _ _ _ hne2

/-- After `insert_instance` of handle 7 for key 1 on the fresh writer the maps
are mutual inverses. -/
theorem instance_maps_mutual_inverses_witness :
    instance_maps_inverse (insert_instance fresh_writer 7 1).2 :=
  (instance_maps_mutual_inverses any_answers (insert_instance fresh_writer 7 1).2
    (RegistryReachable.insert_instance fresh_writer 7 1
      (RegistryReachable.reachable _ (fresh_writer_reachable any_answers)))).1

/-! ### Index into the handles of removed readers -/

/-- For a non-empty list `remove_associations` hands the locals
`before_unmatched`, `removed_handles` and the length of
`fully_associated_readers` to the statements that mirror the matched-status
processing, and stops where they read outside `handles`. -/
theorem remove_associations_locals (env : Env) (s : DataWriterImpl)
    (readers : List GUID_t) (notify_lost : Bool) (hne : readers ≠ [])
    (h : publication_unmatched env (before_unmatched env s readers)
      (removed_handles env s readers) (fully_associated_readers env s readers).length = none) :
    remove_associations env s readers notify_lost = none := by
  unfold before_unmatched removed_handles fully_associated_readers at h
  dsimp only at h
  unfold remove_associations
  have hl : ¬ (readers.length == 0) = true := by
    cases readers with
    | nil => exact absurd rfl hne
    | cons a l => simp
  rw [if_neg hl]
  dsimp only
  rw [h]

/-- C27: for a writer that is not for a built-in topic, in a reachable state
and with the participant alive: whenever `remove_associations` reaches the
statements that read `handles[fully_associated_len - 1]` (the change of the
matched count is not zero), `fully_associated_len` is at least one, `handles`
has `fully_associated_len` entries and the index, computed in 32 bits, is below
that length; so the call runs to its end. -/
theorem remove_associations_index_in_range (P : Env → DataWriterImpl → Prop) (env : Env)
    (s : DataWriterImpl) (readers : List GUID_t) (notify_lost : Bool)
    (participant : DomainParticipantImpl)
    (hreach : Reachable P s) (hbit : s.is_bit_ = false)
    (hp : env.participant = some participant) :
    (((before_unmatched env s readers).id_to_handle_map_.length : Int)
          - (before_unmatched env s readers).publication_match_status_.current_count ≠ 0 →
        1 ≤ (fully_associated_readers env s readers).length
          ∧ (removed_handles env s readers).length
            = (fully_associated_readers env s readers).length
          ∧ ((fully_associated_readers env s readers).length + 4294967295) % 4294967296
            < (removed_handles env s readers).length)
      ∧ (∃ s4, publication_unmatched env (before_unmatched env s readers)
          (removed_handles env s readers) (fully_associated_readers env s readers).length
          = some s4)
      ∧ ∃ s', remove_associations env s readers notify_lost = some s' := by
  have hm : matched_count_consistent s := (reachable_counts P s hreach).2
  refine ⟨fun hchange => ?_, ?_, remove_associations_defined env s readers notify_lost
    participant hp hm⟩
  · unfold before_unmatched at hchange
    unfold removed_handles fully_associated_readers
    obtain ⟨h2, h2m, h2b⟩ :=
      remove_readers_frame env readers (s.log (Event.stop_associating readers))
    generalize remove_readers env readers (s.log (Event.stop_associating readers)) = rm
      at h2 h2m h2b hchange ⊢
    obtain ⟨fully, s2⟩ := rm
    dsimp only at h2 h2m h2b hchange ⊢
    by_cases hc : (decide (fully.length > 0) && !s2.is_bit_) = true
    · rw [if_pos hc]
      have hpos : 0 < fully.length := by
        simp only [Bool.and_eq_true, decide_eq_true_eq] at hc
        exact hc.1
      unfold lookup_instance_handles
      rw [hp]
      dsimp only
      rw [List.length_map]
      exact ⟨hpos, rfl, by omega⟩
    · rw [if_neg hc] at hchange
      exfalso
      apply hchange
      rw [h2, h2m]
      unfold matched_count_consistent at hm
      simp only [DataWriterImpl.log, hm, sub_self]
  · cases hpu : publication_unmatched env (before_unmatched env s readers)
        (removed_handles env s readers) (fully_associated_readers env s readers).length with
    | some s4 => exact ⟨s4, rfl⟩
    | none =>
      exfalso
      by_cases hne : readers = []
      · subst hne
        unfold matched_count_consistent at hm
        simp [publication_unmatched, before_unmatched, removed_handles,
          fully_associated_readers, remove_readers, DataWriterImpl.log, hbit, hm] at hpu
      · obtain ⟨s', hs'⟩ := remove_associations_defined env s readers notify_lost
          participant hp hm
        rw [remove_associations_locals env s readers notify_lost hne hpu] at hs'
        cases hs'

/-- Removing the one matched reader: the change of the count is not zero,
`handles` has one entry and index 0 is read. -/
theorem remove_associations_index_in_range_witness :
    1 ≤ (fully_associated_readers (accepting_env (some active_publisher) 0)
        one_matched_writer [1]).length
      ∧ (removed_handles (accepting_env (some active_publisher) 0) one_matched_writer
          [1]).length
        = (fully_associated_readers (accepting_env (some active_publisher) 0)
          one_matched_writer [1]).length
      ∧ ((fully_associated_readers (accepting_env (some active_publisher) 0)
          one_matched_writer [1]).length + 4294967295) % 4294967296
        < (removed_handles (accepting_env (some active_publisher) 0) one_matched_writer
          [1]).length :=
  (remove_associations_index_in_range any_answers (accepting_env (some active_publisher) 0)
    one_matched_writer [1] false live_participant
    (Reachable.step _ _
      (Reachable.step _ _ (fresh_writer_reachable any_answers)
        (Step.add_association (accepting_env (some active_publisher) 0) fresh_writer
          (volatile_reader 1) true))
      (Step.association_complete_i (accepting_env (some active_publisher) 0) _ 1 True.intro))
    rfl rfl).1 (by decide)

/-! ### Canonical configuration keys -/

/-- The key `~!abc.123/DefGhi/`, evaluated. -/
theorem canonicalize_example :
    canonicalize (char_codes "~!abc.123/DefGhi/") = char_codes "ABC_123_DEF_GHI" := by
  decide

theorem skip_punctuation_length (l : List Nat) : (skip_punctuation l).length ≤ l.length := by
  induction l with
  | nil => exact Nat.le_refl _
  | cons x rest ih =>
    unfold skip_punctuation
    split_ifs
    · exact Nat.le_succ_of_le ih
    · exact Nat.le_refl _

/-- After the skipping loop nothing is left or an alphanumeric character is
next. -/
theorem skip_punctuation_head (l : List Nat) :
    skip_punctuation l = []
      ∨ ∃ y r, skip_punctuation l = y :: r ∧ ace_isalnum y = true := by
  induction l with
  | nil => exact Or.inl rfl
  | cons x rest ih =>
    unfold skip_punctuation
    split_ifs with h
    · exact ih
    · exact Or.inr ⟨x, rest, rfl, by simpa using h⟩

/-- The skipping loop passes no alphanumeric character. -/
theorem skip_punctuation_filter (l : List Nat) :
    (skip_punctuation l).filter ace_isalnum = l.filter ace_isalnum := by
  induction l with
  | nil => rfl
  | cons x rest ih =>
    unfold skip_punctuation
    split_ifs with h
    · have hx : ace_isalnum x = false := by simpa using h
      rw [ih, List.filter_cons_of_neg (by simp [hx])]
    · rfl

/-- The skipping loop stops at once at an alphanumeric character. -/
theorem skip_punctuation_alnum (y : Nat) (r : List Nat) (h : ace_isalnum y = true) :
    skip_punctuation (y :: r) = y :: r := by
  unfold skip_punctuation
  simp [h]

/-- The upper-cased form of an alphanumeric character is an upper-case letter
or a digit. -/
theorem ace_toupper_alnum (x : Nat) (h : ace_isalnum x = true) :
    (65 ≤ ace_toupper x ∧ ace_toupper x ≤ 90) ∨ (48 ≤ ace_toupper x ∧ ace_toupper x ≤ 57) := by
  unfold ace_isalnum ace_isupper ace_islower ace_isdigit at h
  unfold ace_toupper ace_islower
  simp only [Bool.or_eq_true, decide_eq_true_eq] at h
  split_ifs with hl
  · simp only [decide_eq_true_eq] at hl
    omega
  · simp only [decide_eq_true_eq] at hl
    omega

/-- What the camelcase statements leave in `retval`: nothing new, or one `_`
after a non-empty `retval` that did not end in `_`, before an upper-case `x`. -/
theorem camelcase_cases (x : Nat) (rest retval : List Nat) :
    camelcase x rest retval = retval
      ∨ (camelcase x rest retval = retval ++ [UNDERSCORE] ∧ ace_isupper x = true
        ∧ retval ≠ [] ∧ retval.getLast? ≠ some UNDERSCORE
        ∧ ∃ y r, rest = y :: r ∧ ace_islower y = true) := by
  unfold camelcase
  cases rest with
  | nil => exact Or.inl rfl
  | cons y r =>
    dsimp only
    split_ifs with h
    · simp only [Bool.and_eq_true, Bool.not_eq_true', List.isEmpty_eq_false, bne_iff_ne,
        ne_eq] at h
      exact Or.inr ⟨rfl, h.1.1.1, h.1.2, h.2, y, r, rfl, h.1.1.2⟩
    · exact Or.inl rfl

/-- A canonical prefix stays one when an upper-case letter or digit is
appended, and when `_` is appended to a non-empty prefix not ending in `_`. -/
theorem canonical_prefix_append (w : List Nat) (c : Nat) (hw : canonical_prefix w)
    (hc : (65 ≤ c ∧ c ≤ 90) ∨ (48 ≤ c ∧ c ≤ 57) ∨ c = UNDERSCORE)
    (hu : c = UNDERSCORE → w ≠ [] ∧ w.getLast? ≠ some UNDERSCORE) :
    canonical_prefix (w ++ [c]) := by
  obtain ⟨h1, h2, h3⟩ := hw
  refine ⟨?_, ?_, ?_⟩
  · intro a ha
    rcases List.mem_append.1 ha with ha | ha
    · exact h1 a ha
    · rw [List.mem_singleton.1 ha]
      exact hc
  · cases w with
    | nil =>
      intro e
      have e' : c = UNDERSCORE := by simpa using e
      exact (hu e').1 rfl
    | cons a w => simpa using h2
  · rw [List.chain'_append]
    refine ⟨h3, List.chain'_singleton c, ?_⟩
    intro x hx y hy
    have hy' : y = c := by simpa using hy.symm
    subst hy'
    rintro ⟨ex, ey⟩
    subst ex
    exact (hu ey).2 (by simpa using hx)

/-- A character that is not alphanumeric is not an upper-case letter. -/
theorem ace_isupper_of_not_alnum (x : Nat) (h : ace_isalnum x = false) :
    ace_isupper x = false := by
  unfold ace_isalnum at h
  simp only [Bool.or_eq_false_iff] at h
  exact h.1.1

/-- The main loop, started with a canonical prefix in `retval` that ends in `_`
only before an alphanumeric character: the result is a canonical prefix that
does not end in `_`, and without its `_` it is `retval` without its `_`
followed by the alphanumeric characters left in `key`, upper-cased. -/
theorem canonicalize_loop_spec (fuel : Nat) :
    ∀ (rest acc : List Nat), rest.length ≤ fuel → canonical_prefix acc →
      (acc.getLast? = some UNDERSCORE → ∃ y r, rest = y :: r ∧ ace_isalnum y = true) →
      canonical_prefix (canonicalize_loop fuel rest acc)
        ∧ (canonicalize_loop fuel rest acc).getLast? ≠ some UNDERSCORE
        ∧ (canonicalize_loop fuel rest acc).filter (fun c => c != UNDERSCORE)
          = acc.filter (fun c => c != UNDERSCORE)
            ++ (rest.filter ace_isalnum).map ace_toupper := by
  induction fuel with
  | zero =>
    intro rest acc hlen hacc hlast
    have hr : rest = [] := List.length_eq_zero.1 (Nat.le_zero.1 hlen)
    subst hr
    refine ⟨hacc, fun e => ?_, by simp [canonicalize_loop]⟩
    obtain ⟨y, r, h, _⟩ := hlast e
    cases h
  | succ fuel ih =>
    intro rest acc hlen hacc hlast
    cases rest with
    | nil =>
      refine ⟨hacc, fun e => ?_, by simp [canonicalize_loop]⟩
      obtain ⟨y, r, h, _⟩ := hlast e
      cases h
    | cons x rest =>
      have hlen' : rest.length ≤ fuel := Nat.le_of_succ_le_succ hlen
      unfold canonicalize_loop
      dsimp only
      by_cases hx : ace_isalnum x = true
      · rw [if_pos hx]
        have hup := ace_toupper_alnum x hx
        have hne : ace_toupper x ≠ UNDERSCORE := by
          unfold UNDERSCORE
          omega
        have hcam : canonical_prefix (camelcase x rest acc)
            ∧ (camelcase x rest acc).filter (fun c => c != UNDERSCORE)
              = acc.filter (fun c => c != UNDERSCORE) := by
          rcases camelcase_cases x rest acc with h | ⟨h, _, h2, h3, _⟩
          · rw [h]
            exact ⟨hacc, rfl⟩
          · rw [h]
            refine ⟨canonical_prefix_append acc UNDERSCORE hacc (Or.inr (Or.inr rfl))
              (fun _ => ⟨h2, h3⟩), ?_⟩
            simp [List.filter_append]
        have hnext := canonical_prefix_append (camelcase x rest acc) (ace_toupper x) hcam.1
          (hup.imp id Or.inl) (fun e => absurd e hne)
        obtain ⟨g1, g2, g3⟩ := ih rest (camelcase x rest acc ++ [ace_toupper x]) hlen' hnext
          (fun e => by
            rw [List.getLast?_concat] at e
            exact absurd (Option.some.inj e) hne)
        refine ⟨g1, g2, ?_⟩
        rw [g3, List.filter_append, hcam.2, List.filter_cons_of_pos hx]
        have hf : List.filter (fun c => c != UNDERSCORE) [ace_toupper x] = [ace_toupper x] := by
          simp [hne]
        rw [hf]
        simp
      · rw [if_neg hx]
        have hx' : ace_isalnum x = false := by simpa using hx
        have hlast' : acc.getLast? ≠ some UNDERSCORE := by
          intro e
          obtain ⟨y, r, h, hy⟩ := hlast e
          cases h
          exact hx hy
        have hcam : camelcase x rest acc = acc := by
          rcases camelcase_cases x rest acc with h | ⟨_, h1, _⟩
          · exact h
          · rw [ace_isupper_of_not_alnum x hx'] at h1
            cases h1
        rw [hcam]
        have hskip : skip_punctuation (x :: rest) = skip_punctuation rest := by
          rw [skip_punctuation]
          simp [hx']
        rw [hskip]
        have hl2 : (skip_punctuation rest).length ≤ fuel :=
          Nat.le_trans (skip_punctuation_length rest) hlen'
        have hfil : (x :: rest).filter ace_isalnum = (skip_punctuation rest).filter ace_isalnum := by
          rw [skip_punctuation_filter, List.filter_cons_of_neg hx]
        rw [hfil]
        by_cases hc : (!(skip_punctuation rest).isEmpty && !acc.isEmpty
            && acc.getLast? != some UNDERSCORE) = true
        · rw [if_pos hc]
          simp only [Bool.and_eq_true, Bool.not_eq_true', List.isEmpty_eq_false, bne_iff_ne,
            ne_eq] at hc
          have hnext := canonical_prefix_append acc UNDERSCORE hacc (Or.inr (Or.inr rfl))
            (fun _ => ⟨hc.1.2, hc.2⟩)
          obtain ⟨g1, g2, g3⟩ := ih (skip_punctuation rest) (acc ++ [UNDERSCORE]) hl2 hnext
            (fun _ => by
              rcases skip_punctuation_head rest with h | h
              · exact absurd h hc.1.1
              · exact h)
          refine ⟨g1, g2, ?_⟩
          rw [g3]
          simp [List.filter_append]
        · rw [if_neg hc]
          exact ih (skip_punctuation rest) acc hl2 hacc (fun e => absurd e hlast')

/-- The main loop ends by reaching the end of `key`: with at least as many
iterations allowed as characters are left, the result does not depend on the
number allowed. -/
theorem canonicalize_loop_fuel (fuel1 : Nat) :
    ∀ (fuel2 : Nat) (rest acc : List Nat), rest.length ≤ fuel1 → rest.length ≤ fuel2 →
      canonicalize_loop fuel1 rest acc = canonicalize_loop fuel2 rest acc := by
  induction fuel1 with
  | zero =>
    intro fuel2 rest acc h1 _
    have hr : rest = [] := List.length_eq_zero.1 (Nat.le_zero.1 h1)
    subst hr
    cases fuel2 <;> rfl
  | succ fuel1 ih =>
    intro fuel2 rest acc h1 h2
    cases rest with
    | nil => cases fuel2 <;> rfl
    | cons x rest =>
      cases fuel2 with
      | zero => exact absurd h2 (Nat.not_succ_le_zero _)
      | succ fuel2 =>
        have h1' : rest.length ≤ fuel1 := Nat.le_of_succ_le_succ h1
        have h2' : rest.length ≤ fuel2 := Nat.le_of_succ_le_succ h2
        unfold canonicalize_loop
        dsimp only
        by_cases hx : ace_isalnum x = true
        · rw [if_pos hx, if_pos hx]
          exact ih fuel2 rest _ h1' h2'
        · rw [if_neg hx, if_neg hx]
          have hs : (skip_punctuation (x :: rest)).length ≤ rest.length := by
            rw [skip_punctuation]
            have hx' : ace_isalnum x = false := by simpa using hx
            simp only [hx', Bool.not_false, if_true]
            exact skip_punctuation_length rest
          exact ih fuel2 _ _ (Nat.le_trans hs h1') (Nat.le_trans hs h2')

/-- The result of `canonicalize` is a canonical prefix that does not end in
`_`; without its `_` it is the alphanumeric characters of the key, upper-cased. -/
theorem canonicalize_canonical (s : List Nat) :
    canonical_prefix (canonicalize s)
      ∧ (canonicalize s).getLast? ≠ some UNDERSCORE
      ∧ (canonicalize s).filter (fun c => c != UNDERSCORE)
        = (s.filter ace_isalnum).map ace_toupper := by
  obtain ⟨h1, h2, h3⟩ := canonicalize_loop_spec s.length (skip_punctuation s) []
    (skip_punctuation_length s)
    ⟨(fun c hc => nomatch hc), (fun e => nomatch e), List.chain'_nil⟩
    (fun e => nomatch e)
  refine ⟨h1, h2, ?_⟩
  unfold canonicalize
  rw [h3, skip_punctuation_filter]
  rfl

/-- C29: the result of `canonicalize` holds only upper-case letters, digits and
`_`; it does not start or end with `_` and has no two `_` in a row; without its
`_` it is the alphanumeric characters of the key, in order and upper-cased; it
is empty exactly when the key has no alphanumeric character.  The loop ends by
reaching the end of the key (more iterations allowed give the same result), and
the key `~!abc.123/DefGhi/` gives `ABC_123_DEF_GHI`. -/
theorem canonicalize_shape (s : List Nat) :
    (∀ c ∈ canonicalize s, (65 ≤ c ∧ c ≤ 90) ∨ (48 ≤ c ∧ c ≤ 57) ∨ c = UNDERSCORE)
      ∧ (canonicalize s).head? ≠ some UNDERSCORE
      ∧ (canonicalize s).getLast? ≠ some UNDERSCORE
      ∧ List.Chain' (fun a b => ¬ (a = UNDERSCORE ∧ b = UNDERSCORE)) (canonicalize s)
      ∧ (canonicalize s).filter (fun c => c != UNDERSCORE)
        = (s.filter ace_isalnum).map ace_toupper
      ∧ (canonicalize s = [] ↔ ∀ c ∈ s, ace_isalnum c = false)
      ∧ (∀ fuel, s.length ≤ fuel →
          canonicalize_loop fuel (skip_punctuation s) [] = canonicalize s)
      ∧ canonicalize (char_codes "~!abc.123/DefGhi/") = char_codes "ABC_123_DEF_GHI" := by
  obtain ⟨⟨h1, h2, h3⟩, h4, h5⟩ := canonicalize_canonical s
  refine ⟨h1, h2, h4, h3, h5, ⟨fun he c hc => ?_, fun hn => ?_⟩, fun fuel hf => ?_,
    canonicalize_example⟩
  · rw [he] at h5
    have hnil : s.filter ace_isalnum = [] := by
      have := h5.symm
      simpa using this
    by_contra hcon
    have hmem : c ∈ s.filter ace_isalnum := List.mem_filter.2 ⟨hc, by simpa using hcon⟩
    rw [hnil] at hmem
    cases hmem
  · have hnil : s.filter ace_isalnum = [] := by
      rw [List.filter_eq_nil_iff]
      intro a ha
      rw [hn a ha]
      simp
    rw [hnil] at h5
    cases hc : canonicalize s with
    | nil => rfl
    | cons a w =>
      rw [hc] at h2 h5
      have ha : a = UNDERSCORE := by
        by_contra hne
        have : a ∈ List.filter (fun c => c != UNDERSCORE) (a :: w) :=
          List.mem_filter.2 ⟨List.mem_cons_self _ _, by simpa using hne⟩
        rw [h5] at this
        cases this
      exact absurd (by rw [ha]; rfl) h2
  · exact canonicalize_loop_fuel fuel s.length (skip_punctuation s) []
      (Nat.le_trans (skip_punctuation_length s) hf) (skip_punctuation_length s)

/-- An upper-case letter or digit is alphanumeric, is not lower-case and is its
own upper-cased form. -/
theorem ace_upper_or_digit (c : Nat) (h : (65 ≤ c ∧ c ≤ 90) ∨ (48 ≤ c ∧ c ≤ 57)) :
    ace_isalnum c = true ∧ ace_islower c = false ∧ ace_toupper c = c := by
  have hl : ace_islower c = false := by
    unfold ace_islower
    simp only [decide_eq_false_iff_not]
    omega
  refine ⟨?_, hl, ?_⟩
  · unfold ace_isalnum ace_isupper ace_isdigit
    simp only [Bool.or_eq_true, decide_eq_true_eq]
    omega
  · unfold ace_toupper
    rw [hl]
    rfl

/-- The character `_` is not alphanumeric. -/
theorem ace_isalnum_underscore : ace_isalnum UNDERSCORE = false := by
  decide

/-- The main loop copies what is left of a key in canonical form: the rest of a
key that holds only upper-case letters, digits and single `_`, does not end in
`_`, and starts with `_` only after a non-empty `retval` not ending in `_`, is
appended to `retval` as it is. -/
theorem canonicalize_loop_fixed (fuel : Nat) :
    ∀ (rest acc : List Nat), rest.length ≤ fuel →
      (∀ c ∈ rest, (65 ≤ c ∧ c ≤ 90) ∨ (48 ≤ c ∧ c ≤ 57) ∨ c = UNDERSCORE) →
      List.Chain' (fun a b => ¬ (a = UNDERSCORE ∧ b = UNDERSCORE)) rest →
      rest.getLast? ≠ some UNDERSCORE →
      (rest.head? = some UNDERSCORE → acc ≠ [] ∧ acc.getLast? ≠ some UNDERSCORE) →
      canonicalize_loop fuel rest acc = acc ++ rest := by
  induction fuel with
  | zero =>
    intro rest acc hlen _ _ _ _
    have hr : rest = [] := List.length_eq_zero.1 (Nat.le_zero.1 hlen)
    subst hr
    simp [canonicalize_loop]
  | succ fuel ih =>
    intro rest acc hlen hall hchain hlast hhead
    cases rest with
    | nil => simp [canonicalize_loop]
    | cons x rest =>
      have hlen' : rest.length ≤ fuel := Nat.le_of_succ_le_succ hlen
      have hall' : ∀ c ∈ rest, (65 ≤ c ∧ c ≤ 90) ∨ (48 ≤ c ∧ c ≤ 57) ∨ c = UNDERSCORE :=
        fun c hc => hall c (List.mem_cons_of_mem _ hc)
      have hchain' : List.Chain' (fun a b => ¬ (a = UNDERSCORE ∧ b = UNDERSCORE)) rest :=
        hchain.tail
      have hlast' : rest.getLast? ≠ some UNDERSCORE := by
        cases rest with
        | nil => exact fun e => nomatch e
        | cons y r => rwa [List.getLast?_cons_cons] at hlast
      unfold canonicalize_loop
      dsimp only
      by_cases hu : x = UNDERSCORE
      · subst hu
        obtain ⟨hne, hal⟩ := hhead rfl
        cases rest with
        | nil => exact absurd rfl hlast
        | cons y r =>
          have hy : y ≠ UNDERSCORE := fun e => (List.chain'_cons.1 hchain).1 ⟨rfl, e⟩
          have hyP : (65 ≤ y ∧ y ≤ 90) ∨ (48 ≤ y ∧ y ≤ 57) := by
            rcases hall y (List.mem_cons_of_mem _ (List.mem_cons_self _ _)) with h | h | h
            · exact Or.inl h
            · exact Or.inr h
            · exact absurd h hy
          obtain ⟨hya, hyl, _⟩ := ace_upper_or_digit y hyP
          have hcam : camelcase UNDERSCORE (y :: r) acc = acc := by
            unfold camelcase
            simp [hyl]
          have hskip : skip_punctuation (UNDERSCORE :: y :: r) = y :: r := by
            rw [skip_punctuation]
            simp only [ace_isalnum_underscore, Bool.not_false, if_true]
            exact skip_punctuation_alnum y r hya
          rw [if_neg (by simp [ace_isalnum_underscore]), hcam, hskip]
          have hc : (!(y :: r).isEmpty && !acc.isEmpty
              && acc.getLast? != some UNDERSCORE) = true := by
            simp [hne, hal]
          rw [if_pos hc]
          rw [ih (y :: r) (acc ++ [UNDERSCORE]) hlen' hall' hchain' hlast'
            (fun e => absurd (Option.some.inj e) hy)]
          simp
      · have hxP : (65 ≤ x ∧ x ≤ 90) ∨ (48 ≤ x ∧ x ≤ 57) := by
          rcases hall x (List.mem_cons_self _ _) with h | h | h
          · exact Or.inl h
          · exact Or.inr h
          · exact absurd h hu
        obtain ⟨hxa, _, hxu⟩ := ace_upper_or_digit x hxP
        have hcam : camelcase x rest acc = acc := by
          rcases camelcase_cases x rest acc with h | ⟨_, _, _, _, y, r, hr, hy⟩
          · exact h
          · exfalso
            subst hr
            rcases hall y (List.mem_cons_of_mem _ (List.mem_cons_self _ _)) with h | h | h
            · rw [(ace_upper_or_digit y (Or.inl h)).2.1] at hy
              cases hy
            · rw [(ace_upper_or_digit y (Or.inr h)).2.1] at hy
              cases hy
            · rw [h] at hy
              revert hy
              decide
        rw [if_pos hxa, hcam, hxu]
        rw [ih rest (acc ++ [x]) hlen' hall' hchain' hlast'
          (fun _ => ⟨by simp, by
            rw [List.getLast?_concat]
            exact fun e => hu (Option.some.inj e)⟩)]
        simp

/-- C28: `canonicalize` is idempotent: a key in canonical form is returned as
it is. -/
theorem canonicalize_idempotent (s : List Nat) :
    canonicalize (canonicalize s) = canonicalize s := by
  obtain ⟨⟨h1, h2, h3⟩, h4, _⟩ := canonicalize_canonical s
  generalize canonicalize s = r at h1 h2 h3 h4
  have hskip : skip_punctuation r = r := by
    cases r with
    | nil => rfl
    | cons y w =>
      have hy : y ≠ UNDERSCORE := fun e => h2 (by rw [e]; rfl)
      have hyP : (65 ≤ y ∧ y ≤ 90) ∨ (48 ≤ y ∧ y ≤ 57) := by
        rcases h1 y (List.mem_cons_self _ _) with h | h | h
        · exact Or.inl h
        · exact Or.inr h
        · exact absurd h hy
      exact skip_punctuation_alnum y w (ace_upper_or_digit y hyP).1
  unfold canonicalize
  rw [hskip, canonicalize_loop_fixed r.length r [] (Nat.le_refl _) h1 h3 h4
    (fun e => absurd e h2)]
  rfl

/-! ### Hex strings -/

/-- The digit `nibble_to_hex_char` returns is the lower-case hex digit of the
value modulo 16. -/
theorem nibble_to_hex_char_digit (c : Int) :
    nibble_to_hex_char c = lower_hex_digit (c % 16).toNat := by
  have h1 : 0 ≤ c % 16 := Int.emod_nonneg c (by decide)
  have h2 : c % 16 < 16 := Int.emod_lt_of_pos c (by decide)
  unfold nibble_to_hex_char
  dsimp only
  generalize hn : c % 16 = n at h1 h2
  obtain ⟨k, rfl⟩ := Int.eq_ofNat_of_zero_le h1
  have hk : k < 16 := by omega
  simp only [Int.toNat_ofNat]
  interval_cases k <;> decide

/-- The two digits of a `char`: of the high and of the low nibble of its
byte. -/
theorem nibble_to_hex_char_byte (c : Int) :
    nibble_to_hex_char (c / 16) = lower_hex_digit (byte_of_char c / 16)
      ∧ nibble_to_hex_char c = lower_hex_digit (byte_of_char c % 16) := by
  rw [nibble_to_hex_char_digit, nibble_to_hex_char_digit]
  unfold byte_of_char
  have e1 : ((c / 16) % 16).toNat = (c % 256).toNat / 16 := by omega
  have e2 : (c % 16).toNat = (c % 256).toNat % 16 := by omega
  rw [e1, e2]
  exact ⟨rfl, rfl⟩

/-- The loop of `to_hex_dds_string` appends, for every character left, the
delimiter where one is due and the two digits. -/
theorem to_hex_loop_eq (delim : Int) (delim_every : Nat) :
    ∀ (data : List Int) (i : Nat) (rv : List Int),
      to_hex_loop (delim != 0 && delim_every != 0) delim delim_every i data rv
        = rv ++ (data.enumFrom i).flatMap (fun p =>
            (if delim ≠ 0 ∧ delim_every ≠ 0 ∧ 0 < p.1 ∧ p.1 % delim_every = 0 then [delim]
              else [])
            ++ [lower_hex_digit (byte_of_char p.2 / 16),
                lower_hex_digit (byte_of_char p.2 % 16)]) := by
  intro data
  induction data with
  | nil =>
    intro i rv
    simp [to_hex_loop]
  | cons c rest ih =>
    intro i rv
    unfold to_hex_loop
    dsimp only
    rw [ih, (nibble_to_hex_char_byte c).1, (nibble_to_hex_char_byte c).2]
    simp only [List.enumFrom_cons, List.flatMap_cons, List.append_assoc]
    by_cases hc : delim ≠ 0 ∧ delim_every ≠ 0 ∧ 0 < i ∧ i % delim_every = 0
    · have hb : ((delim != 0 && delim_every != 0) && i != 0 && i % delim_every == 0)
          = true := by
        obtain ⟨h1, h2, h3, h4⟩ := hc
        simp [h1, h2, h4, Nat.pos_iff_ne_zero.1 h3]
      rw [if_pos hb, if_pos hc]
      simp
    · have hb : ¬ ((delim != 0 && delim_every != 0) && i != 0 && i % delim_every == 0)
          = true := by
        intro hb
        apply hc
        simp only [Bool.and_eq_true, bne_iff_ne, ne_eq, beq_iff_eq] at hb
        exact ⟨hb.1.1.1, hb.1.1.2, Nat.pos_of_ne_zero hb.1.2, hb.2⟩
      rw [if_neg hb, if_neg hc]
      simp

/-- The rendering of `to_hex_dds_string` is the one described. -/
theorem to_hex_dds_string_eq (data : List Int) (delim : Int) (delim_every : Nat) :
    to_hex_dds_string data delim delim_every = hex_rendering data delim delim_every := by
  unfold to_hex_dds_string hex_rendering List.enum
  dsimp only
  rw [to_hex_loop_eq]
  rfl

/-- Without a valid delimiter the loop appends two characters per byte. -/
theorem to_hex_loop_length_plain (delim : Int) (delim_every : Nat) :
    ∀ (data : List Int) (i : Nat) (rv : List Int),
      (to_hex_loop false delim delim_every i data rv).length
        = rv.length + 2 * data.length := by
  intro data
  induction data with
  | nil =>
    intro i rv
    simp [to_hex_loop]
  | cons c rest ih =>
    intro i rv
    unfold to_hex_loop
    dsimp only
    rw [ih]
    simp only [Bool.false_and, Bool.false_eq_true, if_false, List.length_append,
      List.length_cons, List.length_nil]
    omega

/-- With a valid delimiter the loop, from the index `j + 1` on, appends two
characters per byte and one delimiter per multiple of `delim_every` among the
indices it passes. -/
theorem to_hex_loop_length_delim (delim : Int) (delim_every : Nat) :
    ∀ (data : List Int) (j : Nat) (rv : List Int),
      (to_hex_loop true delim delim_every (j + 1) data rv).length + j / delim_every
        = rv.length + 2 * data.length + (j + data.length) / delim_every := by
  intro data
  induction data with
  | nil =>
    intro j rv
    simp [to_hex_loop]
  | cons c rest ih =>
    intro j rv
    unfold to_hex_loop
    dsimp only
    have hdiv := Nat.succ_div j delim_every
    have e : j + (c :: rest).length = j + 1 + rest.length := by
      simp only [List.length_cons]
      omega
    rw [e]
    by_cases hm : (j + 1) % delim_every = 0
    · have hb : (true && (j + 1 != 0) && ((j + 1) % delim_every == 0)) = true := by
        simp [hm]
      rw [if_pos hb]
      have hstep := ih (j + 1)
        (((rv ++ [delim]) ++ [nibble_to_hex_char (c / 16)]) ++ [nibble_to_hex_char c])
      rw [if_pos (Nat.dvd_of_mod_eq_zero hm)] at hdiv
      simp only [List.length_append, List.length_cons, List.length_nil] at hstep ⊢
      omega
    · have hb : ¬ (true && (j + 1 != 0) && ((j + 1) % delim_every == 0)) = true := by
        simp [hm]
      rw [if_neg hb]
      have hstep := ih (j + 1)
        ((rv ++ [nibble_to_hex_char (c / 16)]) ++ [nibble_to_hex_char c])
      rw [if_neg (fun h => hm (Nat.mod_eq_zero_of_dvd h))] at hdiv
      simp only [List.length_append, List.length_cons, List.length_nil] at hstep ⊢
      omega

/-- The validity test of the delimiter as a proposition. -/
theorem valid_delim_iff (delim : Int) (delim_every : Nat) :
    (delim != 0 && delim_every != 0) = true ↔ delim ≠ 0 ∧ delim_every ≠ 0 := by
  simp

/-- The length of the rendering: two characters per byte, and with a valid
delimiter one more for every multiple of `delim_every` from 1 to `n - 1`. -/
theorem to_hex_dds_string_length (data : List Int) (delim : Int) (delim_every : Nat) :
    (to_hex_dds_string data delim delim_every).length
      = if delim ≠ 0 ∧ delim_every ≠ 0 ∧ 0 < data.length then
          2 * data.length + (data.length - 1) / delim_every
        else 2 * data.length := by
  unfold to_hex_dds_string
  dsimp only
  by_cases hv : delim ≠ 0 ∧ delim_every ≠ 0
  · rw [(valid_delim_iff delim delim_every).2 hv]
    cases data with
    | nil => simp [to_hex_loop]
    | cons c rest =>
      have hP : delim ≠ 0 ∧ delim_every ≠ 0 ∧ 0 < (c :: rest).length :=
        ⟨hv.1, hv.2, Nat.succ_pos _⟩
      rw [if_pos hP]
      unfold to_hex_loop
      dsimp only
      have h := to_hex_loop_length_delim delim delim_every rest 0
        (([] ++ [nibble_to_hex_char (c / 16)]) ++ [nibble_to_hex_char c])
      have hb : ¬ (true && ((0 : Nat) != 0) && (0 % delim_every == 0)) = true := by
        simp
      rw [if_neg hb]
      simp only [Nat.zero_div, Nat.add_zero, Nat.zero_add, List.nil_append,
        List.length_append, List.length_cons, List.length_nil] at h
      simp only [Nat.zero_add, List.nil_append, List.length_cons, Nat.add_sub_cancel]
      rw [h]
      omega
  · have hb : (delim != 0 && delim_every != 0) = false := by
      rw [← Bool.not_eq_true, valid_delim_iff]
      exact hv
    rw [hb, to_hex_loop_length_plain]
    have hn : ¬ (delim ≠ 0 ∧ delim_every ≠ 0 ∧ 0 < data.length) := fun h => hv ⟨h.1, h.2.1⟩
    rw [if_neg hn]
    simp

/-- The length reserved is the length of the rendering. -/
theorem to_hex_reserved_eq (n : Nat) (delim : Int) (delim_every : Nat) :
    to_hex_reserved n delim delim_every
      = if delim ≠ 0 ∧ delim_every ≠ 0 ∧ 0 < n then 2 * n + (n - 1) / delim_every
        else 2 * n := by
  unfold to_hex_reserved
  dsimp only
  by_cases hv : delim ≠ 0 ∧ delim_every ≠ 0
  · rw [(valid_delim_iff delim delim_every).2 hv]
    by_cases hn : n > 1
    · have hpos : 0 < n := by omega
      have hP : delim ≠ 0 ∧ delim_every ≠ 0 ∧ 0 < n := ⟨hv.1, hv.2, hpos⟩
      have hc : (true && decide (n > 1)) = true := by simp [hn]
      rw [if_pos hc, if_pos hP]
      have hdiv : n / delim_every
          = (n - 1) / delim_every + if delim_every ∣ n then 1 else 0 := by
        have := Nat.succ_div (n - 1) delim_every
        rwa [Nat.sub_add_cancel (Nat.le_of_lt hn)] at this
      by_cases hm : n % delim_every = 0
      · rw [if_pos (Nat.dvd_of_mod_eq_zero hm)] at hdiv
        have hb2 : (n % delim_every == 0) = true := by simpa using hm
        rw [if_pos hb2]
        generalize (n - 1) / delim_every = q at hdiv ⊢
        generalize n / delim_every = r at hdiv ⊢
        omega
      · rw [if_neg (fun h => hm (Nat.mod_eq_zero_of_dvd h))] at hdiv
        have hb2 : ¬ (n % delim_every == 0) = true := by simpa using hm
        rw [if_neg hb2]
        generalize (n - 1) / delim_every = q at hdiv ⊢
        generalize n / delim_every = r at hdiv ⊢
        omega
    · have hc : ¬ (true && decide (n > 1)) = true := by simp [hn]
      rw [if_neg hc]
      by_cases h0 : 0 < n
      · have hP : delim ≠ 0 ∧ delim_every ≠ 0 ∧ 0 < n := ⟨hv.1, hv.2, h0⟩
        rw [if_pos hP]
        have h1 : n = 1 := by omega
        subst h1
        simp
      · rw [if_neg (fun h => h0 h.2.2)]
        omega
  · have hb : (delim != 0 && delim_every != 0) = false := by
      rw [← Bool.not_eq_true, valid_delim_iff]
      exact hv
    rw [hb]
    have hn : ¬ (delim ≠ 0 ∧ delim_every ≠ 0 ∧ 0 < n) := fun h => hv ⟨h.1, h.2.1⟩
    rw [if_neg hn]
    have hc : ¬ (false && decide (n > 1)) = true := by simp
    rw [if_neg hc]
    omega

/-- The rendering of a non-empty buffer starts with the digit of the high
nibble of the first byte. -/
theorem to_hex_dds_string_head (c : Int) (rest : List Int) (delim : Int) (delim_every : Nat) :
    (to_hex_dds_string (c :: rest) delim delim_every).head?
      = some (lower_hex_digit (byte_of_char c / 16)) := by
  unfold to_hex_dds_string
  dsimp only
  rw [to_hex_loop_eq]
  simp [List.enumFrom_cons, List.flatMap_cons]

/-- The rendering of a non-empty buffer ends with the digit of the low nibble
of the last byte. -/
theorem to_hex_loop_last (valid_delim : Bool) (delim : Int) (delim_every : Nat) :
    ∀ (data : List Int) (i : Nat) (rv : List Int) (c : Int), data.getLast? = some c →
      (to_hex_loop valid_delim delim delim_every i data rv).getLast?
        = some (nibble_to_hex_char c) := by
  intro data
  induction data with
  | nil =>
    intro i rv c h
    cases h
  | cons x rest ih =>
    intro i rv c h
    unfold to_hex_loop
    dsimp only
    cases rest with
    | nil =>
      have hx : x = c := by simpa using h
      subst hx
      simp [to_hex_loop]
    | cons y r =>
      rw [List.getLast?_cons_cons] at h
      exact ih _ _ c h

/-- Every lower-case hex digit is one of the characters `0` to `9` and `a` to
`f`. -/
theorem lower_hex_digit_range (n : Nat) (h : n < 16) :
    (48 ≤ lower_hex_digit n ∧ lower_hex_digit n ≤ 57)
      ∨ (97 ≤ lower_hex_digit n ∧ lower_hex_digit n ≤ 102) := by
  interval_cases n <;> decide

/-- C30, refuted as stated.  One zero byte rendered with the delimiter `0`
every one byte gives `00`, which starts and ends with the delimiter character. -/
theorem hex_digit_delimiter_at_both_ends :
    to_hex_dds_string [0] 48 1 = [48, 48]
      ∧ (to_hex_dds_string [0] 48 1).head? = some 48
      ∧ (to_hex_dds_string [0] 48 1).getLast? = some 48 := by
  decide

/-- C30, amended.  `to_hex_dds_string` renders byte by byte in buffer order, the
high-nibble digit before the low-nibble digit, both lower-case, with `delim`
before byte `i` exactly when `delim` and `delim_every` are not zero, `i > 0` and
`i` is a multiple of `delim_every`.  A non-empty rendering starts with the
high-nibble digit of the first byte and ends with the low-nibble digit of the
last byte, so it does not start or end with `delim` unless `delim` is one of the
digits `0` to `9`, `a` to `f`.  Its length is `2n + (n - 1) / delim_every` when
`n > 0` and the delimiter is valid, `2n` otherwise, and that is the length
reserved. -/
theorem to_hex_dds_string_renders (data : List Int) (delim : Int) (delim_every : Nat) :
    to_hex_dds_string data delim delim_every = hex_rendering data delim delim_every
      ∧ (∀ n, n < 16 → lower_hex_digit n
          = (((char_codes "0123456789abcdef").getD n 0 : Nat) : Int))
      ∧ (∀ c rest, data = c :: rest →
          (to_hex_dds_string data delim delim_every).head?
            = some (lower_hex_digit (byte_of_char c / 16)))
      ∧ (∀ c, data.getLast? = some c →
          (to_hex_dds_string data delim delim_every).getLast?
            = some (lower_hex_digit (byte_of_char c % 16)))
      ∧ (¬ ((48 ≤ delim ∧ delim ≤ 57) ∨ (97 ≤ delim ∧ delim ≤ 102)) →
          (to_hex_dds_string data delim delim_every).head? ≠ some delim
            ∧ (to_hex_dds_string data delim delim_every).getLast? ≠ some delim)
      ∧ (to_hex_dds_string data delim delim_every).length
        = (if delim ≠ 0 ∧ delim_every ≠ 0 ∧ 0 < data.length then
            2 * data.length + (data.length - 1) / delim_every
          else 2 * data.length)
      ∧ (to_hex_dds_string data delim delim_every).length
        = to_hex_reserved data.length delim delim_every := by
  have hhead : ∀ c rest, data = c :: rest →
      (to_hex_dds_string data delim delim_every).head?
        = some (lower_hex_digit (byte_of_char c / 16)) := by
    intro c rest hd
    rw [hd]
    exact to_hex_dds_string_head c rest delim delim_every
  have hlast : ∀ c, data.getLast? = some c →
      (to_hex_dds_string data delim delim_every).getLast?
        = some (lower_hex_digit (byte_of_char c % 16)) := by
    intro c hc
    unfold to_hex_dds_string
    dsimp only
    rw [to_hex_loop_last _ delim delim_every data 0 [] c hc, (nibble_to_hex_char_byte c).2]
  refine ⟨to_hex_dds_string_eq data delim delim_every, fun n _ => rfl, hhead, hlast,
    fun hnd => ?_, to_hex_dds_string_length data delim delim_every, ?_⟩
  · cases hdata : data with
    | nil => exact ⟨(fun e => nomatch e), (fun e => nomatch e)⟩
    | cons c rest =>
      rw [← hdata]
      constructor
      · rw [hhead c rest hdata]
        intro e
        have hr := lower_hex_digit_range (byte_of_char c / 16) (by
          unfold byte_of_char
          omega)
        rw [Option.some.inj e] at hr
        exact hnd hr
      · obtain ⟨z, hz⟩ : ∃ z, data.getLast? = some z := by
          rw [hdata]
          exact Option.isSome_iff_exists.1 (by simp)
        rw [hlast z hz]
        intro e
        have hr := lower_hex_digit_range (byte_of_char z % 16) (Nat.mod_lt _ (by decide))
        rw [Option.some.inj e] at hr
        exact hnd hr
  · rw [to_hex_dds_string_length, to_hex_reserved_eq]

/-- The bytes 0x12, 0xab and 0xff (the last two negative as signed `char`) with
`:` every one byte give `12:ab:ff`. -/
theorem to_hex_dds_string_renders_witness :
    to_hex_dds_string [18, -85, -1] 58 1
        = (char_codes "12:ab:ff").map (fun c => (c : Int))
      ∧ (to_hex_dds_string [18, -85, -1] 58 1).head? ≠ some 58
      ∧ (to_hex_dds_string [18, -85, -1] 58 1).getLast? ≠ some 58 :=
  ⟨by decide, (to_hex_dds_string_renders [18, -85, -1] 58 1).2.2.2.2.1 (by decide)⟩

end DCPS
end OpenDDS
